import Mathlib

/-!
Verification of the `or-rs` repository: the `OrN` tagged-union family
(`or-rs/src/enums.rs`) and the `or_gen` attribute-macro rewriter
(`or-rs-macros/src/parser.rs`), shallowly embedded in Lean.

Token streams (`proc_macro2::TokenStream`) are modelled as lists of token
strings; `quote!` interpolation becomes list concatenation.  A literal
brace token is written with the `\x7b` / `\x7d` escapes.  Rust panics are
modelled as an explicit `panicked` outcome; `syn` errors (`Error`) carry a
span description and a message, as in `or-rs-macros/src/error.rs`.
-/

set_option maxRecDepth 100000

/-- A single token of a Rust token stream. -/
abbrev Tok := String

/-- Model of `or-rs-macros/src/error.rs` `Error`: a source span (described
by the offending tokens) plus a human-readable message. -/
structure RsError where
  span : String
  message : String
deriving Repr, DecidableEq

/-- Model of `syn::PathArguments` (the cases the parser distinguishes). -/
inductive PathArgs where
  | noneArgs
  | angleBracketed (args : List Tok)
  | parenthesized (repr : Tok)
deriving Repr, DecidableEq

/-- One segment of a `syn` type path: an identifier plus its arguments. -/
structure PathSeg where
  name : Tok
  args : PathArgs
deriving Repr, DecidableEq

/-- Model of `syn::Type`: either a path type (list of segments) or some
other type, kept as an opaque token. -/
inductive Ty where
  | path (segs : List PathSeg)
  | otherTy (repr : Tok)
deriving Repr, DecidableEq

/-- Token rendering of `PathArgs`, as `quote!` would emit it:
`< a1 , a2 , ... >` for angle-bracketed arguments. -/
def PathArgs.toks : PathArgs → List Tok
  | .noneArgs => []
  | .angleBracketed args => "<" :: (args.intersperse ",") ++ [">"]
  | .parenthesized r => [r]

/-- Token rendering of a path segment. -/
def PathSeg.toks (s : PathSeg) : List Tok := s.name :: s.args.toks

/-- Token rendering of a type (`quote!(#ty)`). -/
def Ty.toks : Ty → List Tok
  | .path segs => List.intercalate ["::"] (segs.map PathSeg.toks)
  | .otherTy r => [r]

/-- String rendering of a type (`quote!(#ty).to_string()`): tokens joined
by single spaces, which is how `TokenStream::to_string` prints them. -/
def Ty.render (ty : Ty) : String := String.intercalate " " ty.toks

mutual
/-- Model of `syn::Expr`, restricted to the shapes
`MacroParser` distinguishes.  Condition expressions, block statements and
terminal expressions are never re-parsed by the macro, so they are kept as
opaque tokens.  A then-block is its statement list (`syn::Block.stmts`). -/
inductive Expr where
  | ifE (cond : Tok) (thenStmts : List Tok) (elseBranch : Option Expr)
  | matchE (scrut : Tok) (arms : List Arm)
  | litE (tok : Tok)
  | methodCallE (tok : Tok)
  | blockE (stmts : List Tok)
  | otherE (tok : Tok)

/-- Model of `syn::Arm`: a pattern (opaque token) and a body expression. -/
inductive Arm where
  | mk (pat : Tok) (body : Expr)
end

/-- A short span description for an expression (used when constructing
`Error::new(&expr, ...)`). -/
def Expr.spanTok : Expr → String
  | .ifE c _ _ => "if " ++ c
  | .matchE s _ => "match " ++ s
  | .litE t => t
  | .methodCallE t => t
  | .blockE _ => "\x7b \x7d"
  | .otherE t => t

/-- Model of `syn::Pat` as matched by `parse_pat_and_ret_type`:
`Pat::Type` (an identifier with an explicit type annotation) or anything
else. -/
inductive Pat where
  | typed (ident : Tok) (ty : Ty)
  | otherPat (repr : Tok)
deriving Repr, DecidableEq

/-- Model of `syn::Local` (a `let` statement): pattern and optional
initializer (`LocalInit`). -/
structure LocalStmt where
  pat : Pat
  init : Option Expr

/-- Result of `syn::parse2::<Stmt>` on the macro input: a `Stmt::Local`,
some other statement kind, or a syn parse error. -/
inductive SynStmt where
  | localS (l : LocalStmt)
  | otherStmt (repr : Tok)
  | parseErr (msg : String)

/-- Outcome of one internal parser step.  The parser threads a mutable
ordinal counter `depth` (`MacroParser.depth`); `ok` and `err` return the
counter's new value (errors are ordinary `Result::Err` values in the
source, so mutations made before the error persist), while `panicked`
models a Rust panic unwinding out of the whole macro invocation. -/
inductive Step (α : Type) where
  | ok (val : α) (depth : Nat)
  | err (e : RsError) (depth : Nat)
  | panicked (msg : String)
deriving Repr, DecidableEq

/-- Outcome of the entry point `MacroParser::parse`, which returns a token
stream or panics (every internal error is surfaced via `panic!`). -/
inductive POut where
  | ok (toks : List Tok)
  | panicked (msg : String)
deriving Repr, DecidableEq

/-- Outcome of a helper that either returns a value or panics. -/
inductive PanicOr (α : Type) where
  | ok (val : α)
  | panicked (msg : String)
deriving Repr, DecidableEq

/-- The error message of `parse_expr` / `parse_expr_at_first` for
unsupported expression kinds. -/
def unsupportedMsg : String :=
  "Unsupported expression found.`if` or `match` expressions are supported."

/-- `parse_enum_type`: from the annotated type, extract the
angle-bracketed generic-argument tokens `< T1 , ... , TN >` of the first
path segment; any other shape is a located error. -/
def MacroParser.parse_enum_type (typ : Ty) : Except RsError (List Tok) :=
  match typ with
  | .path segs =>
    match segs.head? with
    | some seg =>
      match seg.args with
      | .angleBracketed args =>
        .ok (PathArgs.toks (.angleBracketed args))
      | other =>
        .error ⟨String.intercalate " " other.toks, "Fail to parse type declaration"⟩
    | none => .error ⟨Ty.render typ, "Fail to parse type declaration"⟩
  | .otherTy r => .error ⟨r, "Fail to parse type declaration"⟩

/-- `get_or_type_name`: stringify the annotated type and take everything
before the first `<` (the union type name, e.g. `Or3`); if there is no
`<`, the source calls `panic!` via `unwrap_or_else`.  At token level the
prefix of the rendered string before the first `<` character is the
prefix of the token list before the first `<` token (the argument tokens
we consider contain no `<` character themselves). -/
def MacroParser.get_or_type_name (typ : Ty) : PanicOr (List Tok) :=
  let toks := typ.toks
  if toks.contains "<" then
    .ok (toks.takeWhile (fun t => t ≠ "<"))
  else
    .panicked ("fail parse, expect token `,`. str: " ++ Ty.render typ)

/-- `rewrite_method_name`: wrap the given tokens as
`OrName::<T1,...,TN>::Tk(tokens)` where `k` is the current value of the
ordinal counter.  The counter is not modified. -/
def MacroParser.rewrite_method_name (typ : Ty) (depth : Nat)
    (wraped_expr : List Tok) : Step (List Tok) :=
  match MacroParser.parse_enum_type typ with
  | .error e => .err e depth
  | .ok typ_tok =>
    let method_name := "T" ++ toString depth
    match MacroParser.get_or_type_name typ with
    | .panicked m => .panicked m
    | .ok or_type_name =>
      .ok (or_type_name ++ ["::"] ++ typ_tok ++ ["::", method_name, "("]
             ++ wraped_expr ++ [")"]) depth

/-- `parse_stmts`: split the block's statements at `len - 1`
(`stmts.split_at(stmts.len() - 1)`); on an empty list the `usize`
subtraction underflows and the macro panics.  Otherwise the leading
statements pass through verbatim and the trailing statement is wrapped by
`rewrite_method_name`; the block is re-emitted inside braces. -/
def MacroParser.parse_stmts (typ : Ty) (depth : Nat) (stmts : List Tok) :
    Step (List Tok) :=
  match stmts.getLast? with
  | none => .panicked "attempt to subtract with overflow"
  | some last =>
    let before := stmts.dropLast
    match MacroParser.rewrite_method_name typ depth [last] with
    | .panicked m => .panicked m
    | .err e d => .err e d
    | .ok rewrited_stmt d =>
      .ok (["\x7b"] ++ before ++ rewrited_stmt ++ ["\x7d"]) d

/-- `parse_then`: entering a then/else block increments the ordinal
counter once, then rewrites the block's trailing statement only. -/
def MacroParser.parse_then (typ : Ty) (depth : Nat) (then_branch : List Tok) :
    Step (List Tok) :=
  MacroParser.parse_stmts typ (depth + 1) then_branch

mutual
/-- `parse_expr`: recursively rewrite an arm body: `if` and `match`
recurse; literal and method-call terminals are wrapped; everything else is
an unsupported-expression error. -/
def MacroParser.parse_expr (typ : Ty) (depth : Nat) : Expr → Step (List Tok)
  | .ifE cond thenS els => MacroParser.parse_expr_if typ depth cond thenS els
  | .matchE scrut arms => MacroParser.parse_expr_match typ depth scrut arms
  | .litE tok => MacroParser.rewrite_method_name typ depth [tok]
  | .methodCallE tok => MacroParser.rewrite_method_name typ depth [tok]
  | .blockE stmts => .err ⟨Expr.spanTok (.blockE stmts), unsupportedMsg⟩ depth
  | .otherE tok => .err ⟨tok, unsupportedMsg⟩ depth

/-- `parse_expr_if`: rewrite the then-block, then the else branch: a
plain else block is treated like a then-block (and re-wrapped in an extra
brace pair: `else { #then }` where `#then` already carries braces), an
`else if` recurses, anything else is an error. -/
def MacroParser.parse_expr_if (typ : Ty) (depth : Nat) (cond : Tok)
    (thenS : List Tok) (els : Option Expr) : Step (List Tok) :=
  match MacroParser.parse_then typ depth thenS with
  | .panicked m => .panicked m
  | .err e d => .err e d
  | .ok then_tok d1 =>
    let cur_if := ["if", cond] ++ then_tok
    match els with
    | none => .ok cur_if d1
    | some e =>
      match e with
      | .blockE stmts =>
        match MacroParser.parse_then typ d1 stmts with
        | .panicked m => .panicked m
        | .err e2 d2 => .err e2 d2
        | .ok then2 d2 =>
          .ok (cur_if ++ ["else", "\x7b"] ++ then2 ++ ["\x7d"]) d2
      | .ifE c2 t2 e2 =>
        match MacroParser.parse_expr_if typ d1 c2 t2 e2 with
        | .panicked m => .panicked m
        | .err e2 d2 => .err e2 d2
        | .ok if2 d2 => .ok (cur_if ++ ["else"] ++ if2) d2
      | other => .err ⟨other.spanTok, "expected else or elseif"⟩ d1

/-- `parse_expr_match`: rewrite every arm (the scrutinee expression
`expr_match.expr` is never read; the output hard-codes the literal `33`
as scrutinee and appends a `;` inside the emitted expression). -/
def MacroParser.parse_expr_match (typ : Ty) (depth : Nat) (_scrut : Tok)
    (arms : List Arm) : Step (List Tok) :=
  match MacroParser.parse_arms typ depth arms with
  | .panicked m => .panicked m
  | .err e d => .err e d
  | .ok arms_tok d =>
    .ok (["match", "33", "\x7b"] ++ arms_tok ++ ["\x7d", ";"]) d

/-- `parse_match_arm`: re-emit the arm's pattern verbatim and rewrite its
body via `parse_expr`. -/
def MacroParser.parse_match_arm (typ : Ty) (depth : Nat) (arm : Arm) :
    Step (List Tok) :=
  match arm with
  | .mk pat body =>
    match MacroParser.parse_expr typ depth body with
    | .panicked m => .panicked m
    | .err e d => .err e d
    | .ok body_tok d => .ok ([pat, "=>"] ++ body_tok ++ [","]) d

/-- The arm iteration of `parse_expr_match`: the source maps eagerly over
all arms (incrementing the counter once before each arm and mutating it
inside the arm body), collects the per-arm `Result`s into a `Vec`, and
only then collects that into a single `Result`, so the first error is
returned after all arms have been traversed — but a panic in a later arm
aborts immediately. -/
def MacroParser.parse_arms (typ : Ty) (depth : Nat) : List Arm → Step (List Tok)
  | [] => .ok [] depth
  | arm :: rest =>
    match MacroParser.parse_match_arm typ (depth + 1) arm with
    | .panicked m => .panicked m
    | .err e d1 =>
      match MacroParser.parse_arms typ d1 rest with
      | .panicked m => .panicked m
      | .err _ d2 => .err e d2
      | .ok _ d2 => .err e d2
    | .ok toks d1 =>
      match MacroParser.parse_arms typ d1 rest with
      | .panicked m => .panicked m
      | .err e d2 => .err e d2
      | .ok toksRest d2 => .ok (toks ++ toksRest) d2
end

/-- `parse_expr_at_first`: only `if` and `match` are accepted as the
initializer expression. -/
def MacroParser.parse_expr_at_first (typ : Ty) (depth : Nat) :
    Expr → Step (List Tok)
  | .ifE cond thenS els => MacroParser.parse_expr_if typ depth cond thenS els
  | .matchE scrut arms => MacroParser.parse_expr_match typ depth scrut arms
  | e => .err ⟨e.spanTok, unsupportedMsg⟩ depth

/-- `parse_local_init`: rewrite the initializer and prefix `=`. -/
def MacroParser.parse_local_init (typ : Ty) (depth : Nat) (init : Expr) :
    Step (List Tok) :=
  match MacroParser.parse_expr_at_first typ depth init with
  | .panicked m => .panicked m
  | .err e d => .err e d
  | .ok expr_tok d => .ok (["="] ++ expr_tok) d

/-- `parse_pat_and_ret_type`: the pattern must be `Pat::Type`
(identifier with explicit annotation); its tokens and the annotated type
are returned. -/
def MacroParser.parse_pat_and_ret_type : Pat → Except RsError (List Tok × Ty)
  | .typed ident ty => .ok ([ident, ":"] ++ ty.toks, ty)
  | .otherPat r =>
    .error ⟨r, "Fail to parse `let` binding.\nif you use macro you need type annotation using the Or type."⟩

/-- `MacroParser::parse`, the entry point: parse the statement, require a
`Stmt::Local`, extract pattern and annotation, rewrite the initializer
with a fresh counter (`depth = 0`), and re-emit
`let <pat> = <rewritten> ;`.  Every failure path calls `panic!` (the
formatted error message); a missing initializer hits `unreachable!()`. -/
def MacroParser.parse (input : SynStmt) : POut :=
  match input with
  | .parseErr msg => .panicked msg
  | .otherStmt _ => .panicked "expected Stmt::Local, but not"
  | .localS l =>
    match MacroParser.parse_pat_and_ret_type l.pat with
    | .error e => .panicked e.message
    | .ok (pat_tok, typ) =>
      match l.init with
      | none => .panicked "internal error: entered unreachable code"
      | some local_init =>
        match MacroParser.parse_local_init typ 0 local_init with
        | .panicked m => .panicked m
        | .err e _ => .panicked e.message
        | .ok local_tok _ => .ok (["let"] ++ pat_tok ++ local_tok ++ [";"])
/-- Model of `std::any::TypeId`: an abstract runtime type identity,
compared by equality.  Lean has no runtime type identity, so the
`TypeId::of::<Ti>` values are passed to `is_type` as explicit
parameters, one per declared member type plus one for the queried type. -/
abbrev TypeId := Nat

/-- `Or2` (`or-rs/src/enums.rs`): a value of exactly one of 2 types. -/
inductive Or2 (A1 A2 : Type) where
  | T1 (v : A1)
  | T2 (v : A2)

/-- `Or2::is_t1`: true iff the discriminant is 1. -/
def Or2.is_t1 {A1 A2 : Type} : Or2 A1 A2 → Bool
  | .T1 _ => true
  | _ => false

/-- `Or2::is_t2`: true iff the discriminant is 2. -/
def Or2.is_t2 {A1 A2 : Type} : Or2 A1 A2 → Bool
  | .T2 _ => true
  | _ => false

/-- `Or2::as_t1`: the slot-1 payload, if present. -/
def Or2.as_t1 {A1 A2 : Type} : Or2 A1 A2 → Option A1
  | .T1 v => some v
  | _ => none

/-- `Or2::as_t2`: the slot-2 payload, if present. -/
def Or2.as_t2 {A1 A2 : Type} : Or2 A1 A2 → Option A2
  | .T2 v => some v
  | _ => none

/-- `Or2::map_t1`: transform the slot-1 payload, keeping other slots as is. -/
def Or2.map_t1 {A1 A2 B : Type} (f : A1 → B) : Or2 A1 A2 → Or2 B A2
  | .T1 v => .T1 (f v)
  | .T2 v => .T2 v

/-- `Or2::map_t2`: transform the slot-2 payload, keeping other slots as is. -/
def Or2.map_t2 {A1 A2 B : Type} (f : A2 → B) : Or2 A1 A2 → Or2 A1 B
  | .T1 v => .T1 v
  | .T2 v => .T2 (f v)

/-- `Or2::fold`: consolidate into one value by applying the function whose index matches the discriminant. -/
def Or2.fold {A1 A2 T : Type} (x : Or2 A1 A2) (f1 : A1 → T) (f2 : A2 → T) : T :=
  match x with
  | .T1 v => f1 v
  | .T2 v => f2 v

/-- `Or2::is_type::<T>`: compare the queried type's identity with the declared member type of the active slot; the payload value is never inspected. -/
def Or2.is_type {A1 A2 : Type} (id1 : TypeId) (id2 : TypeId) (idT : TypeId) : Or2 A1 A2 → Bool
  | .T1 _ => idT == id1
  | .T2 _ => idT == id2

/-- `Or3` (`or-rs/src/enums.rs`): a value of exactly one of 3 types. -/
inductive Or3 (A1 A2 A3 : Type) where
  | T1 (v : A1)
  | T2 (v : A2)
  | T3 (v : A3)

/-- `Or3::is_t1`: true iff the discriminant is 1. -/
def Or3.is_t1 {A1 A2 A3 : Type} : Or3 A1 A2 A3 → Bool
  | .T1 _ => true
  | _ => false

/-- `Or3::is_t2`: true iff the discriminant is 2. -/
def Or3.is_t2 {A1 A2 A3 : Type} : Or3 A1 A2 A3 → Bool
  | .T2 _ => true
  | _ => false

/-- `Or3::is_t3`: true iff the discriminant is 3. -/
def Or3.is_t3 {A1 A2 A3 : Type} : Or3 A1 A2 A3 → Bool
  | .T3 _ => true
  | _ => false

/-- `Or3::as_t1`: the slot-1 payload, if present. -/
def Or3.as_t1 {A1 A2 A3 : Type} : Or3 A1 A2 A3 → Option A1
  | .T1 v => some v
  | _ => none

/-- `Or3::as_t2`: the slot-2 payload, if present. -/
def Or3.as_t2 {A1 A2 A3 : Type} : Or3 A1 A2 A3 → Option A2
  | .T2 v => some v
  | _ => none

/-- `Or3::as_t3`: the slot-3 payload, if present. -/
def Or3.as_t3 {A1 A2 A3 : Type} : Or3 A1 A2 A3 → Option A3
  | .T3 v => some v
  | _ => none

/-- `Or3::map_t1`: transform the slot-1 payload, keeping other slots as is. -/
def Or3.map_t1 {A1 A2 A3 B : Type} (f : A1 → B) : Or3 A1 A2 A3 → Or3 B A2 A3
  | .T1 v => .T1 (f v)
  | .T2 v => .T2 v
  | .T3 v => .T3 v

/-- `Or3::map_t2`: transform the slot-2 payload, keeping other slots as is. -/
def Or3.map_t2 {A1 A2 A3 B : Type} (f : A2 → B) : Or3 A1 A2 A3 → Or3 A1 B A3
  | .T1 v => .T1 v
  | .T2 v => .T2 (f v)
  | .T3 v => .T3 v

/-- `Or3::map_t3`: transform the slot-3 payload, keeping other slots as is. -/
def Or3.map_t3 {A1 A2 A3 B : Type} (f : A3 → B) : Or3 A1 A2 A3 → Or3 A1 A2 B
  | .T1 v => .T1 v
  | .T2 v => .T2 v
  | .T3 v => .T3 (f v)

/-- `Or3::fold`: consolidate into one value by applying the function whose index matches the discriminant. -/
def Or3.fold {A1 A2 A3 T : Type} (x : Or3 A1 A2 A3) (f1 : A1 → T) (f2 : A2 → T) (f3 : A3 → T) : T :=
  match x with
  | .T1 v => f1 v
  | .T2 v => f2 v
  | .T3 v => f3 v

/-- `Or3::is_type::<T>`: compare the queried type's identity with the declared member type of the active slot; the payload value is never inspected. -/
def Or3.is_type {A1 A2 A3 : Type} (id1 : TypeId) (id2 : TypeId) (id3 : TypeId) (idT : TypeId) : Or3 A1 A2 A3 → Bool
  | .T1 _ => idT == id1
  | .T2 _ => idT == id2
  | .T3 _ => idT == id3

/-- `Or4` (`or-rs/src/enums.rs`): a value of exactly one of 4 types. -/
inductive Or4 (A1 A2 A3 A4 : Type) where
  | T1 (v : A1)
  | T2 (v : A2)
  | T3 (v : A3)
  | T4 (v : A4)

/-- `Or4::is_t1`: true iff the discriminant is 1. -/
def Or4.is_t1 {A1 A2 A3 A4 : Type} : Or4 A1 A2 A3 A4 → Bool
  | .T1 _ => true
  | _ => false

/-- `Or4::is_t2`: true iff the discriminant is 2. -/
def Or4.is_t2 {A1 A2 A3 A4 : Type} : Or4 A1 A2 A3 A4 → Bool
  | .T2 _ => true
  | _ => false

/-- `Or4::is_t3`: true iff the discriminant is 3. -/
def Or4.is_t3 {A1 A2 A3 A4 : Type} : Or4 A1 A2 A3 A4 → Bool
  | .T3 _ => true
  | _ => false

/-- `Or4::is_t4`: true iff the discriminant is 4. -/
def Or4.is_t4 {A1 A2 A3 A4 : Type} : Or4 A1 A2 A3 A4 → Bool
  | .T4 _ => true
  | _ => false

/-- `Or4::as_t1`: the slot-1 payload, if present. -/
def Or4.as_t1 {A1 A2 A3 A4 : Type} : Or4 A1 A2 A3 A4 → Option A1
  | .T1 v => some v
  | _ => none

/-- `Or4::as_t2`: the slot-2 payload, if present. -/
def Or4.as_t2 {A1 A2 A3 A4 : Type} : Or4 A1 A2 A3 A4 → Option A2
  | .T2 v => some v
  | _ => none

/-- `Or4::as_t3`: the slot-3 payload, if present. -/
def Or4.as_t3 {A1 A2 A3 A4 : Type} : Or4 A1 A2 A3 A4 → Option A3
  | .T3 v => some v
  | _ => none

/-- `Or4::as_t4`: the slot-4 payload, if present. -/
def Or4.as_t4 {A1 A2 A3 A4 : Type} : Or4 A1 A2 A3 A4 → Option A4
  | .T4 v => some v
  | _ => none

/-- `Or4::map_t1`: transform the slot-1 payload, keeping other slots as is. -/
def Or4.map_t1 {A1 A2 A3 A4 B : Type} (f : A1 → B) : Or4 A1 A2 A3 A4 → Or4 B A2 A3 A4
  | .T1 v => .T1 (f v)
  | .T2 v => .T2 v
  | .T3 v => .T3 v
  | .T4 v => .T4 v

/-- `Or4::map_t2`: transform the slot-2 payload, keeping other slots as is. -/
def Or4.map_t2 {A1 A2 A3 A4 B : Type} (f : A2 → B) : Or4 A1 A2 A3 A4 → Or4 A1 B A3 A4
  | .T1 v => .T1 v
  | .T2 v => .T2 (f v)
  | .T3 v => .T3 v
  | .T4 v => .T4 v

/-- `Or4::map_t3`: transform the slot-3 payload, keeping other slots as is. -/
def Or4.map_t3 {A1 A2 A3 A4 B : Type} (f : A3 → B) : Or4 A1 A2 A3 A4 → Or4 A1 A2 B A4
  | .T1 v => .T1 v
  | .T2 v => .T2 v
  | .T3 v => .T3 (f v)
  | .T4 v => .T4 v

/-- `Or4::map_t4`: transform the slot-4 payload, keeping other slots as is. -/
def Or4.map_t4 {A1 A2 A3 A4 B : Type} (f : A4 → B) : Or4 A1 A2 A3 A4 → Or4 A1 A2 A3 B
  | .T1 v => .T1 v
  | .T2 v => .T2 v
  | .T3 v => .T3 v
  | .T4 v => .T4 (f v)

/-- `Or4::fold`: consolidate into one value by applying the function whose index matches the discriminant. -/
def Or4.fold {A1 A2 A3 A4 T : Type} (x : Or4 A1 A2 A3 A4) (f1 : A1 → T) (f2 : A2 → T) (f3 : A3 → T) (f4 : A4 → T) : T :=
  match x with
  | .T1 v => f1 v
  | .T2 v => f2 v
  | .T3 v => f3 v
  | .T4 v => f4 v

/-- `Or4::is_type::<T>`: compare the queried type's identity with the declared member type of the active slot; the payload value is never inspected. -/
def Or4.is_type {A1 A2 A3 A4 : Type} (id1 : TypeId) (id2 : TypeId) (id3 : TypeId) (id4 : TypeId) (idT : TypeId) : Or4 A1 A2 A3 A4 → Bool
  | .T1 _ => idT == id1
  | .T2 _ => idT == id2
  | .T3 _ => idT == id3
  | .T4 _ => idT == id4

/-- `Or5` (`or-rs/src/enums.rs`): a value of exactly one of 5 types. -/
inductive Or5 (A1 A2 A3 A4 A5 : Type) where
  | T1 (v : A1)
  | T2 (v : A2)
  | T3 (v : A3)
  | T4 (v : A4)
  | T5 (v : A5)

/-- `Or5::is_t1`: true iff the discriminant is 1. -/
def Or5.is_t1 {A1 A2 A3 A4 A5 : Type} : Or5 A1 A2 A3 A4 A5 → Bool
  | .T1 _ => true
  | _ => false

/-- `Or5::is_t2`: true iff the discriminant is 2. -/
def Or5.is_t2 {A1 A2 A3 A4 A5 : Type} : Or5 A1 A2 A3 A4 A5 → Bool
  | .T2 _ => true
  | _ => false

/-- `Or5::is_t3`: true iff the discriminant is 3. -/
def Or5.is_t3 {A1 A2 A3 A4 A5 : Type} : Or5 A1 A2 A3 A4 A5 → Bool
  | .T3 _ => true
  | _ => false

/-- `Or5::is_t4`: true iff the discriminant is 4. -/
def Or5.is_t4 {A1 A2 A3 A4 A5 : Type} : Or5 A1 A2 A3 A4 A5 → Bool
  | .T4 _ => true
  | _ => false

/-- `Or5::is_t5`: true iff the discriminant is 5. -/
def Or5.is_t5 {A1 A2 A3 A4 A5 : Type} : Or5 A1 A2 A3 A4 A5 → Bool
  | .T5 _ => true
  | _ => false

/-- `Or5::as_t1`: the slot-1 payload, if present. -/
def Or5.as_t1 {A1 A2 A3 A4 A5 : Type} : Or5 A1 A2 A3 A4 A5 → Option A1
  | .T1 v => some v
  | _ => none

/-- `Or5::as_t2`: the slot-2 payload, if present. -/
def Or5.as_t2 {A1 A2 A3 A4 A5 : Type} : Or5 A1 A2 A3 A4 A5 → Option A2
  | .T2 v => some v
  | _ => none

/-- `Or5::as_t3`: the slot-3 payload, if present. -/
def Or5.as_t3 {A1 A2 A3 A4 A5 : Type} : Or5 A1 A2 A3 A4 A5 → Option A3
  | .T3 v => some v
  | _ => none

/-- `Or5::as_t4`: the slot-4 payload, if present. -/
def Or5.as_t4 {A1 A2 A3 A4 A5 : Type} : Or5 A1 A2 A3 A4 A5 → Option A4
  | .T4 v => some v
  | _ => none

/-- `Or5::as_t5`: the slot-5 payload, if present. -/
def Or5.as_t5 {A1 A2 A3 A4 A5 : Type} : Or5 A1 A2 A3 A4 A5 → Option A5
  | .T5 v => some v
  | _ => none

/-- `Or5::map_t1`: transform the slot-1 payload, keeping other slots as is. -/
def Or5.map_t1 {A1 A2 A3 A4 A5 B : Type} (f : A1 → B) : Or5 A1 A2 A3 A4 A5 → Or5 B A2 A3 A4 A5
  | .T1 v => .T1 (f v)
  | .T2 v => .T2 v
  | .T3 v => .T3 v
  | .T4 v => .T4 v
  | .T5 v => .T5 v

/-- `Or5::map_t2`: transform the slot-2 payload, keeping other slots as is. -/
def Or5.map_t2 {A1 A2 A3 A4 A5 B : Type} (f : A2 → B) : Or5 A1 A2 A3 A4 A5 → Or5 A1 B A3 A4 A5
  | .T1 v => .T1 v
  | .T2 v => .T2 (f v)
  | .T3 v => .T3 v
  | .T4 v => .T4 v
  | .T5 v => .T5 v

/-- `Or5::map_t3`: transform the slot-3 payload, keeping other slots as is. -/
def Or5.map_t3 {A1 A2 A3 A4 A5 B : Type} (f : A3 → B) : Or5 A1 A2 A3 A4 A5 → Or5 A1 A2 B A4 A5
  | .T1 v => .T1 v
  | .T2 v => .T2 v
  | .T3 v => .T3 (f v)
  | .T4 v => .T4 v
  | .T5 v => .T5 v

/-- `Or5::map_t4`: transform the slot-4 payload, keeping other slots as is. -/
def Or5.map_t4 {A1 A2 A3 A4 A5 B : Type} (f : A4 → B) : Or5 A1 A2 A3 A4 A5 → Or5 A1 A2 A3 B A5
  | .T1 v => .T1 v
  | .T2 v => .T2 v
  | .T3 v => .T3 v
  | .T4 v => .T4 (f v)
  | .T5 v => .T5 v

/-- `Or5::map_t5`: transform the slot-5 payload, keeping other slots as is. -/
def Or5.map_t5 {A1 A2 A3 A4 A5 B : Type} (f : A5 → B) : Or5 A1 A2 A3 A4 A5 → Or5 A1 A2 A3 A4 B
  | .T1 v => .T1 v
  | .T2 v => .T2 v
  | .T3 v => .T3 v
  | .T4 v => .T4 v
  | .T5 v => .T5 (f v)

/-- `Or5::fold`: consolidate into one value by applying the function whose index matches the discriminant. -/
def Or5.fold {A1 A2 A3 A4 A5 T : Type} (x : Or5 A1 A2 A3 A4 A5) (f1 : A1 → T) (f2 : A2 → T) (f3 : A3 → T) (f4 : A4 → T) (f5 : A5 → T) : T :=
  match x with
  | .T1 v => f1 v
  | .T2 v => f2 v
  | .T3 v => f3 v
  | .T4 v => f4 v
  | .T5 v => f5 v

/-- `Or5::is_type::<T>`: compare the queried type's identity with the declared member type of the active slot; the payload value is never inspected. -/
def Or5.is_type {A1 A2 A3 A4 A5 : Type} (id1 : TypeId) (id2 : TypeId) (id3 : TypeId) (id4 : TypeId) (id5 : TypeId) (idT : TypeId) : Or5 A1 A2 A3 A4 A5 → Bool
  | .T1 _ => idT == id1
  | .T2 _ => idT == id2
  | .T3 _ => idT == id3
  | .T4 _ => idT == id4
  | .T5 _ => idT == id5

/-- `Or6` (`or-rs/src/enums.rs`): a value of exactly one of 6 types. -/
inductive Or6 (A1 A2 A3 A4 A5 A6 : Type) where
  | T1 (v : A1)
  | T2 (v : A2)
  | T3 (v : A3)
  | T4 (v : A4)
  | T5 (v : A5)
  | T6 (v : A6)

/-- `Or6::is_t1`: true iff the discriminant is 1. -/
def Or6.is_t1 {A1 A2 A3 A4 A5 A6 : Type} : Or6 A1 A2 A3 A4 A5 A6 → Bool
  | .T1 _ => true
  | _ => false

/-- `Or6::is_t2`: true iff the discriminant is 2. -/
def Or6.is_t2 {A1 A2 A3 A4 A5 A6 : Type} : Or6 A1 A2 A3 A4 A5 A6 → Bool
  | .T2 _ => true
  | _ => false

/-- `Or6::is_t3`: true iff the discriminant is 3. -/
def Or6.is_t3 {A1 A2 A3 A4 A5 A6 : Type} : Or6 A1 A2 A3 A4 A5 A6 → Bool
  | .T3 _ => true
  | _ => false

/-- `Or6::is_t4`: true iff the discriminant is 4. -/
def Or6.is_t4 {A1 A2 A3 A4 A5 A6 : Type} : Or6 A1 A2 A3 A4 A5 A6 → Bool
  | .T4 _ => true
  | _ => false

/-- `Or6::is_t5`: true iff the discriminant is 5. -/
def Or6.is_t5 {A1 A2 A3 A4 A5 A6 : Type} : Or6 A1 A2 A3 A4 A5 A6 → Bool
  | .T5 _ => true
  | _ => false

/-- `Or6::is_t6`: true iff the discriminant is 6. -/
def Or6.is_t6 {A1 A2 A3 A4 A5 A6 : Type} : Or6 A1 A2 A3 A4 A5 A6 → Bool
  | .T6 _ => true
  | _ => false

/-- `Or6::as_t1`: the slot-1 payload, if present. -/
def Or6.as_t1 {A1 A2 A3 A4 A5 A6 : Type} : Or6 A1 A2 A3 A4 A5 A6 → Option A1
  | .T1 v => some v
  | _ => none

/-- `Or6::as_t2`: the slot-2 payload, if present. -/
def Or6.as_t2 {A1 A2 A3 A4 A5 A6 : Type} : Or6 A1 A2 A3 A4 A5 A6 → Option A2
  | .T2 v => some v
  | _ => none

/-- `Or6::as_t3`: the slot-3 payload, if present. -/
def Or6.as_t3 {A1 A2 A3 A4 A5 A6 : Type} : Or6 A1 A2 A3 A4 A5 A6 → Option A3
  | .T3 v => some v
  | _ => none

/-- `Or6::as_t4`: the slot-4 payload, if present. -/
def Or6.as_t4 {A1 A2 A3 A4 A5 A6 : Type} : Or6 A1 A2 A3 A4 A5 A6 → Option A4
  | .T4 v => some v
  | _ => none

/-- `Or6::as_t5`: the slot-5 payload, if present. -/
def Or6.as_t5 {A1 A2 A3 A4 A5 A6 : Type} : Or6 A1 A2 A3 A4 A5 A6 → Option A5
  | .T5 v => some v
  | _ => none

/-- `Or6::as_t6`: the slot-6 payload, if present. -/
def Or6.as_t6 {A1 A2 A3 A4 A5 A6 : Type} : Or6 A1 A2 A3 A4 A5 A6 → Option A6
  | .T6 v => some v
  | _ => none

/-- `Or6::map_t1`: transform the slot-1 payload, keeping other slots as is. -/
def Or6.map_t1 {A1 A2 A3 A4 A5 A6 B : Type} (f : A1 → B) : Or6 A1 A2 A3 A4 A5 A6 → Or6 B A2 A3 A4 A5 A6
  | .T1 v => .T1 (f v)
  | .T2 v => .T2 v
  | .T3 v => .T3 v
  | .T4 v => .T4 v
  | .T5 v => .T5 v
  | .T6 v => .T6 v

/-- `Or6::map_t2`: transform the slot-2 payload, keeping other slots as is. -/
def Or6.map_t2 {A1 A2 A3 A4 A5 A6 B : Type} (f : A2 → B) : Or6 A1 A2 A3 A4 A5 A6 → Or6 A1 B A3 A4 A5 A6
  | .T1 v => .T1 v
  | .T2 v => .T2 (f v)
  | .T3 v => .T3 v
  | .T4 v => .T4 v
  | .T5 v => .T5 v
  | .T6 v => .T6 v

/-- `Or6::map_t3`: transform the slot-3 payload, keeping other slots as is. -/
def Or6.map_t3 {A1 A2 A3 A4 A5 A6 B : Type} (f : A3 → B) : Or6 A1 A2 A3 A4 A5 A6 → Or6 A1 A2 B A4 A5 A6
  | .T1 v => .T1 v
  | .T2 v => .T2 v
  | .T3 v => .T3 (f v)
  | .T4 v => .T4 v
  | .T5 v => .T5 v
  | .T6 v => .T6 v

/-- `Or6::map_t4`: transform the slot-4 payload, keeping other slots as is. -/
def Or6.map_t4 {A1 A2 A3 A4 A5 A6 B : Type} (f : A4 → B) : Or6 A1 A2 A3 A4 A5 A6 → Or6 A1 A2 A3 B A5 A6
  | .T1 v => .T1 v
  | .T2 v => .T2 v
  | .T3 v => .T3 v
  | .T4 v => .T4 (f v)
  | .T5 v => .T5 v
  | .T6 v => .T6 v

/-- `Or6::map_t5`: transform the slot-5 payload, keeping other slots as is. -/
def Or6.map_t5 {A1 A2 A3 A4 A5 A6 B : Type} (f : A5 → B) : Or6 A1 A2 A3 A4 A5 A6 → Or6 A1 A2 A3 A4 B A6
  | .T1 v => .T1 v
  | .T2 v => .T2 v
  | .T3 v => .T3 v
  | .T4 v => .T4 v
  | .T5 v => .T5 (f v)
  | .T6 v => .T6 v

/-- `Or6::map_t6`: transform the slot-6 payload, keeping other slots as is. -/
def Or6.map_t6 {A1 A2 A3 A4 A5 A6 B : Type} (f : A6 → B) : Or6 A1 A2 A3 A4 A5 A6 → Or6 A1 A2 A3 A4 A5 B
  | .T1 v => .T1 v
  | .T2 v => .T2 v
  | .T3 v => .T3 v
  | .T4 v => .T4 v
  | .T5 v => .T5 v
  | .T6 v => .T6 (f v)

/-- `Or6::fold`: consolidate into one value by applying the function whose index matches the discriminant. -/
def Or6.fold {A1 A2 A3 A4 A5 A6 T : Type} (x : Or6 A1 A2 A3 A4 A5 A6) (f1 : A1 → T) (f2 : A2 → T) (f3 : A3 → T) (f4 : A4 → T) (f5 : A5 → T) (f6 : A6 → T) : T :=
  match x with
  | .T1 v => f1 v
  | .T2 v => f2 v
  | .T3 v => f3 v
  | .T4 v => f4 v
  | .T5 v => f5 v
  | .T6 v => f6 v

/-- `Or6::is_type::<T>`: compare the queried type's identity with the declared member type of the active slot; the payload value is never inspected. -/
def Or6.is_type {A1 A2 A3 A4 A5 A6 : Type} (id1 : TypeId) (id2 : TypeId) (id3 : TypeId) (id4 : TypeId) (id5 : TypeId) (id6 : TypeId) (idT : TypeId) : Or6 A1 A2 A3 A4 A5 A6 → Bool
  | .T1 _ => idT == id1
  | .T2 _ => idT == id2
  | .T3 _ => idT == id3
  | .T4 _ => idT == id4
  | .T5 _ => idT == id5
  | .T6 _ => idT == id6

/-- `Or7` (`or-rs/src/enums.rs`): a value of exactly one of 7 types. -/
inductive Or7 (A1 A2 A3 A4 A5 A6 A7 : Type) where
  | T1 (v : A1)
  | T2 (v : A2)
  | T3 (v : A3)
  | T4 (v : A4)
  | T5 (v : A5)
  | T6 (v : A6)
  | T7 (v : A7)

/-- `Or7::is_t1`: true iff the discriminant is 1. -/
def Or7.is_t1 {A1 A2 A3 A4 A5 A6 A7 : Type} : Or7 A1 A2 A3 A4 A5 A6 A7 → Bool
  | .T1 _ => true
  | _ => false

/-- `Or7::is_t2`: true iff the discriminant is 2. -/
def Or7.is_t2 {A1 A2 A3 A4 A5 A6 A7 : Type} : Or7 A1 A2 A3 A4 A5 A6 A7 → Bool
  | .T2 _ => true
  | _ => false

/-- `Or7::is_t3`: true iff the discriminant is 3. -/
def Or7.is_t3 {A1 A2 A3 A4 A5 A6 A7 : Type} : Or7 A1 A2 A3 A4 A5 A6 A7 → Bool
  | .T3 _ => true
  | _ => false

/-- `Or7::is_t4`: true iff the discriminant is 4. -/
def Or7.is_t4 {A1 A2 A3 A4 A5 A6 A7 : Type} : Or7 A1 A2 A3 A4 A5 A6 A7 → Bool
  | .T4 _ => true
  | _ => false

/-- `Or7::is_t5`: true iff the discriminant is 5. -/
def Or7.is_t5 {A1 A2 A3 A4 A5 A6 A7 : Type} : Or7 A1 A2 A3 A4 A5 A6 A7 → Bool
  | .T5 _ => true
  | _ => false

/-- `Or7::is_t6`: true iff the discriminant is 6. -/
def Or7.is_t6 {A1 A2 A3 A4 A5 A6 A7 : Type} : Or7 A1 A2 A3 A4 A5 A6 A7 → Bool
  | .T6 _ => true
  | _ => false

/-- `Or7::is_t7`: true iff the discriminant is 7. -/
def Or7.is_t7 {A1 A2 A3 A4 A5 A6 A7 : Type} : Or7 A1 A2 A3 A4 A5 A6 A7 → Bool
  | .T7 _ => true
  | _ => false

/-- `Or7::as_t1`: the slot-1 payload, if present. -/
def Or7.as_t1 {A1 A2 A3 A4 A5 A6 A7 : Type} : Or7 A1 A2 A3 A4 A5 A6 A7 → Option A1
  | .T1 v => some v
  | _ => none

/-- `Or7::as_t2`: the slot-2 payload, if present. -/
def Or7.as_t2 {A1 A2 A3 A4 A5 A6 A7 : Type} : Or7 A1 A2 A3 A4 A5 A6 A7 → Option A2
  | .T2 v => some v
  | _ => none

/-- `Or7::as_t3`: the slot-3 payload, if present. -/
def Or7.as_t3 {A1 A2 A3 A4 A5 A6 A7 : Type} : Or7 A1 A2 A3 A4 A5 A6 A7 → Option A3
  | .T3 v => some v
  | _ => none

/-- `Or7::as_t4`: the slot-4 payload, if present. -/
def Or7.as_t4 {A1 A2 A3 A4 A5 A6 A7 : Type} : Or7 A1 A2 A3 A4 A5 A6 A7 → Option A4
  | .T4 v => some v
  | _ => none

/-- `Or7::as_t5`: the slot-5 payload, if present. -/
def Or7.as_t5 {A1 A2 A3 A4 A5 A6 A7 : Type} : Or7 A1 A2 A3 A4 A5 A6 A7 → Option A5
  | .T5 v => some v
  | _ => none

/-- `Or7::as_t6`: the slot-6 payload, if present. -/
def Or7.as_t6 {A1 A2 A3 A4 A5 A6 A7 : Type} : Or7 A1 A2 A3 A4 A5 A6 A7 → Option A6
  | .T6 v => some v
  | _ => none

/-- `Or7::as_t7`: the slot-7 payload, if present. -/
def Or7.as_t7 {A1 A2 A3 A4 A5 A6 A7 : Type} : Or7 A1 A2 A3 A4 A5 A6 A7 → Option A7
  | .T7 v => some v
  | _ => none

/-- `Or7::map_t1`: transform the slot-1 payload, keeping other slots as is. -/
def Or7.map_t1 {A1 A2 A3 A4 A5 A6 A7 B : Type} (f : A1 → B) : Or7 A1 A2 A3 A4 A5 A6 A7 → Or7 B A2 A3 A4 A5 A6 A7
  | .T1 v => .T1 (f v)
  | .T2 v => .T2 v
  | .T3 v => .T3 v
  | .T4 v => .T4 v
  | .T5 v => .T5 v
  | .T6 v => .T6 v
  | .T7 v => .T7 v

/-- `Or7::map_t2`: transform the slot-2 payload, keeping other slots as is. -/
def Or7.map_t2 {A1 A2 A3 A4 A5 A6 A7 B : Type} (f : A2 → B) : Or7 A1 A2 A3 A4 A5 A6 A7 → Or7 A1 B A3 A4 A5 A6 A7
  | .T1 v => .T1 v
  | .T2 v => .T2 (f v)
  | .T3 v => .T3 v
  | .T4 v => .T4 v
  | .T5 v => .T5 v
  | .T6 v => .T6 v
  | .T7 v => .T7 v

/-- `Or7::map_t3`: transform the slot-3 payload, keeping other slots as is. -/
def Or7.map_t3 {A1 A2 A3 A4 A5 A6 A7 B : Type} (f : A3 → B) : Or7 A1 A2 A3 A4 A5 A6 A7 → Or7 A1 A2 B A4 A5 A6 A7
  | .T1 v => .T1 v
  | .T2 v => .T2 v
  | .T3 v => .T3 (f v)
  | .T4 v => .T4 v
  | .T5 v => .T5 v
  | .T6 v => .T6 v
  | .T7 v => .T7 v

/-- `Or7::map_t4`: transform the slot-4 payload, keeping other slots as is. -/
def Or7.map_t4 {A1 A2 A3 A4 A5 A6 A7 B : Type} (f : A4 → B) : Or7 A1 A2 A3 A4 A5 A6 A7 → Or7 A1 A2 A3 B A5 A6 A7
  | .T1 v => .T1 v
  | .T2 v => .T2 v
  | .T3 v => .T3 v
  | .T4 v => .T4 (f v)
  | .T5 v => .T5 v
  | .T6 v => .T6 v
  | .T7 v => .T7 v

/-- `Or7::map_t5`: transform the slot-5 payload, keeping other slots as is. -/
def Or7.map_t5 {A1 A2 A3 A4 A5 A6 A7 B : Type} (f : A5 → B) : Or7 A1 A2 A3 A4 A5 A6 A7 → Or7 A1 A2 A3 A4 B A6 A7
  | .T1 v => .T1 v
  | .T2 v => .T2 v
  | .T3 v => .T3 v
  | .T4 v => .T4 v
  | .T5 v => .T5 (f v)
  | .T6 v => .T6 v
  | .T7 v => .T7 v

/-- `Or7::map_t6`: transform the slot-6 payload, keeping other slots as is. -/
def Or7.map_t6 {A1 A2 A3 A4 A5 A6 A7 B : Type} (f : A6 → B) : Or7 A1 A2 A3 A4 A5 A6 A7 → Or7 A1 A2 A3 A4 A5 B A7
  | .T1 v => .T1 v
  | .T2 v => .T2 v
  | .T3 v => .T3 v
  | .T4 v => .T4 v
  | .T5 v => .T5 v
  | .T6 v => .T6 (f v)
  | .T7 v => .T7 v

/-- `Or7::map_t7`: transform the slot-7 payload, keeping other slots as is. -/
def Or7.map_t7 {A1 A2 A3 A4 A5 A6 A7 B : Type} (f : A7 → B) : Or7 A1 A2 A3 A4 A5 A6 A7 → Or7 A1 A2 A3 A4 A5 A6 B
  | .T1 v => .T1 v
  | .T2 v => .T2 v
  | .T3 v => .T3 v
  | .T4 v => .T4 v
  | .T5 v => .T5 v
  | .T6 v => .T6 v
  | .T7 v => .T7 (f v)

/-- `Or7::fold`: consolidate into one value by applying the function whose index matches the discriminant. -/
def Or7.fold {A1 A2 A3 A4 A5 A6 A7 T : Type} (x : Or7 A1 A2 A3 A4 A5 A6 A7) (f1 : A1 → T) (f2 : A2 → T) (f3 : A3 → T) (f4 : A4 → T) (f5 : A5 → T) (f6 : A6 → T) (f7 : A7 → T) : T :=
  match x with
  | .T1 v => f1 v
  | .T2 v => f2 v
  | .T3 v => f3 v
  | .T4 v => f4 v
  | .T5 v => f5 v
  | .T6 v => f6 v
  | .T7 v => f7 v

/-- `Or7::is_type::<T>`: compare the queried type's identity with the declared member type of the active slot; the payload value is never inspected. -/
def Or7.is_type {A1 A2 A3 A4 A5 A6 A7 : Type} (id1 : TypeId) (id2 : TypeId) (id3 : TypeId) (id4 : TypeId) (id5 : TypeId) (id6 : TypeId) (id7 : TypeId) (idT : TypeId) : Or7 A1 A2 A3 A4 A5 A6 A7 → Bool
  | .T1 _ => idT == id1
  | .T2 _ => idT == id2
  | .T3 _ => idT == id3
  | .T4 _ => idT == id4
  | .T5 _ => idT == id5
  | .T6 _ => idT == id6
  | .T7 _ => idT == id7

/-- `Or8` (`or-rs/src/enums.rs`): a value of exactly one of 8 types. -/
inductive Or8 (A1 A2 A3 A4 A5 A6 A7 A8 : Type) where
  | T1 (v : A1)
  | T2 (v : A2)
  | T3 (v : A3)
  | T4 (v : A4)
  | T5 (v : A5)
  | T6 (v : A6)
  | T7 (v : A7)
  | T8 (v : A8)

/-- `Or8::is_t1`: true iff the discriminant is 1. -/
def Or8.is_t1 {A1 A2 A3 A4 A5 A6 A7 A8 : Type} : Or8 A1 A2 A3 A4 A5 A6 A7 A8 → Bool
  | .T1 _ => true
  | _ => false

/-- `Or8::is_t2`: true iff the discriminant is 2. -/
def Or8.is_t2 {A1 A2 A3 A4 A5 A6 A7 A8 : Type} : Or8 A1 A2 A3 A4 A5 A6 A7 A8 → Bool
  | .T2 _ => true
  | _ => false

/-- `Or8::is_t3`: true iff the discriminant is 3. -/
def Or8.is_t3 {A1 A2 A3 A4 A5 A6 A7 A8 : Type} : Or8 A1 A2 A3 A4 A5 A6 A7 A8 → Bool
  | .T3 _ => true
  | _ => false

/-- `Or8::is_t4`: true iff the discriminant is 4. -/
def Or8.is_t4 {A1 A2 A3 A4 A5 A6 A7 A8 : Type} : Or8 A1 A2 A3 A4 A5 A6 A7 A8 → Bool
  | .T4 _ => true
  | _ => false

/-- `Or8::is_t5`: true iff the discriminant is 5. -/
def Or8.is_t5 {A1 A2 A3 A4 A5 A6 A7 A8 : Type} : Or8 A1 A2 A3 A4 A5 A6 A7 A8 → Bool
  | .T5 _ => true
  | _ => false

/-- `Or8::is_t6`: true iff the discriminant is 6. -/
def Or8.is_t6 {A1 A2 A3 A4 A5 A6 A7 A8 : Type} : Or8 A1 A2 A3 A4 A5 A6 A7 A8 → Bool
  | .T6 _ => true
  | _ => false

/-- `Or8::is_t7`: true iff the discriminant is 7. -/
def Or8.is_t7 {A1 A2 A3 A4 A5 A6 A7 A8 : Type} : Or8 A1 A2 A3 A4 A5 A6 A7 A8 → Bool
  | .T7 _ => true
  | _ => false

/-- `Or8::is_t8`: true iff the discriminant is 8. -/
def Or8.is_t8 {A1 A2 A3 A4 A5 A6 A7 A8 : Type} : Or8 A1 A2 A3 A4 A5 A6 A7 A8 → Bool
  | .T8 _ => true
  | _ => false

/-- `Or8::as_t1`: the slot-1 payload, if present. -/
def Or8.as_t1 {A1 A2 A3 A4 A5 A6 A7 A8 : Type} : Or8 A1 A2 A3 A4 A5 A6 A7 A8 → Option A1
  | .T1 v => some v
  | _ => none

/-- `Or8::as_t2`: the slot-2 payload, if present. -/
def Or8.as_t2 {A1 A2 A3 A4 A5 A6 A7 A8 : Type} : Or8 A1 A2 A3 A4 A5 A6 A7 A8 → Option A2
  | .T2 v => some v
  | _ => none

/-- `Or8::as_t3`: the slot-3 payload, if present. -/
def Or8.as_t3 {A1 A2 A3 A4 A5 A6 A7 A8 : Type} : Or8 A1 A2 A3 A4 A5 A6 A7 A8 → Option A3
  | .T3 v => some v
  | _ => none

/-- `Or8::as_t4`: the slot-4 payload, if present. -/
def Or8.as_t4 {A1 A2 A3 A4 A5 A6 A7 A8 : Type} : Or8 A1 A2 A3 A4 A5 A6 A7 A8 → Option A4
  | .T4 v => some v
  | _ => none

/-- `Or8::as_t5`: the slot-5 payload, if present. -/
def Or8.as_t5 {A1 A2 A3 A4 A5 A6 A7 A8 : Type} : Or8 A1 A2 A3 A4 A5 A6 A7 A8 → Option A5
  | .T5 v => some v
  | _ => none

/-- `Or8::as_t6`: the slot-6 payload, if present. -/
def Or8.as_t6 {A1 A2 A3 A4 A5 A6 A7 A8 : Type} : Or8 A1 A2 A3 A4 A5 A6 A7 A8 → Option A6
  | .T6 v => some v
  | _ => none

/-- `Or8::as_t7`: the slot-7 payload, if present. -/
def Or8.as_t7 {A1 A2 A3 A4 A5 A6 A7 A8 : Type} : Or8 A1 A2 A3 A4 A5 A6 A7 A8 → Option A7
  | .T7 v => some v
  | _ => none

/-- `Or8::as_t8`: the slot-8 payload, if present. -/
def Or8.as_t8 {A1 A2 A3 A4 A5 A6 A7 A8 : Type} : Or8 A1 A2 A3 A4 A5 A6 A7 A8 → Option A8
  | .T8 v => some v
  | _ => none

/-- `Or8::map_t1`: transform the slot-1 payload, keeping other slots as is. -/
def Or8.map_t1 {A1 A2 A3 A4 A5 A6 A7 A8 B : Type} (f : A1 → B) : Or8 A1 A2 A3 A4 A5 A6 A7 A8 → Or8 B A2 A3 A4 A5 A6 A7 A8
  | .T1 v => .T1 (f v)
  | .T2 v => .T2 v
  | .T3 v => .T3 v
  | .T4 v => .T4 v
  | .T5 v => .T5 v
  | .T6 v => .T6 v
  | .T7 v => .T7 v
  | .T8 v => .T8 v

/-- `Or8::map_t2`: transform the slot-2 payload, keeping other slots as is. -/
def Or8.map_t2 {A1 A2 A3 A4 A5 A6 A7 A8 B : Type} (f : A2 → B) : Or8 A1 A2 A3 A4 A5 A6 A7 A8 → Or8 A1 B A3 A4 A5 A6 A7 A8
  | .T1 v => .T1 v
  | .T2 v => .T2 (f v)
  | .T3 v => .T3 v
  | .T4 v => .T4 v
  | .T5 v => .T5 v
  | .T6 v => .T6 v
  | .T7 v => .T7 v
  | .T8 v => .T8 v

/-- `Or8::map_t3`: transform the slot-3 payload, keeping other slots as is. -/
def Or8.map_t3 {A1 A2 A3 A4 A5 A6 A7 A8 B : Type} (f : A3 → B) : Or8 A1 A2 A3 A4 A5 A6 A7 A8 → Or8 A1 A2 B A4 A5 A6 A7 A8
  | .T1 v => .T1 v
  | .T2 v => .T2 v
  | .T3 v => .T3 (f v)
  | .T4 v => .T4 v
  | .T5 v => .T5 v
  | .T6 v => .T6 v
  | .T7 v => .T7 v
  | .T8 v => .T8 v

/-- `Or8::map_t4`: transform the slot-4 payload, keeping other slots as is. -/
def Or8.map_t4 {A1 A2 A3 A4 A5 A6 A7 A8 B : Type} (f : A4 → B) : Or8 A1 A2 A3 A4 A5 A6 A7 A8 → Or8 A1 A2 A3 B A5 A6 A7 A8
  | .T1 v => .T1 v
  | .T2 v => .T2 v
  | .T3 v => .T3 v
  | .T4 v => .T4 (f v)
  | .T5 v => .T5 v
  | .T6 v => .T6 v
  | .T7 v => .T7 v
  | .T8 v => .T8 v

/-- `Or8::map_t5`: transform the slot-5 payload, keeping other slots as is. -/
def Or8.map_t5 {A1 A2 A3 A4 A5 A6 A7 A8 B : Type} (f : A5 → B) : Or8 A1 A2 A3 A4 A5 A6 A7 A8 → Or8 A1 A2 A3 A4 B A6 A7 A8
  | .T1 v => .T1 v
  | .T2 v => .T2 v
  | .T3 v => .T3 v
  | .T4 v => .T4 v
  | .T5 v => .T5 (f v)
  | .T6 v => .T6 v
  | .T7 v => .T7 v
  | .T8 v => .T8 v

/-- `Or8::map_t6`: transform the slot-6 payload, keeping other slots as is. -/
def Or8.map_t6 {A1 A2 A3 A4 A5 A6 A7 A8 B : Type} (f : A6 → B) : Or8 A1 A2 A3 A4 A5 A6 A7 A8 → Or8 A1 A2 A3 A4 A5 B A7 A8
  | .T1 v => .T1 v
  | .T2 v => .T2 v
  | .T3 v => .T3 v
  | .T4 v => .T4 v
  | .T5 v => .T5 v
  | .T6 v => .T6 (f v)
  | .T7 v => .T7 v
  | .T8 v => .T8 v

/-- `Or8::map_t7`: transform the slot-7 payload, keeping other slots as is. -/
def Or8.map_t7 {A1 A2 A3 A4 A5 A6 A7 A8 B : Type} (f : A7 → B) : Or8 A1 A2 A3 A4 A5 A6 A7 A8 → Or8 A1 A2 A3 A4 A5 A6 B A8
  | .T1 v => .T1 v
  | .T2 v => .T2 v
  | .T3 v => .T3 v
  | .T4 v => .T4 v
  | .T5 v => .T5 v
  | .T6 v => .T6 v
  | .T7 v => .T7 (f v)
  | .T8 v => .T8 v

/-- `Or8::map_t8`: transform the slot-8 payload, keeping other slots as is. -/
def Or8.map_t8 {A1 A2 A3 A4 A5 A6 A7 A8 B : Type} (f : A8 → B) : Or8 A1 A2 A3 A4 A5 A6 A7 A8 → Or8 A1 A2 A3 A4 A5 A6 A7 B
  | .T1 v => .T1 v
  | .T2 v => .T2 v
  | .T3 v => .T3 v
  | .T4 v => .T4 v
  | .T5 v => .T5 v
  | .T6 v => .T6 v
  | .T7 v => .T7 v
  | .T8 v => .T8 (f v)

/-- `Or8::fold`: consolidate into one value by applying the function whose index matches the discriminant. -/
def Or8.fold {A1 A2 A3 A4 A5 A6 A7 A8 T : Type} (x : Or8 A1 A2 A3 A4 A5 A6 A7 A8) (f1 : A1 → T) (f2 : A2 → T) (f3 : A3 → T) (f4 : A4 → T) (f5 : A5 → T) (f6 : A6 → T) (f7 : A7 → T) (f8 : A8 → T) : T :=
  match x with
  | .T1 v => f1 v
  | .T2 v => f2 v
  | .T3 v => f3 v
  | .T4 v => f4 v
  | .T5 v => f5 v
  | .T6 v => f6 v
  | .T7 v => f7 v
  | .T8 v => f8 v

/-- `Or8::is_type::<T>`: compare the queried type's identity with the declared member type of the active slot; the payload value is never inspected. -/
def Or8.is_type {A1 A2 A3 A4 A5 A6 A7 A8 : Type} (id1 : TypeId) (id2 : TypeId) (id3 : TypeId) (id4 : TypeId) (id5 : TypeId) (id6 : TypeId) (id7 : TypeId) (id8 : TypeId) (idT : TypeId) : Or8 A1 A2 A3 A4 A5 A6 A7 A8 → Bool
  | .T1 _ => idT == id1
  | .T2 _ => idT == id2
  | .T3 _ => idT == id3
  | .T4 _ => idT == id4
  | .T5 _ => idT == id5
  | .T6 _ => idT == id6
  | .T7 _ => idT == id7
  | .T8 _ => idT == id8

/-- `Or9` (`or-rs/src/enums.rs`): a value of exactly one of 9 types. -/
inductive Or9 (A1 A2 A3 A4 A5 A6 A7 A8 A9 : Type) where
  | T1 (v : A1)
  | T2 (v : A2)
  | T3 (v : A3)
  | T4 (v : A4)
  | T5 (v : A5)
  | T6 (v : A6)
  | T7 (v : A7)
  | T8 (v : A8)
  | T9 (v : A9)

/-- `Or9::is_t1`: true iff the discriminant is 1. -/
def Or9.is_t1 {A1 A2 A3 A4 A5 A6 A7 A8 A9 : Type} : Or9 A1 A2 A3 A4 A5 A6 A7 A8 A9 → Bool
  | .T1 _ => true
  | _ => false

/-- `Or9::is_t2`: true iff the discriminant is 2. -/
def Or9.is_t2 {A1 A2 A3 A4 A5 A6 A7 A8 A9 : Type} : Or9 A1 A2 A3 A4 A5 A6 A7 A8 A9 → Bool
  | .T2 _ => true
  | _ => false

/-- `Or9::is_t3`: true iff the discriminant is 3. -/
def Or9.is_t3 {A1 A2 A3 A4 A5 A6 A7 A8 A9 : Type} : Or9 A1 A2 A3 A4 A5 A6 A7 A8 A9 → Bool
  | .T3 _ => true
  | _ => false

/-- `Or9::is_t4`: true iff the discriminant is 4. -/
def Or9.is_t4 {A1 A2 A3 A4 A5 A6 A7 A8 A9 : Type} : Or9 A1 A2 A3 A4 A5 A6 A7 A8 A9 → Bool
  | .T4 _ => true
  | _ => false

/-- `Or9::is_t5`: true iff the discriminant is 5. -/
def Or9.is_t5 {A1 A2 A3 A4 A5 A6 A7 A8 A9 : Type} : Or9 A1 A2 A3 A4 A5 A6 A7 A8 A9 → Bool
  | .T5 _ => true
  | _ => false

/-- `Or9::is_t6`: true iff the discriminant is 6. -/
def Or9.is_t6 {A1 A2 A3 A4 A5 A6 A7 A8 A9 : Type} : Or9 A1 A2 A3 A4 A5 A6 A7 A8 A9 → Bool
  | .T6 _ => true
  | _ => false

/-- `Or9::is_t7`: true iff the discriminant is 7. -/
def Or9.is_t7 {A1 A2 A3 A4 A5 A6 A7 A8 A9 : Type} : Or9 A1 A2 A3 A4 A5 A6 A7 A8 A9 → Bool
  | .T7 _ => true
  | _ => false

/-- `Or9::is_t8`: true iff the discriminant is 8. -/
def Or9.is_t8 {A1 A2 A3 A4 A5 A6 A7 A8 A9 : Type} : Or9 A1 A2 A3 A4 A5 A6 A7 A8 A9 → Bool
  | .T8 _ => true
  | _ => false

/-- `Or9::is_t9`: true iff the discriminant is 9. -/
def Or9.is_t9 {A1 A2 A3 A4 A5 A6 A7 A8 A9 : Type} : Or9 A1 A2 A3 A4 A5 A6 A7 A8 A9 → Bool
  | .T9 _ => true
  | _ => false

/-- `Or9::as_t1`: the slot-1 payload, if present. -/
def Or9.as_t1 {A1 A2 A3 A4 A5 A6 A7 A8 A9 : Type} : Or9 A1 A2 A3 A4 A5 A6 A7 A8 A9 → Option A1
  | .T1 v => some v
  | _ => none

/-- `Or9::as_t2`: the slot-2 payload, if present. -/
def Or9.as_t2 {A1 A2 A3 A4 A5 A6 A7 A8 A9 : Type} : Or9 A1 A2 A3 A4 A5 A6 A7 A8 A9 → Option A2
  | .T2 v => some v
  | _ => none

/-- `Or9::as_t3`: the slot-3 payload, if present. -/
def Or9.as_t3 {A1 A2 A3 A4 A5 A6 A7 A8 A9 : Type} : Or9 A1 A2 A3 A4 A5 A6 A7 A8 A9 → Option A3
  | .T3 v => some v
  | _ => none

/-- `Or9::as_t4`: the slot-4 payload, if present. -/
def Or9.as_t4 {A1 A2 A3 A4 A5 A6 A7 A8 A9 : Type} : Or9 A1 A2 A3 A4 A5 A6 A7 A8 A9 → Option A4
  | .T4 v => some v
  | _ => none

/-- `Or9::as_t5`: the slot-5 payload, if present. -/
def Or9.as_t5 {A1 A2 A3 A4 A5 A6 A7 A8 A9 : Type} : Or9 A1 A2 A3 A4 A5 A6 A7 A8 A9 → Option A5
  | .T5 v => some v
  | _ => none

/-- `Or9::as_t6`: the slot-6 payload, if present. -/
def Or9.as_t6 {A1 A2 A3 A4 A5 A6 A7 A8 A9 : Type} : Or9 A1 A2 A3 A4 A5 A6 A7 A8 A9 → Option A6
  | .T6 v => some v
  | _ => none

/-- `Or9::as_t7`: the slot-7 payload, if present. -/
def Or9.as_t7 {A1 A2 A3 A4 A5 A6 A7 A8 A9 : Type} : Or9 A1 A2 A3 A4 A5 A6 A7 A8 A9 → Option A7
  | .T7 v => some v
  | _ => none

/-- `Or9::as_t8`: the slot-8 payload, if present. -/
def Or9.as_t8 {A1 A2 A3 A4 A5 A6 A7 A8 A9 : Type} : Or9 A1 A2 A3 A4 A5 A6 A7 A8 A9 → Option A8
  | .T8 v => some v
  | _ => none

/-- `Or9::as_t9`: the slot-9 payload, if present. -/
def Or9.as_t9 {A1 A2 A3 A4 A5 A6 A7 A8 A9 : Type} : Or9 A1 A2 A3 A4 A5 A6 A7 A8 A9 → Option A9
  | .T9 v => some v
  | _ => none

/-- `Or9::map_t1`: transform the slot-1 payload, keeping other slots as is. -/
def Or9.map_t1 {A1 A2 A3 A4 A5 A6 A7 A8 A9 B : Type} (f : A1 → B) : Or9 A1 A2 A3 A4 A5 A6 A7 A8 A9 → Or9 B A2 A3 A4 A5 A6 A7 A8 A9
  | .T1 v => .T1 (f v)
  | .T2 v => .T2 v
  | .T3 v => .T3 v
  | .T4 v => .T4 v
  | .T5 v => .T5 v
  | .T6 v => .T6 v
  | .T7 v => .T7 v
  | .T8 v => .T8 v
  | .T9 v => .T9 v

/-- `Or9::map_t2`: transform the slot-2 payload, keeping other slots as is. -/
def Or9.map_t2 {A1 A2 A3 A4 A5 A6 A7 A8 A9 B : Type} (f : A2 → B) : Or9 A1 A2 A3 A4 A5 A6 A7 A8 A9 → Or9 A1 B A3 A4 A5 A6 A7 A8 A9
  | .T1 v => .T1 v
  | .T2 v => .T2 (f v)
  | .T3 v => .T3 v
  | .T4 v => .T4 v
  | .T5 v => .T5 v
  | .T6 v => .T6 v
  | .T7 v => .T7 v
  | .T8 v => .T8 v
  | .T9 v => .T9 v

/-- `Or9::map_t3`: transform the slot-3 payload, keeping other slots as is. -/
def Or9.map_t3 {A1 A2 A3 A4 A5 A6 A7 A8 A9 B : Type} (f : A3 → B) : Or9 A1 A2 A3 A4 A5 A6 A7 A8 A9 → Or9 A1 A2 B A4 A5 A6 A7 A8 A9
  | .T1 v => .T1 v
  | .T2 v => .T2 v
  | .T3 v => .T3 (f v)
  | .T4 v => .T4 v
  | .T5 v => .T5 v
  | .T6 v => .T6 v
  | .T7 v => .T7 v
  | .T8 v => .T8 v
  | .T9 v => .T9 v

/-- `Or9::map_t4`: transform the slot-4 payload, keeping other slots as is. -/
def Or9.map_t4 {A1 A2 A3 A4 A5 A6 A7 A8 A9 B : Type} (f : A4 → B) : Or9 A1 A2 A3 A4 A5 A6 A7 A8 A9 → Or9 A1 A2 A3 B A5 A6 A7 A8 A9
  | .T1 v => .T1 v
  | .T2 v => .T2 v
  | .T3 v => .T3 v
  | .T4 v => .T4 (f v)
  | .T5 v => .T5 v
  | .T6 v => .T6 v
  | .T7 v => .T7 v
  | .T8 v => .T8 v
  | .T9 v => .T9 v

/-- `Or9::map_t5`: transform the slot-5 payload, keeping other slots as is. -/
def Or9.map_t5 {A1 A2 A3 A4 A5 A6 A7 A8 A9 B : Type} (f : A5 → B) : Or9 A1 A2 A3 A4 A5 A6 A7 A8 A9 → Or9 A1 A2 A3 A4 B A6 A7 A8 A9
  | .T1 v => .T1 v
  | .T2 v => .T2 v
  | .T3 v => .T3 v
  | .T4 v => .T4 v
  | .T5 v => .T5 (f v)
  | .T6 v => .T6 v
  | .T7 v => .T7 v
  | .T8 v => .T8 v
  | .T9 v => .T9 v

/-- `Or9::map_t6`: transform the slot-6 payload, keeping other slots as is. -/
def Or9.map_t6 {A1 A2 A3 A4 A5 A6 A7 A8 A9 B : Type} (f : A6 → B) : Or9 A1 A2 A3 A4 A5 A6 A7 A8 A9 → Or9 A1 A2 A3 A4 A5 B A7 A8 A9
  | .T1 v => .T1 v
  | .T2 v => .T2 v
  | .T3 v => .T3 v
  | .T4 v => .T4 v
  | .T5 v => .T5 v
  | .T6 v => .T6 (f v)
  | .T7 v => .T7 v
  | .T8 v => .T8 v
  | .T9 v => .T9 v

/-- `Or9::map_t7`: transform the slot-7 payload, keeping other slots as is. -/
def Or9.map_t7 {A1 A2 A3 A4 A5 A6 A7 A8 A9 B : Type} (f : A7 → B) : Or9 A1 A2 A3 A4 A5 A6 A7 A8 A9 → Or9 A1 A2 A3 A4 A5 A6 B A8 A9
  | .T1 v => .T1 v
  | .T2 v => .T2 v
  | .T3 v => .T3 v
  | .T4 v => .T4 v
  | .T5 v => .T5 v
  | .T6 v => .T6 v
  | .T7 v => .T7 (f v)
  | .T8 v => .T8 v
  | .T9 v => .T9 v

/-- `Or9::map_t8`: transform the slot-8 payload, keeping other slots as is. -/
def Or9.map_t8 {A1 A2 A3 A4 A5 A6 A7 A8 A9 B : Type} (f : A8 → B) : Or9 A1 A2 A3 A4 A5 A6 A7 A8 A9 → Or9 A1 A2 A3 A4 A5 A6 A7 B A9
  | .T1 v => .T1 v
  | .T2 v => .T2 v
  | .T3 v => .T3 v
  | .T4 v => .T4 v
  | .T5 v => .T5 v
  | .T6 v => .T6 v
  | .T7 v => .T7 v
  | .T8 v => .T8 (f v)
  | .T9 v => .T9 v

/-- `Or9::map_t9`: transform the slot-9 payload, keeping other slots as is. -/
def Or9.map_t9 {A1 A2 A3 A4 A5 A6 A7 A8 A9 B : Type} (f : A9 → B) : Or9 A1 A2 A3 A4 A5 A6 A7 A8 A9 → Or9 A1 A2 A3 A4 A5 A6 A7 A8 B
  | .T1 v => .T1 v
  | .T2 v => .T2 v
  | .T3 v => .T3 v
  | .T4 v => .T4 v
  | .T5 v => .T5 v
  | .T6 v => .T6 v
  | .T7 v => .T7 v
  | .T8 v => .T8 v
  | .T9 v => .T9 (f v)

/-- `Or9::fold`: consolidate into one value by applying the function whose index matches the discriminant. -/
def Or9.fold {A1 A2 A3 A4 A5 A6 A7 A8 A9 T : Type} (x : Or9 A1 A2 A3 A4 A5 A6 A7 A8 A9) (f1 : A1 → T) (f2 : A2 → T) (f3 : A3 → T) (f4 : A4 → T) (f5 : A5 → T) (f6 : A6 → T) (f7 : A7 → T) (f8 : A8 → T) (f9 : A9 → T) : T :=
  match x with
  | .T1 v => f1 v
  | .T2 v => f2 v
  | .T3 v => f3 v
  | .T4 v => f4 v
  | .T5 v => f5 v
  | .T6 v => f6 v
  | .T7 v => f7 v
  | .T8 v => f8 v
  | .T9 v => f9 v

/-- `Or9::is_type::<T>`: compare the queried type's identity with the declared member type of the active slot; the payload value is never inspected. -/
def Or9.is_type {A1 A2 A3 A4 A5 A6 A7 A8 A9 : Type} (id1 : TypeId) (id2 : TypeId) (id3 : TypeId) (id4 : TypeId) (id5 : TypeId) (id6 : TypeId) (id7 : TypeId) (id8 : TypeId) (id9 : TypeId) (idT : TypeId) : Or9 A1 A2 A3 A4 A5 A6 A7 A8 A9 → Bool
  | .T1 _ => idT == id1
  | .T2 _ => idT == id2
  | .T3 _ => idT == id3
  | .T4 _ => idT == id4
  | .T5 _ => idT == id5
  | .T6 _ => idT == id6
  | .T7 _ => idT == id7
  | .T8 _ => idT == id8
  | .T9 _ => idT == id9
/-- The annotated union type `nm<a1, ..., aN>`: a single path segment with
angle-bracketed generic arguments. -/
def orTy (nm : Tok) (args : List Tok) : Ty := .path [⟨nm, .angleBracketed args⟩]

/-- The tokens of the constructor call `nm::<a1,...,aN>::Tk(w)` that
`rewrite_method_name` emits around a tail expression `w` when the ordinal
counter is `k`. -/
def wrapToks (nm : Tok) (args : List Tok) (k : Nat) (w : List Tok) : List Tok :=
  [nm, "::", "<"] ++ args.intersperse "," ++ [">", "::", "T" ++ toString k, "("] ++ w ++ [")"]

/-- A terminal arm body: one of the two supported terminal expression
kinds — a literal (`true`) or a method call (`false`) — carrying its
token. -/
def termE (isLit : Bool) (t : Tok) : Expr :=
  if isLit then .litE t else .methodCallE t

/-- A flat (non-nested) match arm list: each arm is a pattern with a
terminal body (literal or method call). -/
def flatArms (ps : List (Tok × Bool × Tok)) : List Arm :=
  ps.map (fun p => .mk p.1 (termE p.2.1 p.2.2))

/-- The arm tokens the rewriter emits for flat arms when the ordinal
counter starts at `d`: the j-th arm's tail is wrapped with `T(d + j)` (so
with `d = 0`, labels follow 1-based arm position). -/
def expectedArms (nm : Tok) (targs : List Tok) (d : Nat) :
    List (Tok × Bool × Tok) → List Tok
  | [] => []
  | (p, _, t) :: rest =>
    ([p, "=>"] ++ wrapToks nm targs (d + 1) [t] ++ [","])
      ++ expectedArms nm targs (d + 1) rest

/-- The else-tail of a flat if/else-if/else chain: `rest` gives the
`else if` branches (condition, leading statements, tail token) and `els`
the final plain else block (leading statements, tail token). -/
def chainElse (rest : List (Tok × List Tok × Tok)) (els : List Tok × Tok) : Expr :=
  match rest with
  | [] => .blockE (els.1 ++ [els.2])
  | (c, bs, t) :: rs => .ifE c (bs ++ [t]) (some (chainElse rs els))

/-- A flat if/else-if/else chain with at least one `else if`-free head
branch and a final plain else block. -/
def chainExpr (first : Tok × List Tok × Tok)
    (rest : List (Tok × List Tok × Tok)) (els : List Tok × Tok) : Expr :=
  .ifE first.1 (first.2.1 ++ [first.2.2]) (some (chainElse rest els))

/-- The tokens the rewriter emits for one then/else block whose trailing
statement is wrapped with ordinal `d`. -/
def thenOut (nm : Tok) (targs : List Tok) (d : Nat) (bs : List Tok) (t : Tok) :
    List Tok :=
  ["\x7b"] ++ bs ++ wrapToks nm targs d [t] ++ ["\x7d"]

/-- The tokens the rewriter emits for the else-tail of a flat chain when
the ordinal counter is `d` after the preceding branch: each further
branch increments once more (a plain else block is emitted inside an
extra brace pair). -/
def chainTailOut (nm : Tok) (targs : List Tok) :
    Nat → List (Tok × List Tok × Tok) → (List Tok × Tok) → List Tok
  | d, [], els => ["else", "\x7b"] ++ thenOut nm targs (d + 1) els.1 els.2 ++ ["\x7d"]
  | d, (c, bs, t) :: rs, els =>
    ["else", "if", c] ++ thenOut nm targs (d + 1) bs t
      ++ chainTailOut nm targs (d + 1) rs els

/-- Whether the annotated type is a path whose first segment carries
angle-bracketed generic arguments (the shape `parse_enum_type` accepts). -/
def isOrShapeTy : Ty → Bool
  | .path (⟨_, .angleBracketed _⟩ :: _) => true
  | _ => false

/-- Whether an expression is an `if` or a `match` (the only initializer
kinds `parse_expr_at_first` accepts). -/
def isBranchExpr : Expr → Bool
  | .ifE _ _ _ => true
  | .matchE _ _ => true
  | _ => false

/-- Input classes on which the rewrite fails (amended C4): the statement
is not a `let`, syn fails to parse it, the `let` has no initializer, the
pattern lacks a type annotation, the initializer is neither `if` nor
`match`, or the annotated type is not path-with-generic-arguments and the
initializer forces a tail rewrite (represented by a one-arm literal
match; a bad type alone does not fail when no tail is ever rewritten,
e.g. a zero-arm match). -/
inductive BadInput : SynStmt → Prop where
  | synErr (msg : String) : BadInput (.parseErr msg)
  | notLocal (repr : Tok) : BadInput (.otherStmt repr)
  | noInit (p : Pat) : BadInput (.localS ⟨p, none⟩)
  | untypedPat (repr : Tok) (o : Option Expr) : BadInput (.localS ⟨.otherPat repr, o⟩)
  | badTy (x : Tok) (ty : Ty) (s p t : Tok) : isOrShapeTy ty = false →
      BadInput (.localS ⟨.typed x ty, some (.matchE s [.mk p (.litE t)])⟩)
  | badInit (x : Tok) (ty : Ty) (e : Expr) : isBranchExpr e = false →
      BadInput (.localS ⟨.typed x ty, some e⟩)

/-- C5: for every arity N in 2..=9 and every k in 1..=N, `fold` applied to a value constructed via `Tk(v)` returns `fk v` — for all choices of the other supplied functions, so exactly the k-th function determines the result. -/
theorem fold_selects_kth_function :
    (∀ (A1 A2 T : Type) (v : A1) (f1 : A1 → T) (f2 : A2 → T), Or2.fold (@Or2.T1 A1 A2 v) f1 f2 = f1 v)
    ∧ (∀ (A1 A2 T : Type) (v : A2) (f1 : A1 → T) (f2 : A2 → T), Or2.fold (@Or2.T2 A1 A2 v) f1 f2 = f2 v)
    ∧ (∀ (A1 A2 A3 T : Type) (v : A1) (f1 : A1 → T) (f2 : A2 → T) (f3 : A3 → T), Or3.fold (@Or3.T1 A1 A2 A3 v) f1 f2 f3 = f1 v)
    ∧ (∀ (A1 A2 A3 T : Type) (v : A2) (f1 : A1 → T) (f2 : A2 → T) (f3 : A3 → T), Or3.fold (@Or3.T2 A1 A2 A3 v) f1 f2 f3 = f2 v)
    ∧ (∀ (A1 A2 A3 T : Type) (v : A3) (f1 : A1 → T) (f2 : A2 → T) (f3 : A3 → T), Or3.fold (@Or3.T3 A1 A2 A3 v) f1 f2 f3 = f3 v)
    ∧ (∀ (A1 A2 A3 A4 T : Type) (v : A1) (f1 : A1 → T) (f2 : A2 → T) (f3 : A3 → T) (f4 : A4 → T), Or4.fold (@Or4.T1 A1 A2 A3 A4 v) f1 f2 f3 f4 = f1 v)
    ∧ (∀ (A1 A2 A3 A4 T : Type) (v : A2) (f1 : A1 → T) (f2 : A2 → T) (f3 : A3 → T) (f4 : A4 → T), Or4.fold (@Or4.T2 A1 A2 A3 A4 v) f1 f2 f3 f4 = f2 v)
    ∧ (∀ (A1 A2 A3 A4 T : Type) (v : A3) (f1 : A1 → T) (f2 : A2 → T) (f3 : A3 → T) (f4 : A4 → T), Or4.fold (@Or4.T3 A1 A2 A3 A4 v) f1 f2 f3 f4 = f3 v)
    ∧ (∀ (A1 A2 A3 A4 T : Type) (v : A4) (f1 : A1 → T) (f2 : A2 → T) (f3 : A3 → T) (f4 : A4 → T), Or4.fold (@Or4.T4 A1 A2 A3 A4 v) f1 f2 f3 f4 = f4 v)
    ∧ (∀ (A1 A2 A3 A4 A5 T : Type) (v : A1) (f1 : A1 → T) (f2 : A2 → T) (f3 : A3 → T) (f4 : A4 → T) (f5 : A5 → T), Or5.fold (@Or5.T1 A1 A2 A3 A4 A5 v) f1 f2 f3 f4 f5 = f1 v)
    ∧ (∀ (A1 A2 A3 A4 A5 T : Type) (v : A2) (f1 : A1 → T) (f2 : A2 → T) (f3 : A3 → T) (f4 : A4 → T) (f5 : A5 → T), Or5.fold (@Or5.T2 A1 A2 A3 A4 A5 v) f1 f2 f3 f4 f5 = f2 v)
    ∧ (∀ (A1 A2 A3 A4 A5 T : Type) (v : A3) (f1 : A1 → T) (f2 : A2 → T) (f3 : A3 → T) (f4 : A4 → T) (f5 : A5 → T), Or5.fold (@Or5.T3 A1 A2 A3 A4 A5 v) f1 f2 f3 f4 f5 = f3 v)
    ∧ (∀ (A1 A2 A3 A4 A5 T : Type) (v : A4) (f1 : A1 → T) (f2 : A2 → T) (f3 : A3 → T) (f4 : A4 → T) (f5 : A5 → T), Or5.fold (@Or5.T4 A1 A2 A3 A4 A5 v) f1 f2 f3 f4 f5 = f4 v)
    ∧ (∀ (A1 A2 A3 A4 A5 T : Type) (v : A5) (f1 : A1 → T) (f2 : A2 → T) (f3 : A3 → T) (f4 : A4 → T) (f5 : A5 → T), Or5.fold (@Or5.T5 A1 A2 A3 A4 A5 v) f1 f2 f3 f4 f5 = f5 v)
    ∧ (∀ (A1 A2 A3 A4 A5 A6 T : Type) (v : A1) (f1 : A1 → T) (f2 : A2 → T) (f3 : A3 → T) (f4 : A4 → T) (f5 : A5 → T) (f6 : A6 → T), Or6.fold (@Or6.T1 A1 A2 A3 A4 A5 A6 v) f1 f2 f3 f4 f5 f6 = f1 v)
    ∧ (∀ (A1 A2 A3 A4 A5 A6 T : Type) (v : A2) (f1 : A1 → T) (f2 : A2 → T) (f3 : A3 → T) (f4 : A4 → T) (f5 : A5 → T) (f6 : A6 → T), Or6.fold (@Or6.T2 A1 A2 A3 A4 A5 A6 v) f1 f2 f3 f4 f5 f6 = f2 v)
    ∧ (∀ (A1 A2 A3 A4 A5 A6 T : Type) (v : A3) (f1 : A1 → T) (f2 : A2 → T) (f3 : A3 → T) (f4 : A4 → T) (f5 : A5 → T) (f6 : A6 → T), Or6.fold (@Or6.T3 A1 A2 A3 A4 A5 A6 v) f1 f2 f3 f4 f5 f6 = f3 v)
    ∧ (∀ (A1 A2 A3 A4 A5 A6 T : Type) (v : A4) (f1 : A1 → T) (f2 : A2 → T) (f3 : A3 → T) (f4 : A4 → T) (f5 : A5 → T) (f6 : A6 → T), Or6.fold (@Or6.T4 A1 A2 A3 A4 A5 A6 v) f1 f2 f3 f4 f5 f6 = f4 v)
    ∧ (∀ (A1 A2 A3 A4 A5 A6 T : Type) (v : A5) (f1 : A1 → T) (f2 : A2 → T) (f3 : A3 → T) (f4 : A4 → T) (f5 : A5 → T) (f6 : A6 → T), Or6.fold (@Or6.T5 A1 A2 A3 A4 A5 A6 v) f1 f2 f3 f4 f5 f6 = f5 v)
    ∧ (∀ (A1 A2 A3 A4 A5 A6 T : Type) (v : A6) (f1 : A1 → T) (f2 : A2 → T) (f3 : A3 → T) (f4 : A4 → T) (f5 : A5 → T) (f6 : A6 → T), Or6.fold (@Or6.T6 A1 A2 A3 A4 A5 A6 v) f1 f2 f3 f4 f5 f6 = f6 v)
    ∧ (∀ (A1 A2 A3 A4 A5 A6 A7 T : Type) (v : A1) (f1 : A1 → T) (f2 : A2 → T) (f3 : A3 → T) (f4 : A4 → T) (f5 : A5 → T) (f6 : A6 → T) (f7 : A7 → T), Or7.fold (@Or7.T1 A1 A2 A3 A4 A5 A6 A7 v) f1 f2 f3 f4 f5 f6 f7 = f1 v)
    ∧ (∀ (A1 A2 A3 A4 A5 A6 A7 T : Type) (v : A2) (f1 : A1 → T) (f2 : A2 → T) (f3 : A3 → T) (f4 : A4 → T) (f5 : A5 → T) (f6 : A6 → T) (f7 : A7 → T), Or7.fold (@Or7.T2 A1 A2 A3 A4 A5 A6 A7 v) f1 f2 f3 f4 f5 f6 f7 = f2 v)
    ∧ (∀ (A1 A2 A3 A4 A5 A6 A7 T : Type) (v : A3) (f1 : A1 → T) (f2 : A2 → T) (f3 : A3 → T) (f4 : A4 → T) (f5 : A5 → T) (f6 : A6 → T) (f7 : A7 → T), Or7.fold (@Or7.T3 A1 A2 A3 A4 A5 A6 A7 v) f1 f2 f3 f4 f5 f6 f7 = f3 v)
    ∧ (∀ (A1 A2 A3 A4 A5 A6 A7 T : Type) (v : A4) (f1 : A1 → T) (f2 : A2 → T) (f3 : A3 → T) (f4 : A4 → T) (f5 : A5 → T) (f6 : A6 → T) (f7 : A7 → T), Or7.fold (@Or7.T4 A1 A2 A3 A4 A5 A6 A7 v) f1 f2 f3 f4 f5 f6 f7 = f4 v)
    ∧ (∀ (A1 A2 A3 A4 A5 A6 A7 T : Type) (v : A5) (f1 : A1 → T) (f2 : A2 → T) (f3 : A3 → T) (f4 : A4 → T) (f5 : A5 → T) (f6 : A6 → T) (f7 : A7 → T), Or7.fold (@Or7.T5 A1 A2 A3 A4 A5 A6 A7 v) f1 f2 f3 f4 f5 f6 f7 = f5 v)
    ∧ (∀ (A1 A2 A3 A4 A5 A6 A7 T : Type) (v : A6) (f1 : A1 → T) (f2 : A2 → T) (f3 : A3 → T) (f4 : A4 → T) (f5 : A5 → T) (f6 : A6 → T) (f7 : A7 → T), Or7.fold (@Or7.T6 A1 A2 A3 A4 A5 A6 A7 v) f1 f2 f3 f4 f5 f6 f7 = f6 v)
    ∧ (∀ (A1 A2 A3 A4 A5 A6 A7 T : Type) (v : A7) (f1 : A1 → T) (f2 : A2 → T) (f3 : A3 → T) (f4 : A4 → T) (f5 : A5 → T) (f6 : A6 → T) (f7 : A7 → T), Or7.fold (@Or7.T7 A1 A2 A3 A4 A5 A6 A7 v) f1 f2 f3 f4 f5 f6 f7 = f7 v)
    ∧ (∀ (A1 A2 A3 A4 A5 A6 A7 A8 T : Type) (v : A1) (f1 : A1 → T) (f2 : A2 → T) (f3 : A3 → T) (f4 : A4 → T) (f5 : A5 → T) (f6 : A6 → T) (f7 : A7 → T) (f8 : A8 → T), Or8.fold (@Or8.T1 A1 A2 A3 A4 A5 A6 A7 A8 v) f1 f2 f3 f4 f5 f6 f7 f8 = f1 v)
    ∧ (∀ (A1 A2 A3 A4 A5 A6 A7 A8 T : Type) (v : A2) (f1 : A1 → T) (f2 : A2 → T) (f3 : A3 → T) (f4 : A4 → T) (f5 : A5 → T) (f6 : A6 → T) (f7 : A7 → T) (f8 : A8 → T), Or8.fold (@Or8.T2 A1 A2 A3 A4 A5 A6 A7 A8 v) f1 f2 f3 f4 f5 f6 f7 f8 = f2 v)
    ∧ (∀ (A1 A2 A3 A4 A5 A6 A7 A8 T : Type) (v : A3) (f1 : A1 → T) (f2 : A2 → T) (f3 : A3 → T) (f4 : A4 → T) (f5 : A5 → T) (f6 : A6 → T) (f7 : A7 → T) (f8 : A8 → T), Or8.fold (@Or8.T3 A1 A2 A3 A4 A5 A6 A7 A8 v) f1 f2 f3 f4 f5 f6 f7 f8 = f3 v)
    ∧ (∀ (A1 A2 A3 A4 A5 A6 A7 A8 T : Type) (v : A4) (f1 : A1 → T) (f2 : A2 → T) (f3 : A3 → T) (f4 : A4 → T) (f5 : A5 → T) (f6 : A6 → T) (f7 : A7 → T) (f8 : A8 → T), Or8.fold (@Or8.T4 A1 A2 A3 A4 A5 A6 A7 A8 v) f1 f2 f3 f4 f5 f6 f7 f8 = f4 v)
    ∧ (∀ (A1 A2 A3 A4 A5 A6 A7 A8 T : Type) (v : A5) (f1 : A1 → T) (f2 : A2 → T) (f3 : A3 → T) (f4 : A4 → T) (f5 : A5 → T) (f6 : A6 → T) (f7 : A7 → T) (f8 : A8 → T), Or8.fold (@Or8.T5 A1 A2 A3 A4 A5 A6 A7 A8 v) f1 f2 f3 f4 f5 f6 f7 f8 = f5 v)
    ∧ (∀ (A1 A2 A3 A4 A5 A6 A7 A8 T : Type) (v : A6) (f1 : A1 → T) (f2 : A2 → T) (f3 : A3 → T) (f4 : A4 → T) (f5 : A5 → T) (f6 : A6 → T) (f7 : A7 → T) (f8 : A8 → T), Or8.fold (@Or8.T6 A1 A2 A3 A4 A5 A6 A7 A8 v) f1 f2 f3 f4 f5 f6 f7 f8 = f6 v)
    ∧ (∀ (A1 A2 A3 A4 A5 A6 A7 A8 T : Type) (v : A7) (f1 : A1 → T) (f2 : A2 → T) (f3 : A3 → T) (f4 : A4 → T) (f5 : A5 → T) (f6 : A6 → T) (f7 : A7 → T) (f8 : A8 → T), Or8.fold (@Or8.T7 A1 A2 A3 A4 A5 A6 A7 A8 v) f1 f2 f3 f4 f5 f6 f7 f8 = f7 v)
    ∧ (∀ (A1 A2 A3 A4 A5 A6 A7 A8 T : Type) (v : A8) (f1 : A1 → T) (f2 : A2 → T) (f3 : A3 → T) (f4 : A4 → T) (f5 : A5 → T) (f6 : A6 → T) (f7 : A7 → T) (f8 : A8 → T), Or8.fold (@Or8.T8 A1 A2 A3 A4 A5 A6 A7 A8 v) f1 f2 f3 f4 f5 f6 f7 f8 = f8 v)
    ∧ (∀ (A1 A2 A3 A4 A5 A6 A7 A8 A9 T : Type) (v : A1) (f1 : A1 → T) (f2 : A2 → T) (f3 : A3 → T) (f4 : A4 → T) (f5 : A5 → T) (f6 : A6 → T) (f7 : A7 → T) (f8 : A8 → T) (f9 : A9 → T), Or9.fold (@Or9.T1 A1 A2 A3 A4 A5 A6 A7 A8 A9 v) f1 f2 f3 f4 f5 f6 f7 f8 f9 = f1 v)
    ∧ (∀ (A1 A2 A3 A4 A5 A6 A7 A8 A9 T : Type) (v : A2) (f1 : A1 → T) (f2 : A2 → T) (f3 : A3 → T) (f4 : A4 → T) (f5 : A5 → T) (f6 : A6 → T) (f7 : A7 → T) (f8 : A8 → T) (f9 : A9 → T), Or9.fold (@Or9.T2 A1 A2 A3 A4 A5 A6 A7 A8 A9 v) f1 f2 f3 f4 f5 f6 f7 f8 f9 = f2 v)
    ∧ (∀ (A1 A2 A3 A4 A5 A6 A7 A8 A9 T : Type) (v : A3) (f1 : A1 → T) (f2 : A2 → T) (f3 : A3 → T) (f4 : A4 → T) (f5 : A5 → T) (f6 : A6 → T) (f7 : A7 → T) (f8 : A8 → T) (f9 : A9 → T), Or9.fold (@Or9.T3 A1 A2 A3 A4 A5 A6 A7 A8 A9 v) f1 f2 f3 f4 f5 f6 f7 f8 f9 = f3 v)
    ∧ (∀ (A1 A2 A3 A4 A5 A6 A7 A8 A9 T : Type) (v : A4) (f1 : A1 → T) (f2 : A2 → T) (f3 : A3 → T) (f4 : A4 → T) (f5 : A5 → T) (f6 : A6 → T) (f7 : A7 → T) (f8 : A8 → T) (f9 : A9 → T), Or9.fold (@Or9.T4 A1 A2 A3 A4 A5 A6 A7 A8 A9 v) f1 f2 f3 f4 f5 f6 f7 f8 f9 = f4 v)
    ∧ (∀ (A1 A2 A3 A4 A5 A6 A7 A8 A9 T : Type) (v : A5) (f1 : A1 → T) (f2 : A2 → T) (f3 : A3 → T) (f4 : A4 → T) (f5 : A5 → T) (f6 : A6 → T) (f7 : A7 → T) (f8 : A8 → T) (f9 : A9 → T), Or9.fold (@Or9.T5 A1 A2 A3 A4 A5 A6 A7 A8 A9 v) f1 f2 f3 f4 f5 f6 f7 f8 f9 = f5 v)
    ∧ (∀ (A1 A2 A3 A4 A5 A6 A7 A8 A9 T : Type) (v : A6) (f1 : A1 → T) (f2 : A2 → T) (f3 : A3 → T) (f4 : A4 → T) (f5 : A5 → T) (f6 : A6 → T) (f7 : A7 → T) (f8 : A8 → T) (f9 : A9 → T), Or9.fold (@Or9.T6 A1 A2 A3 A4 A5 A6 A7 A8 A9 v) f1 f2 f3 f4 f5 f6 f7 f8 f9 = f6 v)
    ∧ (∀ (A1 A2 A3 A4 A5 A6 A7 A8 A9 T : Type) (v : A7) (f1 : A1 → T) (f2 : A2 → T) (f3 : A3 → T) (f4 : A4 → T) (f5 : A5 → T) (f6 : A6 → T) (f7 : A7 → T) (f8 : A8 → T) (f9 : A9 → T), Or9.fold (@Or9.T7 A1 A2 A3 A4 A5 A6 A7 A8 A9 v) f1 f2 f3 f4 f5 f6 f7 f8 f9 = f7 v)
    ∧ (∀ (A1 A2 A3 A4 A5 A6 A7 A8 A9 T : Type) (v : A8) (f1 : A1 → T) (f2 : A2 → T) (f3 : A3 → T) (f4 : A4 → T) (f5 : A5 → T) (f6 : A6 → T) (f7 : A7 → T) (f8 : A8 → T) (f9 : A9 → T), Or9.fold (@Or9.T8 A1 A2 A3 A4 A5 A6 A7 A8 A9 v) f1 f2 f3 f4 f5 f6 f7 f8 f9 = f8 v)
    ∧ (∀ (A1 A2 A3 A4 A5 A6 A7 A8 A9 T : Type) (v : A9) (f1 : A1 → T) (f2 : A2 → T) (f3 : A3 → T) (f4 : A4 → T) (f5 : A5 → T) (f6 : A6 → T) (f7 : A7 → T) (f8 : A8 → T) (f9 : A9 → T), Or9.fold (@Or9.T9 A1 A2 A3 A4 A5 A6 A7 A8 A9 v) f1 f2 f3 f4 f5 f6 f7 f8 f9 = f9 v)
    :=
  ⟨fun _ _ _ _ _ _ => rfl,
   fun _ _ _ _ _ _ => rfl,
   fun _ _ _ _ _ _ _ _ => rfl,
   fun _ _ _ _ _ _ _ _ => rfl,
   fun _ _ _ _ _ _ _ _ => rfl,
   fun _ _ _ _ _ _ _ _ _ _ => rfl,
   fun _ _ _ _ _ _ _ _ _ _ => rfl,
   fun _ _ _ _ _ _ _ _ _ _ => rfl,
   fun _ _ _ _ _ _ _ _ _ _ => rfl,
   fun _ _ _ _ _ _ _ _ _ _ _ _ => rfl,
   fun _ _ _ _ _ _ _ _ _ _ _ _ => rfl,
   fun _ _ _ _ _ _ _ _ _ _ _ _ => rfl,
   fun _ _ _ _ _ _ _ _ _ _ _ _ => rfl,
   fun _ _ _ _ _ _ _ _ _ _ _ _ => rfl,
   fun _ _ _ _ _ _ _ _ _ _ _ _ _ _ => rfl,
   fun _ _ _ _ _ _ _ _ _ _ _ _ _ _ => rfl,
   fun _ _ _ _ _ _ _ _ _ _ _ _ _ _ => rfl,
   fun _ _ _ _ _ _ _ _ _ _ _ _ _ _ => rfl,
   fun _ _ _ _ _ _ _ _ _ _ _ _ _ _ => rfl,
   fun _ _ _ _ _ _ _ _ _ _ _ _ _ _ => rfl,
   fun _ _ _ _ _ _ _ _ _ _ _ _ _ _ _ _ => rfl,
   fun _ _ _ _ _ _ _ _ _ _ _ _ _ _ _ _ => rfl,
   fun _ _ _ _ _ _ _ _ _ _ _ _ _ _ _ _ => rfl,
   fun _ _ _ _ _ _ _ _ _ _ _ _ _ _ _ _ => rfl,
   fun _ _ _ _ _ _ _ _ _ _ _ _ _ _ _ _ => rfl,
   fun _ _ _ _ _ _ _ _ _ _ _ _ _ _ _ _ => rfl,
   fun _ _ _ _ _ _ _ _ _ _ _ _ _ _ _ _ => rfl,
   fun _ _ _ _ _ _ _ _ _ _ _ _ _ _ _ _ _ _ => rfl,
   fun _ _ _ _ _ _ _ _ _ _ _ _ _ _ _ _ _ _ => rfl,
   fun _ _ _ _ _ _ _ _ _ _ _ _ _ _ _ _ _ _ => rfl,
   fun _ _ _ _ _ _ _ _ _ _ _ _ _ _ _ _ _ _ => rfl,
   fun _ _ _ _ _ _ _ _ _ _ _ _ _ _ _ _ _ _ => rfl,
   fun _ _ _ _ _ _ _ _ _ _ _ _ _ _ _ _ _ _ => rfl,
   fun _ _ _ _ _ _ _ _ _ _ _ _ _ _ _ _ _ _ => rfl,
   fun _ _ _ _ _ _ _ _ _ _ _ _ _ _ _ _ _ _ => rfl,
   fun _ _ _ _ _ _ _ _ _ _ _ _ _ _ _ _ _ _ _ _ => rfl,
   fun _ _ _ _ _ _ _ _ _ _ _ _ _ _ _ _ _ _ _ _ => rfl,
   fun _ _ _ _ _ _ _ _ _ _ _ _ _ _ _ _ _ _ _ _ => rfl,
   fun _ _ _ _ _ _ _ _ _ _ _ _ _ _ _ _ _ _ _ _ => rfl,
   fun _ _ _ _ _ _ _ _ _ _ _ _ _ _ _ _ _ _ _ _ => rfl,
   fun _ _ _ _ _ _ _ _ _ _ _ _ _ _ _ _ _ _ _ _ => rfl,
   fun _ _ _ _ _ _ _ _ _ _ _ _ _ _ _ _ _ _ _ _ => rfl,
   fun _ _ _ _ _ _ _ _ _ _ _ _ _ _ _ _ _ _ _ _ => rfl,
   fun _ _ _ _ _ _ _ _ _ _ _ _ _ _ _ _ _ _ _ _ => rfl⟩

/-- C6: for every arity N in 2..=9, `as_tk` applied to a value constructed via `Tk(v)` returns `some v`, and `as_tk'` for any other k' returns `none`; the functions are total (the wrong-arm case is the absent result, never a panic). -/
theorem as_tk_downcast_exclusive :
    (∀ (A1 A2 : Type) (v : A1), @Or2.as_t1 A1 A2 (@Or2.T1 A1 A2 v) = some v)
    ∧ (∀ (A1 A2 : Type) (v : A1), @Or2.as_t2 A1 A2 (@Or2.T1 A1 A2 v) = none)
    ∧ (∀ (A1 A2 : Type) (v : A2), @Or2.as_t1 A1 A2 (@Or2.T2 A1 A2 v) = none)
    ∧ (∀ (A1 A2 : Type) (v : A2), @Or2.as_t2 A1 A2 (@Or2.T2 A1 A2 v) = some v)
    ∧ (∀ (A1 A2 A3 : Type) (v : A1), @Or3.as_t1 A1 A2 A3 (@Or3.T1 A1 A2 A3 v) = some v)
    ∧ (∀ (A1 A2 A3 : Type) (v : A1), @Or3.as_t2 A1 A2 A3 (@Or3.T1 A1 A2 A3 v) = none)
    ∧ (∀ (A1 A2 A3 : Type) (v : A1), @Or3.as_t3 A1 A2 A3 (@Or3.T1 A1 A2 A3 v) = none)
    ∧ (∀ (A1 A2 A3 : Type) (v : A2), @Or3.as_t1 A1 A2 A3 (@Or3.T2 A1 A2 A3 v) = none)
    ∧ (∀ (A1 A2 A3 : Type) (v : A2), @Or3.as_t2 A1 A2 A3 (@Or3.T2 A1 A2 A3 v) = some v)
    ∧ (∀ (A1 A2 A3 : Type) (v : A2), @Or3.as_t3 A1 A2 A3 (@Or3.T2 A1 A2 A3 v) = none)
    ∧ (∀ (A1 A2 A3 : Type) (v : A3), @Or3.as_t1 A1 A2 A3 (@Or3.T3 A1 A2 A3 v) = none)
    ∧ (∀ (A1 A2 A3 : Type) (v : A3), @Or3.as_t2 A1 A2 A3 (@Or3.T3 A1 A2 A3 v) = none)
    ∧ (∀ (A1 A2 A3 : Type) (v : A3), @Or3.as_t3 A1 A2 A3 (@Or3.T3 A1 A2 A3 v) = some v)
    ∧ (∀ (A1 A2 A3 A4 : Type) (v : A1), @Or4.as_t1 A1 A2 A3 A4 (@Or4.T1 A1 A2 A3 A4 v) = some v)
    ∧ (∀ (A1 A2 A3 A4 : Type) (v : A1), @Or4.as_t2 A1 A2 A3 A4 (@Or4.T1 A1 A2 A3 A4 v) = none)
    ∧ (∀ (A1 A2 A3 A4 : Type) (v : A1), @Or4.as_t3 A1 A2 A3 A4 (@Or4.T1 A1 A2 A3 A4 v) = none)
    ∧ (∀ (A1 A2 A3 A4 : Type) (v : A1), @Or4.as_t4 A1 A2 A3 A4 (@Or4.T1 A1 A2 A3 A4 v) = none)
    ∧ (∀ (A1 A2 A3 A4 : Type) (v : A2), @Or4.as_t1 A1 A2 A3 A4 (@Or4.T2 A1 A2 A3 A4 v) = none)
    ∧ (∀ (A1 A2 A3 A4 : Type) (v : A2), @Or4.as_t2 A1 A2 A3 A4 (@Or4.T2 A1 A2 A3 A4 v) = some v)
    ∧ (∀ (A1 A2 A3 A4 : Type) (v : A2), @Or4.as_t3 A1 A2 A3 A4 (@Or4.T2 A1 A2 A3 A4 v) = none)
    ∧ (∀ (A1 A2 A3 A4 : Type) (v : A2), @Or4.as_t4 A1 A2 A3 A4 (@Or4.T2 A1 A2 A3 A4 v) = none)
    ∧ (∀ (A1 A2 A3 A4 : Type) (v : A3), @Or4.as_t1 A1 A2 A3 A4 (@Or4.T3 A1 A2 A3 A4 v) = none)
    ∧ (∀ (A1 A2 A3 A4 : Type) (v : A3), @Or4.as_t2 A1 A2 A3 A4 (@Or4.T3 A1 A2 A3 A4 v) = none)
    ∧ (∀ (A1 A2 A3 A4 : Type) (v : A3), @Or4.as_t3 A1 A2 A3 A4 (@Or4.T3 A1 A2 A3 A4 v) = some v)
    ∧ (∀ (A1 A2 A3 A4 : Type) (v : A3), @Or4.as_t4 A1 A2 A3 A4 (@Or4.T3 A1 A2 A3 A4 v) = none)
    ∧ (∀ (A1 A2 A3 A4 : Type) (v : A4), @Or4.as_t1 A1 A2 A3 A4 (@Or4.T4 A1 A2 A3 A4 v) = none)
    ∧ (∀ (A1 A2 A3 A4 : Type) (v : A4), @Or4.as_t2 A1 A2 A3 A4 (@Or4.T4 A1 A2 A3 A4 v) = none)
    ∧ (∀ (A1 A2 A3 A4 : Type) (v : A4), @Or4.as_t3 A1 A2 A3 A4 (@Or4.T4 A1 A2 A3 A4 v) = none)
    ∧ (∀ (A1 A2 A3 A4 : Type) (v : A4), @Or4.as_t4 A1 A2 A3 A4 (@Or4.T4 A1 A2 A3 A4 v) = some v)
    ∧ (∀ (A1 A2 A3 A4 A5 : Type) (v : A1), @Or5.as_t1 A1 A2 A3 A4 A5 (@Or5.T1 A1 A2 A3 A4 A5 v) = some v)
    ∧ (∀ (A1 A2 A3 A4 A5 : Type) (v : A1), @Or5.as_t2 A1 A2 A3 A4 A5 (@Or5.T1 A1 A2 A3 A4 A5 v) = none)
    ∧ (∀ (A1 A2 A3 A4 A5 : Type) (v : A1), @Or5.as_t3 A1 A2 A3 A4 A5 (@Or5.T1 A1 A2 A3 A4 A5 v) = none)
    ∧ (∀ (A1 A2 A3 A4 A5 : Type) (v : A1), @Or5.as_t4 A1 A2 A3 A4 A5 (@Or5.T1 A1 A2 A3 A4 A5 v) = none)
    ∧ (∀ (A1 A2 A3 A4 A5 : Type) (v : A1), @Or5.as_t5 A1 A2 A3 A4 A5 (@Or5.T1 A1 A2 A3 A4 A5 v) = none)
    ∧ (∀ (A1 A2 A3 A4 A5 : Type) (v : A2), @Or5.as_t1 A1 A2 A3 A4 A5 (@Or5.T2 A1 A2 A3 A4 A5 v) = none)
    ∧ (∀ (A1 A2 A3 A4 A5 : Type) (v : A2), @Or5.as_t2 A1 A2 A3 A4 A5 (@Or5.T2 A1 A2 A3 A4 A5 v) = some v)
    ∧ (∀ (A1 A2 A3 A4 A5 : Type) (v : A2), @Or5.as_t3 A1 A2 A3 A4 A5 (@Or5.T2 A1 A2 A3 A4 A5 v) = none)
    ∧ (∀ (A1 A2 A3 A4 A5 : Type) (v : A2), @Or5.as_t4 A1 A2 A3 A4 A5 (@Or5.T2 A1 A2 A3 A4 A5 v) = none)
    ∧ (∀ (A1 A2 A3 A4 A5 : Type) (v : A2), @Or5.as_t5 A1 A2 A3 A4 A5 (@Or5.T2 A1 A2 A3 A4 A5 v) = none)
    ∧ (∀ (A1 A2 A3 A4 A5 : Type) (v : A3), @Or5.as_t1 A1 A2 A3 A4 A5 (@Or5.T3 A1 A2 A3 A4 A5 v) = none)
    ∧ (∀ (A1 A2 A3 A4 A5 : Type) (v : A3), @Or5.as_t2 A1 A2 A3 A4 A5 (@Or5.T3 A1 A2 A3 A4 A5 v) = none)
    ∧ (∀ (A1 A2 A3 A4 A5 : Type) (v : A3), @Or5.as_t3 A1 A2 A3 A4 A5 (@Or5.T3 A1 A2 A3 A4 A5 v) = some v)
    ∧ (∀ (A1 A2 A3 A4 A5 : Type) (v : A3), @Or5.as_t4 A1 A2 A3 A4 A5 (@Or5.T3 A1 A2 A3 A4 A5 v) = none)
    ∧ (∀ (A1 A2 A3 A4 A5 : Type) (v : A3), @Or5.as_t5 A1 A2 A3 A4 A5 (@Or5.T3 A1 A2 A3 A4 A5 v) = none)
    ∧ (∀ (A1 A2 A3 A4 A5 : Type) (v : A4), @Or5.as_t1 A1 A2 A3 A4 A5 (@Or5.T4 A1 A2 A3 A4 A5 v) = none)
    ∧ (∀ (A1 A2 A3 A4 A5 : Type) (v : A4), @Or5.as_t2 A1 A2 A3 A4 A5 (@Or5.T4 A1 A2 A3 A4 A5 v) = none)
    ∧ (∀ (A1 A2 A3 A4 A5 : Type) (v : A4), @Or5.as_t3 A1 A2 A3 A4 A5 (@Or5.T4 A1 A2 A3 A4 A5 v) = none)
    ∧ (∀ (A1 A2 A3 A4 A5 : Type) (v : A4), @Or5.as_t4 A1 A2 A3 A4 A5 (@Or5.T4 A1 A2 A3 A4 A5 v) = some v)
    ∧ (∀ (A1 A2 A3 A4 A5 : Type) (v : A4), @Or5.as_t5 A1 A2 A3 A4 A5 (@Or5.T4 A1 A2 A3 A4 A5 v) = none)
    ∧ (∀ (A1 A2 A3 A4 A5 : Type) (v : A5), @Or5.as_t1 A1 A2 A3 A4 A5 (@Or5.T5 A1 A2 A3 A4 A5 v) = none)
    ∧ (∀ (A1 A2 A3 A4 A5 : Type) (v : A5), @Or5.as_t2 A1 A2 A3 A4 A5 (@Or5.T5 A1 A2 A3 A4 A5 v) = none)
    ∧ (∀ (A1 A2 A3 A4 A5 : Type) (v : A5), @Or5.as_t3 A1 A2 A3 A4 A5 (@Or5.T5 A1 A2 A3 A4 A5 v) = none)
    ∧ (∀ (A1 A2 A3 A4 A5 : Type) (v : A5), @Or5.as_t4 A1 A2 A3 A4 A5 (@Or5.T5 A1 A2 A3 A4 A5 v) = none)
    ∧ (∀ (A1 A2 A3 A4 A5 : Type) (v : A5), @Or5.as_t5 A1 A2 A3 A4 A5 (@Or5.T5 A1 A2 A3 A4 A5 v) = some v)
    ∧ (∀ (A1 A2 A3 A4 A5 A6 : Type) (v : A1), @Or6.as_t1 A1 A2 A3 A4 A5 A6 (@Or6.T1 A1 A2 A3 A4 A5 A6 v) = some v)
    ∧ (∀ (A1 A2 A3 A4 A5 A6 : Type) (v : A1), @Or6.as_t2 A1 A2 A3 A4 A5 A6 (@Or6.T1 A1 A2 A3 A4 A5 A6 v) = none)
    ∧ (∀ (A1 A2 A3 A4 A5 A6 : Type) (v : A1), @Or6.as_t3 A1 A2 A3 A4 A5 A6 (@Or6.T1 A1 A2 A3 A4 A5 A6 v) = none)
    ∧ (∀ (A1 A2 A3 A4 A5 A6 : Type) (v : A1), @Or6.as_t4 A1 A2 A3 A4 A5 A6 (@Or6.T1 A1 A2 A3 A4 A5 A6 v) = none)
    ∧ (∀ (A1 A2 A3 A4 A5 A6 : Type) (v : A1), @Or6.as_t5 A1 A2 A3 A4 A5 A6 (@Or6.T1 A1 A2 A3 A4 A5 A6 v) = none)
    ∧ (∀ (A1 A2 A3 A4 A5 A6 : Type) (v : A1), @Or6.as_t6 A1 A2 A3 A4 A5 A6 (@Or6.T1 A1 A2 A3 A4 A5 A6 v) = none)
    ∧ (∀ (A1 A2 A3 A4 A5 A6 : Type) (v : A2), @Or6.as_t1 A1 A2 A3 A4 A5 A6 (@Or6.T2 A1 A2 A3 A4 A5 A6 v) = none)
    ∧ (∀ (A1 A2 A3 A4 A5 A6 : Type) (v : A2), @Or6.as_t2 A1 A2 A3 A4 A5 A6 (@Or6.T2 A1 A2 A3 A4 A5 A6 v) = some v)
    ∧ (∀ (A1 A2 A3 A4 A5 A6 : Type) (v : A2), @Or6.as_t3 A1 A2 A3 A4 A5 A6 (@Or6.T2 A1 A2 A3 A4 A5 A6 v) = none)
    ∧ (∀ (A1 A2 A3 A4 A5 A6 : Type) (v : A2), @Or6.as_t4 A1 A2 A3 A4 A5 A6 (@Or6.T2 A1 A2 A3 A4 A5 A6 v) = none)
    ∧ (∀ (A1 A2 A3 A4 A5 A6 : Type) (v : A2), @Or6.as_t5 A1 A2 A3 A4 A5 A6 (@Or6.T2 A1 A2 A3 A4 A5 A6 v) = none)
    ∧ (∀ (A1 A2 A3 A4 A5 A6 : Type) (v : A2), @Or6.as_t6 A1 A2 A3 A4 A5 A6 (@Or6.T2 A1 A2 A3 A4 A5 A6 v) = none)
    ∧ (∀ (A1 A2 A3 A4 A5 A6 : Type) (v : A3), @Or6.as_t1 A1 A2 A3 A4 A5 A6 (@Or6.T3 A1 A2 A3 A4 A5 A6 v) = none)
    ∧ (∀ (A1 A2 A3 A4 A5 A6 : Type) (v : A3), @Or6.as_t2 A1 A2 A3 A4 A5 A6 (@Or6.T3 A1 A2 A3 A4 A5 A6 v) = none)
    ∧ (∀ (A1 A2 A3 A4 A5 A6 : Type) (v : A3), @Or6.as_t3 A1 A2 A3 A4 A5 A6 (@Or6.T3 A1 A2 A3 A4 A5 A6 v) = some v)
    ∧ (∀ (A1 A2 A3 A4 A5 A6 : Type) (v : A3), @Or6.as_t4 A1 A2 A3 A4 A5 A6 (@Or6.T3 A1 A2 A3 A4 A5 A6 v) = none)
    ∧ (∀ (A1 A2 A3 A4 A5 A6 : Type) (v : A3), @Or6.as_t5 A1 A2 A3 A4 A5 A6 (@Or6.T3 A1 A2 A3 A4 A5 A6 v) = none)
    ∧ (∀ (A1 A2 A3 A4 A5 A6 : Type) (v : A3), @Or6.as_t6 A1 A2 A3 A4 A5 A6 (@Or6.T3 A1 A2 A3 A4 A5 A6 v) = none)
    ∧ (∀ (A1 A2 A3 A4 A5 A6 : Type) (v : A4), @Or6.as_t1 A1 A2 A3 A4 A5 A6 (@Or6.T4 A1 A2 A3 A4 A5 A6 v) = none)
    ∧ (∀ (A1 A2 A3 A4 A5 A6 : Type) (v : A4), @Or6.as_t2 A1 A2 A3 A4 A5 A6 (@Or6.T4 A1 A2 A3 A4 A5 A6 v) = none)
    ∧ (∀ (A1 A2 A3 A4 A5 A6 : Type) (v : A4), @Or6.as_t3 A1 A2 A3 A4 A5 A6 (@Or6.T4 A1 A2 A3 A4 A5 A6 v) = none)
    ∧ (∀ (A1 A2 A3 A4 A5 A6 : Type) (v : A4), @Or6.as_t4 A1 A2 A3 A4 A5 A6 (@Or6.T4 A1 A2 A3 A4 A5 A6 v) = some v)
    ∧ (∀ (A1 A2 A3 A4 A5 A6 : Type) (v : A4), @Or6.as_t5 A1 A2 A3 A4 A5 A6 (@Or6.T4 A1 A2 A3 A4 A5 A6 v) = none)
    ∧ (∀ (A1 A2 A3 A4 A5 A6 : Type) (v : A4), @Or6.as_t6 A1 A2 A3 A4 A5 A6 (@Or6.T4 A1 A2 A3 A4 A5 A6 v) = none)
    ∧ (∀ (A1 A2 A3 A4 A5 A6 : Type) (v : A5), @Or6.as_t1 A1 A2 A3 A4 A5 A6 (@Or6.T5 A1 A2 A3 A4 A5 A6 v) = none)
    ∧ (∀ (A1 A2 A3 A4 A5 A6 : Type) (v : A5), @Or6.as_t2 A1 A2 A3 A4 A5 A6 (@Or6.T5 A1 A2 A3 A4 A5 A6 v) = none)
    ∧ (∀ (A1 A2 A3 A4 A5 A6 : Type) (v : A5), @Or6.as_t3 A1 A2 A3 A4 A5 A6 (@Or6.T5 A1 A2 A3 A4 A5 A6 v) = none)
    ∧ (∀ (A1 A2 A3 A4 A5 A6 : Type) (v : A5), @Or6.as_t4 A1 A2 A3 A4 A5 A6 (@Or6.T5 A1 A2 A3 A4 A5 A6 v) = none)
    ∧ (∀ (A1 A2 A3 A4 A5 A6 : Type) (v : A5), @Or6.as_t5 A1 A2 A3 A4 A5 A6 (@Or6.T5 A1 A2 A3 A4 A5 A6 v) = some v)
    ∧ (∀ (A1 A2 A3 A4 A5 A6 : Type) (v : A5), @Or6.as_t6 A1 A2 A3 A4 A5 A6 (@Or6.T5 A1 A2 A3 A4 A5 A6 v) = none)
    ∧ (∀ (A1 A2 A3 A4 A5 A6 : Type) (v : A6), @Or6.as_t1 A1 A2 A3 A4 A5 A6 (@Or6.T6 A1 A2 A3 A4 A5 A6 v) = none)
    ∧ (∀ (A1 A2 A3 A4 A5 A6 : Type) (v : A6), @Or6.as_t2 A1 A2 A3 A4 A5 A6 (@Or6.T6 A1 A2 A3 A4 A5 A6 v) = none)
    ∧ (∀ (A1 A2 A3 A4 A5 A6 : Type) (v : A6), @Or6.as_t3 A1 A2 A3 A4 A5 A6 (@Or6.T6 A1 A2 A3 A4 A5 A6 v) = none)
    ∧ (∀ (A1 A2 A3 A4 A5 A6 : Type) (v : A6), @Or6.as_t4 A1 A2 A3 A4 A5 A6 (@Or6.T6 A1 A2 A3 A4 A5 A6 v) = none)
    ∧ (∀ (A1 A2 A3 A4 A5 A6 : Type) (v : A6), @Or6.as_t5 A1 A2 A3 A4 A5 A6 (@Or6.T6 A1 A2 A3 A4 A5 A6 v) = none)
    ∧ (∀ (A1 A2 A3 A4 A5 A6 : Type) (v : A6), @Or6.as_t6 A1 A2 A3 A4 A5 A6 (@Or6.T6 A1 A2 A3 A4 A5 A6 v) = some v)
    ∧ (∀ (A1 A2 A3 A4 A5 A6 A7 : Type) (v : A1), @Or7.as_t1 A1 A2 A3 A4 A5 A6 A7 (@Or7.T1 A1 A2 A3 A4 A5 A6 A7 v) = some v)
    ∧ (∀ (A1 A2 A3 A4 A5 A6 A7 : Type) (v : A1), @Or7.as_t2 A1 A2 A3 A4 A5 A6 A7 (@Or7.T1 A1 A2 A3 A4 A5 A6 A7 v) = none)
    ∧ (∀ (A1 A2 A3 A4 A5 A6 A7 : Type) (v : A1), @Or7.as_t3 A1 A2 A3 A4 A5 A6 A7 (@Or7.T1 A1 A2 A3 A4 A5 A6 A7 v) = none)
    ∧ (∀ (A1 A2 A3 A4 A5 A6 A7 : Type) (v : A1), @Or7.as_t4 A1 A2 A3 A4 A5 A6 A7 (@Or7.T1 A1 A2 A3 A4 A5 A6 A7 v) = none)
    ∧ (∀ (A1 A2 A3 A4 A5 A6 A7 : Type) (v : A1), @Or7.as_t5 A1 A2 A3 A4 A5 A6 A7 (@Or7.T1 A1 A2 A3 A4 A5 A6 A7 v) = none)
    ∧ (∀ (A1 A2 A3 A4 A5 A6 A7 : Type) (v : A1), @Or7.as_t6 A1 A2 A3 A4 A5 A6 A7 (@Or7.T1 A1 A2 A3 A4 A5 A6 A7 v) = none)
    ∧ (∀ (A1 A2 A3 A4 A5 A6 A7 : Type) (v : A1), @Or7.as_t7 A1 A2 A3 A4 A5 A6 A7 (@Or7.T1 A1 A2 A3 A4 A5 A6 A7 v) = none)
    ∧ (∀ (A1 A2 A3 A4 A5 A6 A7 : Type) (v : A2), @Or7.as_t1 A1 A2 A3 A4 A5 A6 A7 (@Or7.T2 A1 A2 A3 A4 A5 A6 A7 v) = none)
    ∧ (∀ (A1 A2 A3 A4 A5 A6 A7 : Type) (v : A2), @Or7.as_t2 A1 A2 A3 A4 A5 A6 A7 (@Or7.T2 A1 A2 A3 A4 A5 A6 A7 v) = some v)
    ∧ (∀ (A1 A2 A3 A4 A5 A6 A7 : Type) (v : A2), @Or7.as_t3 A1 A2 A3 A4 A5 A6 A7 (@Or7.T2 A1 A2 A3 A4 A5 A6 A7 v) = none)
    ∧ (∀ (A1 A2 A3 A4 A5 A6 A7 : Type) (v : A2), @Or7.as_t4 A1 A2 A3 A4 A5 A6 A7 (@Or7.T2 A1 A2 A3 A4 A5 A6 A7 v) = none)
    ∧ (∀ (A1 A2 A3 A4 A5 A6 A7 : Type) (v : A2), @Or7.as_t5 A1 A2 A3 A4 A5 A6 A7 (@Or7.T2 A1 A2 A3 A4 A5 A6 A7 v) = none)
    ∧ (∀ (A1 A2 A3 A4 A5 A6 A7 : Type) (v : A2), @Or7.as_t6 A1 A2 A3 A4 A5 A6 A7 (@Or7.T2 A1 A2 A3 A4 A5 A6 A7 v) = none)
    ∧ (∀ (A1 A2 A3 A4 A5 A6 A7 : Type) (v : A2), @Or7.as_t7 A1 A2 A3 A4 A5 A6 A7 (@Or7.T2 A1 A2 A3 A4 A5 A6 A7 v) = none)
    ∧ (∀ (A1 A2 A3 A4 A5 A6 A7 : Type) (v : A3), @Or7.as_t1 A1 A2 A3 A4 A5 A6 A7 (@Or7.T3 A1 A2 A3 A4 A5 A6 A7 v) = none)
    ∧ (∀ (A1 A2 A3 A4 A5 A6 A7 : Type) (v : A3), @Or7.as_t2 A1 A2 A3 A4 A5 A6 A7 (@Or7.T3 A1 A2 A3 A4 A5 A6 A7 v) = none)
    ∧ (∀ (A1 A2 A3 A4 A5 A6 A7 : Type) (v : A3), @Or7.as_t3 A1 A2 A3 A4 A5 A6 A7 (@Or7.T3 A1 A2 A3 A4 A5 A6 A7 v) = some v)
    ∧ (∀ (A1 A2 A3 A4 A5 A6 A7 : Type) (v : A3), @Or7.as_t4 A1 A2 A3 A4 A5 A6 A7 (@Or7.T3 A1 A2 A3 A4 A5 A6 A7 v) = none)
    ∧ (∀ (A1 A2 A3 A4 A5 A6 A7 : Type) (v : A3), @Or7.as_t5 A1 A2 A3 A4 A5 A6 A7 (@Or7.T3 A1 A2 A3 A4 A5 A6 A7 v) = none)
    ∧ (∀ (A1 A2 A3 A4 A5 A6 A7 : Type) (v : A3), @Or7.as_t6 A1 A2 A3 A4 A5 A6 A7 (@Or7.T3 A1 A2 A3 A4 A5 A6 A7 v) = none)
    ∧ (∀ (A1 A2 A3 A4 A5 A6 A7 : Type) (v : A3), @Or7.as_t7 A1 A2 A3 A4 A5 A6 A7 (@Or7.T3 A1 A2 A3 A4 A5 A6 A7 v) = none)
    ∧ (∀ (A1 A2 A3 A4 A5 A6 A7 : Type) (v : A4), @Or7.as_t1 A1 A2 A3 A4 A5 A6 A7 (@Or7.T4 A1 A2 A3 A4 A5 A6 A7 v) = none)
    ∧ (∀ (A1 A2 A3 A4 A5 A6 A7 : Type) (v : A4), @Or7.as_t2 A1 A2 A3 A4 A5 A6 A7 (@Or7.T4 A1 A2 A3 A4 A5 A6 A7 v) = none)
    ∧ (∀ (A1 A2 A3 A4 A5 A6 A7 : Type) (v : A4), @Or7.as_t3 A1 A2 A3 A4 A5 A6 A7 (@Or7.T4 A1 A2 A3 A4 A5 A6 A7 v) = none)
    ∧ (∀ (A1 A2 A3 A4 A5 A6 A7 : Type) (v : A4), @Or7.as_t4 A1 A2 A3 A4 A5 A6 A7 (@Or7.T4 A1 A2 A3 A4 A5 A6 A7 v) = some v)
    ∧ (∀ (A1 A2 A3 A4 A5 A6 A7 : Type) (v : A4), @Or7.as_t5 A1 A2 A3 A4 A5 A6 A7 (@Or7.T4 A1 A2 A3 A4 A5 A6 A7 v) = none)
    ∧ (∀ (A1 A2 A3 A4 A5 A6 A7 : Type) (v : A4), @Or7.as_t6 A1 A2 A3 A4 A5 A6 A7 (@Or7.T4 A1 A2 A3 A4 A5 A6 A7 v) = none)
    ∧ (∀ (A1 A2 A3 A4 A5 A6 A7 : Type) (v : A4), @Or7.as_t7 A1 A2 A3 A4 A5 A6 A7 (@Or7.T4 A1 A2 A3 A4 A5 A6 A7 v) = none)
    ∧ (∀ (A1 A2 A3 A4 A5 A6 A7 : Type) (v : A5), @Or7.as_t1 A1 A2 A3 A4 A5 A6 A7 (@Or7.T5 A1 A2 A3 A4 A5 A6 A7 v) = none)
    ∧ (∀ (A1 A2 A3 A4 A5 A6 A7 : Type) (v : A5), @Or7.as_t2 A1 A2 A3 A4 A5 A6 A7 (@Or7.T5 A1 A2 A3 A4 A5 A6 A7 v) = none)
    ∧ (∀ (A1 A2 A3 A4 A5 A6 A7 : Type) (v : A5), @Or7.as_t3 A1 A2 A3 A4 A5 A6 A7 (@Or7.T5 A1 A2 A3 A4 A5 A6 A7 v) = none)
    ∧ (∀ (A1 A2 A3 A4 A5 A6 A7 : Type) (v : A5), @Or7.as_t4 A1 A2 A3 A4 A5 A6 A7 (@Or7.T5 A1 A2 A3 A4 A5 A6 A7 v) = none)
    ∧ (∀ (A1 A2 A3 A4 A5 A6 A7 : Type) (v : A5), @Or7.as_t5 A1 A2 A3 A4 A5 A6 A7 (@Or7.T5 A1 A2 A3 A4 A5 A6 A7 v) = some v)
    ∧ (∀ (A1 A2 A3 A4 A5 A6 A7 : Type) (v : A5), @Or7.as_t6 A1 A2 A3 A4 A5 A6 A7 (@Or7.T5 A1 A2 A3 A4 A5 A6 A7 v) = none)
    ∧ (∀ (A1 A2 A3 A4 A5 A6 A7 : Type) (v : A5), @Or7.as_t7 A1 A2 A3 A4 A5 A6 A7 (@Or7.T5 A1 A2 A3 A4 A5 A6 A7 v) = none)
    ∧ (∀ (A1 A2 A3 A4 A5 A6 A7 : Type) (v : A6), @Or7.as_t1 A1 A2 A3 A4 A5 A6 A7 (@Or7.T6 A1 A2 A3 A4 A5 A6 A7 v) = none)
    ∧ (∀ (A1 A2 A3 A4 A5 A6 A7 : Type) (v : A6), @Or7.as_t2 A1 A2 A3 A4 A5 A6 A7 (@Or7.T6 A1 A2 A3 A4 A5 A6 A7 v) = none)
    ∧ (∀ (A1 A2 A3 A4 A5 A6 A7 : Type) (v : A6), @Or7.as_t3 A1 A2 A3 A4 A5 A6 A7 (@Or7.T6 A1 A2 A3 A4 A5 A6 A7 v) = none)
    ∧ (∀ (A1 A2 A3 A4 A5 A6 A7 : Type) (v : A6), @Or7.as_t4 A1 A2 A3 A4 A5 A6 A7 (@Or7.T6 A1 A2 A3 A4 A5 A6 A7 v) = none)
    ∧ (∀ (A1 A2 A3 A4 A5 A6 A7 : Type) (v : A6), @Or7.as_t5 A1 A2 A3 A4 A5 A6 A7 (@Or7.T6 A1 A2 A3 A4 A5 A6 A7 v) = none)
    ∧ (∀ (A1 A2 A3 A4 A5 A6 A7 : Type) (v : A6), @Or7.as_t6 A1 A2 A3 A4 A5 A6 A7 (@Or7.T6 A1 A2 A3 A4 A5 A6 A7 v) = some v)
    ∧ (∀ (A1 A2 A3 A4 A5 A6 A7 : Type) (v : A6), @Or7.as_t7 A1 A2 A3 A4 A5 A6 A7 (@Or7.T6 A1 A2 A3 A4 A5 A6 A7 v) = none)
    ∧ (∀ (A1 A2 A3 A4 A5 A6 A7 : Type) (v : A7), @Or7.as_t1 A1 A2 A3 A4 A5 A6 A7 (@Or7.T7 A1 A2 A3 A4 A5 A6 A7 v) = none)
    ∧ (∀ (A1 A2 A3 A4 A5 A6 A7 : Type) (v : A7), @Or7.as_t2 A1 A2 A3 A4 A5 A6 A7 (@Or7.T7 A1 A2 A3 A4 A5 A6 A7 v) = none)
    ∧ (∀ (A1 A2 A3 A4 A5 A6 A7 : Type) (v : A7), @Or7.as_t3 A1 A2 A3 A4 A5 A6 A7 (@Or7.T7 A1 A2 A3 A4 A5 A6 A7 v) = none)
    ∧ (∀ (A1 A2 A3 A4 A5 A6 A7 : Type) (v : A7), @Or7.as_t4 A1 A2 A3 A4 A5 A6 A7 (@Or7.T7 A1 A2 A3 A4 A5 A6 A7 v) = none)
    ∧ (∀ (A1 A2 A3 A4 A5 A6 A7 : Type) (v : A7), @Or7.as_t5 A1 A2 A3 A4 A5 A6 A7 (@Or7.T7 A1 A2 A3 A4 A5 A6 A7 v) = none)
    ∧ (∀ (A1 A2 A3 A4 A5 A6 A7 : Type) (v : A7), @Or7.as_t6 A1 A2 A3 A4 A5 A6 A7 (@Or7.T7 A1 A2 A3 A4 A5 A6 A7 v) = none)
    ∧ (∀ (A1 A2 A3 A4 A5 A6 A7 : Type) (v : A7), @Or7.as_t7 A1 A2 A3 A4 A5 A6 A7 (@Or7.T7 A1 A2 A3 A4 A5 A6 A7 v) = some v)
    ∧ (∀ (A1 A2 A3 A4 A5 A6 A7 A8 : Type) (v : A1), @Or8.as_t1 A1 A2 A3 A4 A5 A6 A7 A8 (@Or8.T1 A1 A2 A3 A4 A5 A6 A7 A8 v) = some v)
    ∧ (∀ (A1 A2 A3 A4 A5 A6 A7 A8 : Type) (v : A1), @Or8.as_t2 A1 A2 A3 A4 A5 A6 A7 A8 (@Or8.T1 A1 A2 A3 A4 A5 A6 A7 A8 v) = none)
    ∧ (∀ (A1 A2 A3 A4 A5 A6 A7 A8 : Type) (v : A1), @Or8.as_t3 A1 A2 A3 A4 A5 A6 A7 A8 (@Or8.T1 A1 A2 A3 A4 A5 A6 A7 A8 v) = none)
    ∧ (∀ (A1 A2 A3 A4 A5 A6 A7 A8 : Type) (v : A1), @Or8.as_t4 A1 A2 A3 A4 A5 A6 A7 A8 (@Or8.T1 A1 A2 A3 A4 A5 A6 A7 A8 v) = none)
    ∧ (∀ (A1 A2 A3 A4 A5 A6 A7 A8 : Type) (v : A1), @Or8.as_t5 A1 A2 A3 A4 A5 A6 A7 A8 (@Or8.T1 A1 A2 A3 A4 A5 A6 A7 A8 v) = none)
    ∧ (∀ (A1 A2 A3 A4 A5 A6 A7 A8 : Type) (v : A1), @Or8.as_t6 A1 A2 A3 A4 A5 A6 A7 A8 (@Or8.T1 A1 A2 A3 A4 A5 A6 A7 A8 v) = none)
    ∧ (∀ (A1 A2 A3 A4 A5 A6 A7 A8 : Type) (v : A1), @Or8.as_t7 A1 A2 A3 A4 A5 A6 A7 A8 (@Or8.T1 A1 A2 A3 A4 A5 A6 A7 A8 v) = none)
    ∧ (∀ (A1 A2 A3 A4 A5 A6 A7 A8 : Type) (v : A1), @Or8.as_t8 A1 A2 A3 A4 A5 A6 A7 A8 (@Or8.T1 A1 A2 A3 A4 A5 A6 A7 A8 v) = none)
    ∧ (∀ (A1 A2 A3 A4 A5 A6 A7 A8 : Type) (v : A2), @Or8.as_t1 A1 A2 A3 A4 A5 A6 A7 A8 (@Or8.T2 A1 A2 A3 A4 A5 A6 A7 A8 v) = none)
    ∧ (∀ (A1 A2 A3 A4 A5 A6 A7 A8 : Type) (v : A2), @Or8.as_t2 A1 A2 A3 A4 A5 A6 A7 A8 (@Or8.T2 A1 A2 A3 A4 A5 A6 A7 A8 v) = some v)
    ∧ (∀ (A1 A2 A3 A4 A5 A6 A7 A8 : Type) (v : A2), @Or8.as_t3 A1 A2 A3 A4 A5 A6 A7 A8 (@Or8.T2 A1 A2 A3 A4 A5 A6 A7 A8 v) = none)
    ∧ (∀ (A1 A2 A3 A4 A5 A6 A7 A8 : Type) (v : A2), @Or8.as_t4 A1 A2 A3 A4 A5 A6 A7 A8 (@Or8.T2 A1 A2 A3 A4 A5 A6 A7 A8 v) = none)
    ∧ (∀ (A1 A2 A3 A4 A5 A6 A7 A8 : Type) (v : A2), @Or8.as_t5 A1 A2 A3 A4 A5 A6 A7 A8 (@Or8.T2 A1 A2 A3 A4 A5 A6 A7 A8 v) = none)
    ∧ (∀ (A1 A2 A3 A4 A5 A6 A7 A8 : Type) (v : A2), @Or8.as_t6 A1 A2 A3 A4 A5 A6 A7 A8 (@Or8.T2 A1 A2 A3 A4 A5 A6 A7 A8 v) = none)
    ∧ (∀ (A1 A2 A3 A4 A5 A6 A7 A8 : Type) (v : A2), @Or8.as_t7 A1 A2 A3 A4 A5 A6 A7 A8 (@Or8.T2 A1 A2 A3 A4 A5 A6 A7 A8 v) = none)
    ∧ (∀ (A1 A2 A3 A4 A5 A6 A7 A8 : Type) (v : A2), @Or8.as_t8 A1 A2 A3 A4 A5 A6 A7 A8 (@Or8.T2 A1 A2 A3 A4 A5 A6 A7 A8 v) = none)
    ∧ (∀ (A1 A2 A3 A4 A5 A6 A7 A8 : Type) (v : A3), @Or8.as_t1 A1 A2 A3 A4 A5 A6 A7 A8 (@Or8.T3 A1 A2 A3 A4 A5 A6 A7 A8 v) = none)
    ∧ (∀ (A1 A2 A3 A4 A5 A6 A7 A8 : Type) (v : A3), @Or8.as_t2 A1 A2 A3 A4 A5 A6 A7 A8 (@Or8.T3 A1 A2 A3 A4 A5 A6 A7 A8 v) = none)
    ∧ (∀ (A1 A2 A3 A4 A5 A6 A7 A8 : Type) (v : A3), @Or8.as_t3 A1 A2 A3 A4 A5 A6 A7 A8 (@Or8.T3 A1 A2 A3 A4 A5 A6 A7 A8 v) = some v)
    ∧ (∀ (A1 A2 A3 A4 A5 A6 A7 A8 : Type) (v : A3), @Or8.as_t4 A1 A2 A3 A4 A5 A6 A7 A8 (@Or8.T3 A1 A2 A3 A4 A5 A6 A7 A8 v) = none)
    ∧ (∀ (A1 A2 A3 A4 A5 A6 A7 A8 : Type) (v : A3), @Or8.as_t5 A1 A2 A3 A4 A5 A6 A7 A8 (@Or8.T3 A1 A2 A3 A4 A5 A6 A7 A8 v) = none)
    ∧ (∀ (A1 A2 A3 A4 A5 A6 A7 A8 : Type) (v : A3), @Or8.as_t6 A1 A2 A3 A4 A5 A6 A7 A8 (@Or8.T3 A1 A2 A3 A4 A5 A6 A7 A8 v) = none)
    ∧ (∀ (A1 A2 A3 A4 A5 A6 A7 A8 : Type) (v : A3), @Or8.as_t7 A1 A2 A3 A4 A5 A6 A7 A8 (@Or8.T3 A1 A2 A3 A4 A5 A6 A7 A8 v) = none)
    ∧ (∀ (A1 A2 A3 A4 A5 A6 A7 A8 : Type) (v : A3), @Or8.as_t8 A1 A2 A3 A4 A5 A6 A7 A8 (@Or8.T3 A1 A2 A3 A4 A5 A6 A7 A8 v) = none)
    ∧ (∀ (A1 A2 A3 A4 A5 A6 A7 A8 : Type) (v : A4), @Or8.as_t1 A1 A2 A3 A4 A5 A6 A7 A8 (@Or8.T4 A1 A2 A3 A4 A5 A6 A7 A8 v) = none)
    ∧ (∀ (A1 A2 A3 A4 A5 A6 A7 A8 : Type) (v : A4), @Or8.as_t2 A1 A2 A3 A4 A5 A6 A7 A8 (@Or8.T4 A1 A2 A3 A4 A5 A6 A7 A8 v) = none)
    ∧ (∀ (A1 A2 A3 A4 A5 A6 A7 A8 : Type) (v : A4), @Or8.as_t3 A1 A2 A3 A4 A5 A6 A7 A8 (@Or8.T4 A1 A2 A3 A4 A5 A6 A7 A8 v) = none)
    ∧ (∀ (A1 A2 A3 A4 A5 A6 A7 A8 : Type) (v : A4), @Or8.as_t4 A1 A2 A3 A4 A5 A6 A7 A8 (@Or8.T4 A1 A2 A3 A4 A5 A6 A7 A8 v) = some v)
    ∧ (∀ (A1 A2 A3 A4 A5 A6 A7 A8 : Type) (v : A4), @Or8.as_t5 A1 A2 A3 A4 A5 A6 A7 A8 (@Or8.T4 A1 A2 A3 A4 A5 A6 A7 A8 v) = none)
    ∧ (∀ (A1 A2 A3 A4 A5 A6 A7 A8 : Type) (v : A4), @Or8.as_t6 A1 A2 A3 A4 A5 A6 A7 A8 (@Or8.T4 A1 A2 A3 A4 A5 A6 A7 A8 v) = none)
    ∧ (∀ (A1 A2 A3 A4 A5 A6 A7 A8 : Type) (v : A4), @Or8.as_t7 A1 A2 A3 A4 A5 A6 A7 A8 (@Or8.T4 A1 A2 A3 A4 A5 A6 A7 A8 v) = none)
    ∧ (∀ (A1 A2 A3 A4 A5 A6 A7 A8 : Type) (v : A4), @Or8.as_t8 A1 A2 A3 A4 A5 A6 A7 A8 (@Or8.T4 A1 A2 A3 A4 A5 A6 A7 A8 v) = none)
    ∧ (∀ (A1 A2 A3 A4 A5 A6 A7 A8 : Type) (v : A5), @Or8.as_t1 A1 A2 A3 A4 A5 A6 A7 A8 (@Or8.T5 A1 A2 A3 A4 A5 A6 A7 A8 v) = none)
    ∧ (∀ (A1 A2 A3 A4 A5 A6 A7 A8 : Type) (v : A5), @Or8.as_t2 A1 A2 A3 A4 A5 A6 A7 A8 (@Or8.T5 A1 A2 A3 A4 A5 A6 A7 A8 v) = none)
    ∧ (∀ (A1 A2 A3 A4 A5 A6 A7 A8 : Type) (v : A5), @Or8.as_t3 A1 A2 A3 A4 A5 A6 A7 A8 (@Or8.T5 A1 A2 A3 A4 A5 A6 A7 A8 v) = none)
    ∧ (∀ (A1 A2 A3 A4 A5 A6 A7 A8 : Type) (v : A5), @Or8.as_t4 A1 A2 A3 A4 A5 A6 A7 A8 (@Or8.T5 A1 A2 A3 A4 A5 A6 A7 A8 v) = none)
    ∧ (∀ (A1 A2 A3 A4 A5 A6 A7 A8 : Type) (v : A5), @Or8.as_t5 A1 A2 A3 A4 A5 A6 A7 A8 (@Or8.T5 A1 A2 A3 A4 A5 A6 A7 A8 v) = some v)
    ∧ (∀ (A1 A2 A3 A4 A5 A6 A7 A8 : Type) (v : A5), @Or8.as_t6 A1 A2 A3 A4 A5 A6 A7 A8 (@Or8.T5 A1 A2 A3 A4 A5 A6 A7 A8 v) = none)
    ∧ (∀ (A1 A2 A3 A4 A5 A6 A7 A8 : Type) (v : A5), @Or8.as_t7 A1 A2 A3 A4 A5 A6 A7 A8 (@Or8.T5 A1 A2 A3 A4 A5 A6 A7 A8 v) = none)
    ∧ (∀ (A1 A2 A3 A4 A5 A6 A7 A8 : Type) (v : A5), @Or8.as_t8 A1 A2 A3 A4 A5 A6 A7 A8 (@Or8.T5 A1 A2 A3 A4 A5 A6 A7 A8 v) = none)
    ∧ (∀ (A1 A2 A3 A4 A5 A6 A7 A8 : Type) (v : A6), @Or8.as_t1 A1 A2 A3 A4 A5 A6 A7 A8 (@Or8.T6 A1 A2 A3 A4 A5 A6 A7 A8 v) = none)
    ∧ (∀ (A1 A2 A3 A4 A5 A6 A7 A8 : Type) (v : A6), @Or8.as_t2 A1 A2 A3 A4 A5 A6 A7 A8 (@Or8.T6 A1 A2 A3 A4 A5 A6 A7 A8 v) = none)
    ∧ (∀ (A1 A2 A3 A4 A5 A6 A7 A8 : Type) (v : A6), @Or8.as_t3 A1 A2 A3 A4 A5 A6 A7 A8 (@Or8.T6 A1 A2 A3 A4 A5 A6 A7 A8 v) = none)
    ∧ (∀ (A1 A2 A3 A4 A5 A6 A7 A8 : Type) (v : A6), @Or8.as_t4 A1 A2 A3 A4 A5 A6 A7 A8 (@Or8.T6 A1 A2 A3 A4 A5 A6 A7 A8 v) = none)
    ∧ (∀ (A1 A2 A3 A4 A5 A6 A7 A8 : Type) (v : A6), @Or8.as_t5 A1 A2 A3 A4 A5 A6 A7 A8 (@Or8.T6 A1 A2 A3 A4 A5 A6 A7 A8 v) = none)
    ∧ (∀ (A1 A2 A3 A4 A5 A6 A7 A8 : Type) (v : A6), @Or8.as_t6 A1 A2 A3 A4 A5 A6 A7 A8 (@Or8.T6 A1 A2 A3 A4 A5 A6 A7 A8 v) = some v)
    ∧ (∀ (A1 A2 A3 A4 A5 A6 A7 A8 : Type) (v : A6), @Or8.as_t7 A1 A2 A3 A4 A5 A6 A7 A8 (@Or8.T6 A1 A2 A3 A4 A5 A6 A7 A8 v) = none)
    ∧ (∀ (A1 A2 A3 A4 A5 A6 A7 A8 : Type) (v : A6), @Or8.as_t8 A1 A2 A3 A4 A5 A6 A7 A8 (@Or8.T6 A1 A2 A3 A4 A5 A6 A7 A8 v) = none)
    ∧ (∀ (A1 A2 A3 A4 A5 A6 A7 A8 : Type) (v : A7), @Or8.as_t1 A1 A2 A3 A4 A5 A6 A7 A8 (@Or8.T7 A1 A2 A3 A4 A5 A6 A7 A8 v) = none)
    ∧ (∀ (A1 A2 A3 A4 A5 A6 A7 A8 : Type) (v : A7), @Or8.as_t2 A1 A2 A3 A4 A5 A6 A7 A8 (@Or8.T7 A1 A2 A3 A4 A5 A6 A7 A8 v) = none)
    ∧ (∀ (A1 A2 A3 A4 A5 A6 A7 A8 : Type) (v : A7), @Or8.as_t3 A1 A2 A3 A4 A5 A6 A7 A8 (@Or8.T7 A1 A2 A3 A4 A5 A6 A7 A8 v) = none)
    ∧ (∀ (A1 A2 A3 A4 A5 A6 A7 A8 : Type) (v : A7), @Or8.as_t4 A1 A2 A3 A4 A5 A6 A7 A8 (@Or8.T7 A1 A2 A3 A4 A5 A6 A7 A8 v) = none)
    ∧ (∀ (A1 A2 A3 A4 A5 A6 A7 A8 : Type) (v : A7), @Or8.as_t5 A1 A2 A3 A4 A5 A6 A7 A8 (@Or8.T7 A1 A2 A3 A4 A5 A6 A7 A8 v) = none)
    ∧ (∀ (A1 A2 A3 A4 A5 A6 A7 A8 : Type) (v : A7), @Or8.as_t6 A1 A2 A3 A4 A5 A6 A7 A8 (@Or8.T7 A1 A2 A3 A4 A5 A6 A7 A8 v) = none)
    ∧ (∀ (A1 A2 A3 A4 A5 A6 A7 A8 : Type) (v : A7), @Or8.as_t7 A1 A2 A3 A4 A5 A6 A7 A8 (@Or8.T7 A1 A2 A3 A4 A5 A6 A7 A8 v) = some v)
    ∧ (∀ (A1 A2 A3 A4 A5 A6 A7 A8 : Type) (v : A7), @Or8.as_t8 A1 A2 A3 A4 A5 A6 A7 A8 (@Or8.T7 A1 A2 A3 A4 A5 A6 A7 A8 v) = none)
    ∧ (∀ (A1 A2 A3 A4 A5 A6 A7 A8 : Type) (v : A8), @Or8.as_t1 A1 A2 A3 A4 A5 A6 A7 A8 (@Or8.T8 A1 A2 A3 A4 A5 A6 A7 A8 v) = none)
    ∧ (∀ (A1 A2 A3 A4 A5 A6 A7 A8 : Type) (v : A8), @Or8.as_t2 A1 A2 A3 A4 A5 A6 A7 A8 (@Or8.T8 A1 A2 A3 A4 A5 A6 A7 A8 v) = none)
    ∧ (∀ (A1 A2 A3 A4 A5 A6 A7 A8 : Type) (v : A8), @Or8.as_t3 A1 A2 A3 A4 A5 A6 A7 A8 (@Or8.T8 A1 A2 A3 A4 A5 A6 A7 A8 v) = none)
    ∧ (∀ (A1 A2 A3 A4 A5 A6 A7 A8 : Type) (v : A8), @Or8.as_t4 A1 A2 A3 A4 A5 A6 A7 A8 (@Or8.T8 A1 A2 A3 A4 A5 A6 A7 A8 v) = none)
    ∧ (∀ (A1 A2 A3 A4 A5 A6 A7 A8 : Type) (v : A8), @Or8.as_t5 A1 A2 A3 A4 A5 A6 A7 A8 (@Or8.T8 A1 A2 A3 A4 A5 A6 A7 A8 v) = none)
    ∧ (∀ (A1 A2 A3 A4 A5 A6 A7 A8 : Type) (v : A8), @Or8.as_t6 A1 A2 A3 A4 A5 A6 A7 A8 (@Or8.T8 A1 A2 A3 A4 A5 A6 A7 A8 v) = none)
    ∧ (∀ (A1 A2 A3 A4 A5 A6 A7 A8 : Type) (v : A8), @Or8.as_t7 A1 A2 A3 A4 A5 A6 A7 A8 (@Or8.T8 A1 A2 A3 A4 A5 A6 A7 A8 v) = none)
    ∧ (∀ (A1 A2 A3 A4 A5 A6 A7 A8 : Type) (v : A8), @Or8.as_t8 A1 A2 A3 A4 A5 A6 A7 A8 (@Or8.T8 A1 A2 A3 A4 A5 A6 A7 A8 v) = some v)
    ∧ (∀ (A1 A2 A3 A4 A5 A6 A7 A8 A9 : Type) (v : A1), @Or9.as_t1 A1 A2 A3 A4 A5 A6 A7 A8 A9 (@Or9.T1 A1 A2 A3 A4 A5 A6 A7 A8 A9 v) = some v)
    ∧ (∀ (A1 A2 A3 A4 A5 A6 A7 A8 A9 : Type) (v : A1), @Or9.as_t2 A1 A2 A3 A4 A5 A6 A7 A8 A9 (@Or9.T1 A1 A2 A3 A4 A5 A6 A7 A8 A9 v) = none)
    ∧ (∀ (A1 A2 A3 A4 A5 A6 A7 A8 A9 : Type) (v : A1), @Or9.as_t3 A1 A2 A3 A4 A5 A6 A7 A8 A9 (@Or9.T1 A1 A2 A3 A4 A5 A6 A7 A8 A9 v) = none)
    ∧ (∀ (A1 A2 A3 A4 A5 A6 A7 A8 A9 : Type) (v : A1), @Or9.as_t4 A1 A2 A3 A4 A5 A6 A7 A8 A9 (@Or9.T1 A1 A2 A3 A4 A5 A6 A7 A8 A9 v) = none)
    ∧ (∀ (A1 A2 A3 A4 A5 A6 A7 A8 A9 : Type) (v : A1), @Or9.as_t5 A1 A2 A3 A4 A5 A6 A7 A8 A9 (@Or9.T1 A1 A2 A3 A4 A5 A6 A7 A8 A9 v) = none)
    ∧ (∀ (A1 A2 A3 A4 A5 A6 A7 A8 A9 : Type) (v : A1), @Or9.as_t6 A1 A2 A3 A4 A5 A6 A7 A8 A9 (@Or9.T1 A1 A2 A3 A4 A5 A6 A7 A8 A9 v) = none)
    ∧ (∀ (A1 A2 A3 A4 A5 A6 A7 A8 A9 : Type) (v : A1), @Or9.as_t7 A1 A2 A3 A4 A5 A6 A7 A8 A9 (@Or9.T1 A1 A2 A3 A4 A5 A6 A7 A8 A9 v) = none)
    ∧ (∀ (A1 A2 A3 A4 A5 A6 A7 A8 A9 : Type) (v : A1), @Or9.as_t8 A1 A2 A3 A4 A5 A6 A7 A8 A9 (@Or9.T1 A1 A2 A3 A4 A5 A6 A7 A8 A9 v) = none)
    ∧ (∀ (A1 A2 A3 A4 A5 A6 A7 A8 A9 : Type) (v : A1), @Or9.as_t9 A1 A2 A3 A4 A5 A6 A7 A8 A9 (@Or9.T1 A1 A2 A3 A4 A5 A6 A7 A8 A9 v) = none)
    ∧ (∀ (A1 A2 A3 A4 A5 A6 A7 A8 A9 : Type) (v : A2), @Or9.as_t1 A1 A2 A3 A4 A5 A6 A7 A8 A9 (@Or9.T2 A1 A2 A3 A4 A5 A6 A7 A8 A9 v) = none)
    ∧ (∀ (A1 A2 A3 A4 A5 A6 A7 A8 A9 : Type) (v : A2), @Or9.as_t2 A1 A2 A3 A4 A5 A6 A7 A8 A9 (@Or9.T2 A1 A2 A3 A4 A5 A6 A7 A8 A9 v) = some v)
    ∧ (∀ (A1 A2 A3 A4 A5 A6 A7 A8 A9 : Type) (v : A2), @Or9.as_t3 A1 A2 A3 A4 A5 A6 A7 A8 A9 (@Or9.T2 A1 A2 A3 A4 A5 A6 A7 A8 A9 v) = none)
    ∧ (∀ (A1 A2 A3 A4 A5 A6 A7 A8 A9 : Type) (v : A2), @Or9.as_t4 A1 A2 A3 A4 A5 A6 A7 A8 A9 (@Or9.T2 A1 A2 A3 A4 A5 A6 A7 A8 A9 v) = none)
    ∧ (∀ (A1 A2 A3 A4 A5 A6 A7 A8 A9 : Type) (v : A2), @Or9.as_t5 A1 A2 A3 A4 A5 A6 A7 A8 A9 (@Or9.T2 A1 A2 A3 A4 A5 A6 A7 A8 A9 v) = none)
    ∧ (∀ (A1 A2 A3 A4 A5 A6 A7 A8 A9 : Type) (v : A2), @Or9.as_t6 A1 A2 A3 A4 A5 A6 A7 A8 A9 (@Or9.T2 A1 A2 A3 A4 A5 A6 A7 A8 A9 v) = none)
    ∧ (∀ (A1 A2 A3 A4 A5 A6 A7 A8 A9 : Type) (v : A2), @Or9.as_t7 A1 A2 A3 A4 A5 A6 A7 A8 A9 (@Or9.T2 A1 A2 A3 A4 A5 A6 A7 A8 A9 v) = none)
    ∧ (∀ (A1 A2 A3 A4 A5 A6 A7 A8 A9 : Type) (v : A2), @Or9.as_t8 A1 A2 A3 A4 A5 A6 A7 A8 A9 (@Or9.T2 A1 A2 A3 A4 A5 A6 A7 A8 A9 v) = none)
    ∧ (∀ (A1 A2 A3 A4 A5 A6 A7 A8 A9 : Type) (v : A2), @Or9.as_t9 A1 A2 A3 A4 A5 A6 A7 A8 A9 (@Or9.T2 A1 A2 A3 A4 A5 A6 A7 A8 A9 v) = none)
    ∧ (∀ (A1 A2 A3 A4 A5 A6 A7 A8 A9 : Type) (v : A3), @Or9.as_t1 A1 A2 A3 A4 A5 A6 A7 A8 A9 (@Or9.T3 A1 A2 A3 A4 A5 A6 A7 A8 A9 v) = none)
    ∧ (∀ (A1 A2 A3 A4 A5 A6 A7 A8 A9 : Type) (v : A3), @Or9.as_t2 A1 A2 A3 A4 A5 A6 A7 A8 A9 (@Or9.T3 A1 A2 A3 A4 A5 A6 A7 A8 A9 v) = none)
    ∧ (∀ (A1 A2 A3 A4 A5 A6 A7 A8 A9 : Type) (v : A3), @Or9.as_t3 A1 A2 A3 A4 A5 A6 A7 A8 A9 (@Or9.T3 A1 A2 A3 A4 A5 A6 A7 A8 A9 v) = some v)
    ∧ (∀ (A1 A2 A3 A4 A5 A6 A7 A8 A9 : Type) (v : A3), @Or9.as_t4 A1 A2 A3 A4 A5 A6 A7 A8 A9 (@Or9.T3 A1 A2 A3 A4 A5 A6 A7 A8 A9 v) = none)
    ∧ (∀ (A1 A2 A3 A4 A5 A6 A7 A8 A9 : Type) (v : A3), @Or9.as_t5 A1 A2 A3 A4 A5 A6 A7 A8 A9 (@Or9.T3 A1 A2 A3 A4 A5 A6 A7 A8 A9 v) = none)
    ∧ (∀ (A1 A2 A3 A4 A5 A6 A7 A8 A9 : Type) (v : A3), @Or9.as_t6 A1 A2 A3 A4 A5 A6 A7 A8 A9 (@Or9.T3 A1 A2 A3 A4 A5 A6 A7 A8 A9 v) = none)
    ∧ (∀ (A1 A2 A3 A4 A5 A6 A7 A8 A9 : Type) (v : A3), @Or9.as_t7 A1 A2 A3 A4 A5 A6 A7 A8 A9 (@Or9.T3 A1 A2 A3 A4 A5 A6 A7 A8 A9 v) = none)
    ∧ (∀ (A1 A2 A3 A4 A5 A6 A7 A8 A9 : Type) (v : A3), @Or9.as_t8 A1 A2 A3 A4 A5 A6 A7 A8 A9 (@Or9.T3 A1 A2 A3 A4 A5 A6 A7 A8 A9 v) = none)
    ∧ (∀ (A1 A2 A3 A4 A5 A6 A7 A8 A9 : Type) (v : A3), @Or9.as_t9 A1 A2 A3 A4 A5 A6 A7 A8 A9 (@Or9.T3 A1 A2 A3 A4 A5 A6 A7 A8 A9 v) = none)
    ∧ (∀ (A1 A2 A3 A4 A5 A6 A7 A8 A9 : Type) (v : A4), @Or9.as_t1 A1 A2 A3 A4 A5 A6 A7 A8 A9 (@Or9.T4 A1 A2 A3 A4 A5 A6 A7 A8 A9 v) = none)
    ∧ (∀ (A1 A2 A3 A4 A5 A6 A7 A8 A9 : Type) (v : A4), @Or9.as_t2 A1 A2 A3 A4 A5 A6 A7 A8 A9 (@Or9.T4 A1 A2 A3 A4 A5 A6 A7 A8 A9 v) = none)
    ∧ (∀ (A1 A2 A3 A4 A5 A6 A7 A8 A9 : Type) (v : A4), @Or9.as_t3 A1 A2 A3 A4 A5 A6 A7 A8 A9 (@Or9.T4 A1 A2 A3 A4 A5 A6 A7 A8 A9 v) = none)
    ∧ (∀ (A1 A2 A3 A4 A5 A6 A7 A8 A9 : Type) (v : A4), @Or9.as_t4 A1 A2 A3 A4 A5 A6 A7 A8 A9 (@Or9.T4 A1 A2 A3 A4 A5 A6 A7 A8 A9 v) = some v)
    ∧ (∀ (A1 A2 A3 A4 A5 A6 A7 A8 A9 : Type) (v : A4), @Or9.as_t5 A1 A2 A3 A4 A5 A6 A7 A8 A9 (@Or9.T4 A1 A2 A3 A4 A5 A6 A7 A8 A9 v) = none)
    ∧ (∀ (A1 A2 A3 A4 A5 A6 A7 A8 A9 : Type) (v : A4), @Or9.as_t6 A1 A2 A3 A4 A5 A6 A7 A8 A9 (@Or9.T4 A1 A2 A3 A4 A5 A6 A7 A8 A9 v) = none)
    ∧ (∀ (A1 A2 A3 A4 A5 A6 A7 A8 A9 : Type) (v : A4), @Or9.as_t7 A1 A2 A3 A4 A5 A6 A7 A8 A9 (@Or9.T4 A1 A2 A3 A4 A5 A6 A7 A8 A9 v) = none)
    ∧ (∀ (A1 A2 A3 A4 A5 A6 A7 A8 A9 : Type) (v : A4), @Or9.as_t8 A1 A2 A3 A4 A5 A6 A7 A8 A9 (@Or9.T4 A1 A2 A3 A4 A5 A6 A7 A8 A9 v) = none)
    ∧ (∀ (A1 A2 A3 A4 A5 A6 A7 A8 A9 : Type) (v : A4), @Or9.as_t9 A1 A2 A3 A4 A5 A6 A7 A8 A9 (@Or9.T4 A1 A2 A3 A4 A5 A6 A7 A8 A9 v) = none)
    ∧ (∀ (A1 A2 A3 A4 A5 A6 A7 A8 A9 : Type) (v : A5), @Or9.as_t1 A1 A2 A3 A4 A5 A6 A7 A8 A9 (@Or9.T5 A1 A2 A3 A4 A5 A6 A7 A8 A9 v) = none)
    ∧ (∀ (A1 A2 A3 A4 A5 A6 A7 A8 A9 : Type) (v : A5), @Or9.as_t2 A1 A2 A3 A4 A5 A6 A7 A8 A9 (@Or9.T5 A1 A2 A3 A4 A5 A6 A7 A8 A9 v) = none)
    ∧ (∀ (A1 A2 A3 A4 A5 A6 A7 A8 A9 : Type) (v : A5), @Or9.as_t3 A1 A2 A3 A4 A5 A6 A7 A8 A9 (@Or9.T5 A1 A2 A3 A4 A5 A6 A7 A8 A9 v) = none)
    ∧ (∀ (A1 A2 A3 A4 A5 A6 A7 A8 A9 : Type) (v : A5), @Or9.as_t4 A1 A2 A3 A4 A5 A6 A7 A8 A9 (@Or9.T5 A1 A2 A3 A4 A5 A6 A7 A8 A9 v) = none)
    ∧ (∀ (A1 A2 A3 A4 A5 A6 A7 A8 A9 : Type) (v : A5), @Or9.as_t5 A1 A2 A3 A4 A5 A6 A7 A8 A9 (@Or9.T5 A1 A2 A3 A4 A5 A6 A7 A8 A9 v) = some v)
    ∧ (∀ (A1 A2 A3 A4 A5 A6 A7 A8 A9 : Type) (v : A5), @Or9.as_t6 A1 A2 A3 A4 A5 A6 A7 A8 A9 (@Or9.T5 A1 A2 A3 A4 A5 A6 A7 A8 A9 v) = none)
    ∧ (∀ (A1 A2 A3 A4 A5 A6 A7 A8 A9 : Type) (v : A5), @Or9.as_t7 A1 A2 A3 A4 A5 A6 A7 A8 A9 (@Or9.T5 A1 A2 A3 A4 A5 A6 A7 A8 A9 v) = none)
    ∧ (∀ (A1 A2 A3 A4 A5 A6 A7 A8 A9 : Type) (v : A5), @Or9.as_t8 A1 A2 A3 A4 A5 A6 A7 A8 A9 (@Or9.T5 A1 A2 A3 A4 A5 A6 A7 A8 A9 v) = none)
    ∧ (∀ (A1 A2 A3 A4 A5 A6 A7 A8 A9 : Type) (v : A5), @Or9.as_t9 A1 A2 A3 A4 A5 A6 A7 A8 A9 (@Or9.T5 A1 A2 A3 A4 A5 A6 A7 A8 A9 v) = none)
    ∧ (∀ (A1 A2 A3 A4 A5 A6 A7 A8 A9 : Type) (v : A6), @Or9.as_t1 A1 A2 A3 A4 A5 A6 A7 A8 A9 (@Or9.T6 A1 A2 A3 A4 A5 A6 A7 A8 A9 v) = none)
    ∧ (∀ (A1 A2 A3 A4 A5 A6 A7 A8 A9 : Type) (v : A6), @Or9.as_t2 A1 A2 A3 A4 A5 A6 A7 A8 A9 (@Or9.T6 A1 A2 A3 A4 A5 A6 A7 A8 A9 v) = none)
    ∧ (∀ (A1 A2 A3 A4 A5 A6 A7 A8 A9 : Type) (v : A6), @Or9.as_t3 A1 A2 A3 A4 A5 A6 A7 A8 A9 (@Or9.T6 A1 A2 A3 A4 A5 A6 A7 A8 A9 v) = none)
    ∧ (∀ (A1 A2 A3 A4 A5 A6 A7 A8 A9 : Type) (v : A6), @Or9.as_t4 A1 A2 A3 A4 A5 A6 A7 A8 A9 (@Or9.T6 A1 A2 A3 A4 A5 A6 A7 A8 A9 v) = none)
    ∧ (∀ (A1 A2 A3 A4 A5 A6 A7 A8 A9 : Type) (v : A6), @Or9.as_t5 A1 A2 A3 A4 A5 A6 A7 A8 A9 (@Or9.T6 A1 A2 A3 A4 A5 A6 A7 A8 A9 v) = none)
    ∧ (∀ (A1 A2 A3 A4 A5 A6 A7 A8 A9 : Type) (v : A6), @Or9.as_t6 A1 A2 A3 A4 A5 A6 A7 A8 A9 (@Or9.T6 A1 A2 A3 A4 A5 A6 A7 A8 A9 v) = some v)
    ∧ (∀ (A1 A2 A3 A4 A5 A6 A7 A8 A9 : Type) (v : A6), @Or9.as_t7 A1 A2 A3 A4 A5 A6 A7 A8 A9 (@Or9.T6 A1 A2 A3 A4 A5 A6 A7 A8 A9 v) = none)
    ∧ (∀ (A1 A2 A3 A4 A5 A6 A7 A8 A9 : Type) (v : A6), @Or9.as_t8 A1 A2 A3 A4 A5 A6 A7 A8 A9 (@Or9.T6 A1 A2 A3 A4 A5 A6 A7 A8 A9 v) = none)
    ∧ (∀ (A1 A2 A3 A4 A5 A6 A7 A8 A9 : Type) (v : A6), @Or9.as_t9 A1 A2 A3 A4 A5 A6 A7 A8 A9 (@Or9.T6 A1 A2 A3 A4 A5 A6 A7 A8 A9 v) = none)
    ∧ (∀ (A1 A2 A3 A4 A5 A6 A7 A8 A9 : Type) (v : A7), @Or9.as_t1 A1 A2 A3 A4 A5 A6 A7 A8 A9 (@Or9.T7 A1 A2 A3 A4 A5 A6 A7 A8 A9 v) = none)
    ∧ (∀ (A1 A2 A3 A4 A5 A6 A7 A8 A9 : Type) (v : A7), @Or9.as_t2 A1 A2 A3 A4 A5 A6 A7 A8 A9 (@Or9.T7 A1 A2 A3 A4 A5 A6 A7 A8 A9 v) = none)
    ∧ (∀ (A1 A2 A3 A4 A5 A6 A7 A8 A9 : Type) (v : A7), @Or9.as_t3 A1 A2 A3 A4 A5 A6 A7 A8 A9 (@Or9.T7 A1 A2 A3 A4 A5 A6 A7 A8 A9 v) = none)
    ∧ (∀ (A1 A2 A3 A4 A5 A6 A7 A8 A9 : Type) (v : A7), @Or9.as_t4 A1 A2 A3 A4 A5 A6 A7 A8 A9 (@Or9.T7 A1 A2 A3 A4 A5 A6 A7 A8 A9 v) = none)
    ∧ (∀ (A1 A2 A3 A4 A5 A6 A7 A8 A9 : Type) (v : A7), @Or9.as_t5 A1 A2 A3 A4 A5 A6 A7 A8 A9 (@Or9.T7 A1 A2 A3 A4 A5 A6 A7 A8 A9 v) = none)
    ∧ (∀ (A1 A2 A3 A4 A5 A6 A7 A8 A9 : Type) (v : A7), @Or9.as_t6 A1 A2 A3 A4 A5 A6 A7 A8 A9 (@Or9.T7 A1 A2 A3 A4 A5 A6 A7 A8 A9 v) = none)
    ∧ (∀ (A1 A2 A3 A4 A5 A6 A7 A8 A9 : Type) (v : A7), @Or9.as_t7 A1 A2 A3 A4 A5 A6 A7 A8 A9 (@Or9.T7 A1 A2 A3 A4 A5 A6 A7 A8 A9 v) = some v)
    ∧ (∀ (A1 A2 A3 A4 A5 A6 A7 A8 A9 : Type) (v : A7), @Or9.as_t8 A1 A2 A3 A4 A5 A6 A7 A8 A9 (@Or9.T7 A1 A2 A3 A4 A5 A6 A7 A8 A9 v) = none)
    ∧ (∀ (A1 A2 A3 A4 A5 A6 A7 A8 A9 : Type) (v : A7), @Or9.as_t9 A1 A2 A3 A4 A5 A6 A7 A8 A9 (@Or9.T7 A1 A2 A3 A4 A5 A6 A7 A8 A9 v) = none)
    ∧ (∀ (A1 A2 A3 A4 A5 A6 A7 A8 A9 : Type) (v : A8), @Or9.as_t1 A1 A2 A3 A4 A5 A6 A7 A8 A9 (@Or9.T8 A1 A2 A3 A4 A5 A6 A7 A8 A9 v) = none)
    ∧ (∀ (A1 A2 A3 A4 A5 A6 A7 A8 A9 : Type) (v : A8), @Or9.as_t2 A1 A2 A3 A4 A5 A6 A7 A8 A9 (@Or9.T8 A1 A2 A3 A4 A5 A6 A7 A8 A9 v) = none)
    ∧ (∀ (A1 A2 A3 A4 A5 A6 A7 A8 A9 : Type) (v : A8), @Or9.as_t3 A1 A2 A3 A4 A5 A6 A7 A8 A9 (@Or9.T8 A1 A2 A3 A4 A5 A6 A7 A8 A9 v) = none)
    ∧ (∀ (A1 A2 A3 A4 A5 A6 A7 A8 A9 : Type) (v : A8), @Or9.as_t4 A1 A2 A3 A4 A5 A6 A7 A8 A9 (@Or9.T8 A1 A2 A3 A4 A5 A6 A7 A8 A9 v) = none)
    ∧ (∀ (A1 A2 A3 A4 A5 A6 A7 A8 A9 : Type) (v : A8), @Or9.as_t5 A1 A2 A3 A4 A5 A6 A7 A8 A9 (@Or9.T8 A1 A2 A3 A4 A5 A6 A7 A8 A9 v) = none)
    ∧ (∀ (A1 A2 A3 A4 A5 A6 A7 A8 A9 : Type) (v : A8), @Or9.as_t6 A1 A2 A3 A4 A5 A6 A7 A8 A9 (@Or9.T8 A1 A2 A3 A4 A5 A6 A7 A8 A9 v) = none)
    ∧ (∀ (A1 A2 A3 A4 A5 A6 A7 A8 A9 : Type) (v : A8), @Or9.as_t7 A1 A2 A3 A4 A5 A6 A7 A8 A9 (@Or9.T8 A1 A2 A3 A4 A5 A6 A7 A8 A9 v) = none)
    ∧ (∀ (A1 A2 A3 A4 A5 A6 A7 A8 A9 : Type) (v : A8), @Or9.as_t8 A1 A2 A3 A4 A5 A6 A7 A8 A9 (@Or9.T8 A1 A2 A3 A4 A5 A6 A7 A8 A9 v) = some v)
    ∧ (∀ (A1 A2 A3 A4 A5 A6 A7 A8 A9 : Type) (v : A8), @Or9.as_t9 A1 A2 A3 A4 A5 A6 A7 A8 A9 (@Or9.T8 A1 A2 A3 A4 A5 A6 A7 A8 A9 v) = none)
    ∧ (∀ (A1 A2 A3 A4 A5 A6 A7 A8 A9 : Type) (v : A9), @Or9.as_t1 A1 A2 A3 A4 A5 A6 A7 A8 A9 (@Or9.T9 A1 A2 A3 A4 A5 A6 A7 A8 A9 v) = none)
    ∧ (∀ (A1 A2 A3 A4 A5 A6 A7 A8 A9 : Type) (v : A9), @Or9.as_t2 A1 A2 A3 A4 A5 A6 A7 A8 A9 (@Or9.T9 A1 A2 A3 A4 A5 A6 A7 A8 A9 v) = none)
    ∧ (∀ (A1 A2 A3 A4 A5 A6 A7 A8 A9 : Type) (v : A9), @Or9.as_t3 A1 A2 A3 A4 A5 A6 A7 A8 A9 (@Or9.T9 A1 A2 A3 A4 A5 A6 A7 A8 A9 v) = none)
    ∧ (∀ (A1 A2 A3 A4 A5 A6 A7 A8 A9 : Type) (v : A9), @Or9.as_t4 A1 A2 A3 A4 A5 A6 A7 A8 A9 (@Or9.T9 A1 A2 A3 A4 A5 A6 A7 A8 A9 v) = none)
    ∧ (∀ (A1 A2 A3 A4 A5 A6 A7 A8 A9 : Type) (v : A9), @Or9.as_t5 A1 A2 A3 A4 A5 A6 A7 A8 A9 (@Or9.T9 A1 A2 A3 A4 A5 A6 A7 A8 A9 v) = none)
    ∧ (∀ (A1 A2 A3 A4 A5 A6 A7 A8 A9 : Type) (v : A9), @Or9.as_t6 A1 A2 A3 A4 A5 A6 A7 A8 A9 (@Or9.T9 A1 A2 A3 A4 A5 A6 A7 A8 A9 v) = none)
    ∧ (∀ (A1 A2 A3 A4 A5 A6 A7 A8 A9 : Type) (v : A9), @Or9.as_t7 A1 A2 A3 A4 A5 A6 A7 A8 A9 (@Or9.T9 A1 A2 A3 A4 A5 A6 A7 A8 A9 v) = none)
    ∧ (∀ (A1 A2 A3 A4 A5 A6 A7 A8 A9 : Type) (v : A9), @Or9.as_t8 A1 A2 A3 A4 A5 A6 A7 A8 A9 (@Or9.T9 A1 A2 A3 A4 A5 A6 A7 A8 A9 v) = none)
    ∧ (∀ (A1 A2 A3 A4 A5 A6 A7 A8 A9 : Type) (v : A9), @Or9.as_t9 A1 A2 A3 A4 A5 A6 A7 A8 A9 (@Or9.T9 A1 A2 A3 A4 A5 A6 A7 A8 A9 v) = some v)
    :=
  ⟨fun _ _ _ => rfl,
   fun _ _ _ => rfl,
   fun _ _ _ => rfl,
   fun _ _ _ => rfl,
   fun _ _ _ _ => rfl,
   fun _ _ _ _ => rfl,
   fun _ _ _ _ => rfl,
   fun _ _ _ _ => rfl,
   fun _ _ _ _ => rfl,
   fun _ _ _ _ => rfl,
   fun _ _ _ _ => rfl,
   fun _ _ _ _ => rfl,
   fun _ _ _ _ => rfl,
   fun _ _ _ _ _ => rfl,
   fun _ _ _ _ _ => rfl,
   fun _ _ _ _ _ => rfl,
   fun _ _ _ _ _ => rfl,
   fun _ _ _ _ _ => rfl,
   fun _ _ _ _ _ => rfl,
   fun _ _ _ _ _ => rfl,
   fun _ _ _ _ _ => rfl,
   fun _ _ _ _ _ => rfl,
   fun _ _ _ _ _ => rfl,
   fun _ _ _ _ _ => rfl,
   fun _ _ _ _ _ => rfl,
   fun _ _ _ _ _ => rfl,
   fun _ _ _ _ _ => rfl,
   fun _ _ _ _ _ => rfl,
   fun _ _ _ _ _ => rfl,
   fun _ _ _ _ _ _ => rfl,
   fun _ _ _ _ _ _ => rfl,
   fun _ _ _ _ _ _ => rfl,
   fun _ _ _ _ _ _ => rfl,
   fun _ _ _ _ _ _ => rfl,
   fun _ _ _ _ _ _ => rfl,
   fun _ _ _ _ _ _ => rfl,
   fun _ _ _ _ _ _ => rfl,
   fun _ _ _ _ _ _ => rfl,
   fun _ _ _ _ _ _ => rfl,
   fun _ _ _ _ _ _ => rfl,
   fun _ _ _ _ _ _ => rfl,
   fun _ _ _ _ _ _ => rfl,
   fun _ _ _ _ _ _ => rfl,
   fun _ _ _ _ _ _ => rfl,
   fun _ _ _ _ _ _ => rfl,
   fun _ _ _ _ _ _ => rfl,
   fun _ _ _ _ _ _ => rfl,
   fun _ _ _ _ _ _ => rfl,
   fun _ _ _ _ _ _ => rfl,
   fun _ _ _ _ _ _ => rfl,
   fun _ _ _ _ _ _ => rfl,
   fun _ _ _ _ _ _ => rfl,
   fun _ _ _ _ _ _ => rfl,
   fun _ _ _ _ _ _ => rfl,
   fun _ _ _ _ _ _ _ => rfl,
   fun _ _ _ _ _ _ _ => rfl,
   fun _ _ _ _ _ _ _ => rfl,
   fun _ _ _ _ _ _ _ => rfl,
   fun _ _ _ _ _ _ _ => rfl,
   fun _ _ _ _ _ _ _ => rfl,
   fun _ _ _ _ _ _ _ => rfl,
   fun _ _ _ _ _ _ _ => rfl,
   fun _ _ _ _ _ _ _ => rfl,
   fun _ _ _ _ _ _ _ => rfl,
   fun _ _ _ _ _ _ _ => rfl,
   fun _ _ _ _ _ _ _ => rfl,
   fun _ _ _ _ _ _ _ => rfl,
   fun _ _ _ _ _ _ _ => rfl,
   fun _ _ _ _ _ _ _ => rfl,
   fun _ _ _ _ _ _ _ => rfl,
   fun _ _ _ _ _ _ _ => rfl,
   fun _ _ _ _ _ _ _ => rfl,
   fun _ _ _ _ _ _ _ => rfl,
   fun _ _ _ _ _ _ _ => rfl,
   fun _ _ _ _ _ _ _ => rfl,
   fun _ _ _ _ _ _ _ => rfl,
   fun _ _ _ _ _ _ _ => rfl,
   fun _ _ _ _ _ _ _ => rfl,
   fun _ _ _ _ _ _ _ => rfl,
   fun _ _ _ _ _ _ _ => rfl,
   fun _ _ _ _ _ _ _ => rfl,
   fun _ _ _ _ _ _ _ => rfl,
   fun _ _ _ _ _ _ _ => rfl,
   fun _ _ _ _ _ _ _ => rfl,
   fun _ _ _ _ _ _ _ => rfl,
   fun _ _ _ _ _ _ _ => rfl,
   fun _ _ _ _ _ _ _ => rfl,
   fun _ _ _ _ _ _ _ => rfl,
   fun _ _ _ _ _ _ _ => rfl,
   fun _ _ _ _ _ _ _ => rfl,
   fun _ _ _ _ _ _ _ _ => rfl,
   fun _ _ _ _ _ _ _ _ => rfl,
   fun _ _ _ _ _ _ _ _ => rfl,
   fun _ _ _ _ _ _ _ _ => rfl,
   fun _ _ _ _ _ _ _ _ => rfl,
   fun _ _ _ _ _ _ _ _ => rfl,
   fun _ _ _ _ _ _ _ _ => rfl,
   fun _ _ _ _ _ _ _ _ => rfl,
   fun _ _ _ _ _ _ _ _ => rfl,
   fun _ _ _ _ _ _ _ _ => rfl,
   fun _ _ _ _ _ _ _ _ => rfl,
   fun _ _ _ _ _ _ _ _ => rfl,
   fun _ _ _ _ _ _ _ _ => rfl,
   fun _ _ _ _ _ _ _ _ => rfl,
   fun _ _ _ _ _ _ _ _ => rfl,
   fun _ _ _ _ _ _ _ _ => rfl,
   fun _ _ _ _ _ _ _ _ => rfl,
   fun _ _ _ _ _ _ _ _ => rfl,
   fun _ _ _ _ _ _ _ _ => rfl,
   fun _ _ _ _ _ _ _ _ => rfl,
   fun _ _ _ _ _ _ _ _ => rfl,
   fun _ _ _ _ _ _ _ _ => rfl,
   fun _ _ _ _ _ _ _ _ => rfl,
   fun _ _ _ _ _ _ _ _ => rfl,
   fun _ _ _ _ _ _ _ _ => rfl,
   fun _ _ _ _ _ _ _ _ => rfl,
   fun _ _ _ _ _ _ _ _ => rfl,
   fun _ _ _ _ _ _ _ _ => rfl,
   fun _ _ _ _ _ _ _ _ => rfl,
   fun _ _ _ _ _ _ _ _ => rfl,
   fun _ _ _ _ _ _ _ _ => rfl,
   fun _ _ _ _ _ _ _ _ => rfl,
   fun _ _ _ _ _ _ _ _ => rfl,
   fun _ _ _ _ _ _ _ _ => rfl,
   fun _ _ _ _ _ _ _ _ => rfl,
   fun _ _ _ _ _ _ _ _ => rfl,
   fun _ _ _ _ _ _ _ _ => rfl,
   fun _ _ _ _ _ _ _ _ => rfl,
   fun _ _ _ _ _ _ _ _ => rfl,
   fun _ _ _ _ _ _ _ _ => rfl,
   fun _ _ _ _ _ _ _ _ => rfl,
   fun _ _ _ _ _ _ _ _ => rfl,
   fun _ _ _ _ _ _ _ _ => rfl,
   fun _ _ _ _ _ _ _ _ => rfl,
   fun _ _ _ _ _ _ _ _ => rfl,
   fun _ _ _ _ _ _ _ _ => rfl,
   fun _ _ _ _ _ _ _ _ => rfl,
   fun _ _ _ _ _ _ _ _ => rfl,
   fun _ _ _ _ _ _ _ _ => rfl,
   fun _ _ _ _ _ _ _ _ _ => rfl,
   fun _ _ _ _ _ _ _ _ _ => rfl,
   fun _ _ _ _ _ _ _ _ _ => rfl,
   fun _ _ _ _ _ _ _ _ _ => rfl,
   fun _ _ _ _ _ _ _ _ _ => rfl,
   fun _ _ _ _ _ _ _ _ _ => rfl,
   fun _ _ _ _ _ _ _ _ _ => rfl,
   fun _ _ _ _ _ _ _ _ _ => rfl,
   fun _ _ _ _ _ _ _ _ _ => rfl,
   fun _ _ _ _ _ _ _ _ _ => rfl,
   fun _ _ _ _ _ _ _ _ _ => rfl,
   fun _ _ _ _ _ _ _ _ _ => rfl,
   fun _ _ _ _ _ _ _ _ _ => rfl,
   fun _ _ _ _ _ _ _ _ _ => rfl,
   fun _ _ _ _ _ _ _ _ _ => rfl,
   fun _ _ _ _ _ _ _ _ _ => rfl,
   fun _ _ _ _ _ _ _ _ _ => rfl,
   fun _ _ _ _ _ _ _ _ _ => rfl,
   fun _ _ _ _ _ _ _ _ _ => rfl,
   fun _ _ _ _ _ _ _ _ _ => rfl,
   fun _ _ _ _ _ _ _ _ _ => rfl,
   fun _ _ _ _ _ _ _ _ _ => rfl,
   fun _ _ _ _ _ _ _ _ _ => rfl,
   fun _ _ _ _ _ _ _ _ _ => rfl,
   fun _ _ _ _ _ _ _ _ _ => rfl,
   fun _ _ _ _ _ _ _ _ _ => rfl,
   fun _ _ _ _ _ _ _ _ _ => rfl,
   fun _ _ _ _ _ _ _ _ _ => rfl,
   fun _ _ _ _ _ _ _ _ _ => rfl,
   fun _ _ _ _ _ _ _ _ _ => rfl,
   fun _ _ _ _ _ _ _ _ _ => rfl,
   fun _ _ _ _ _ _ _ _ _ => rfl,
   fun _ _ _ _ _ _ _ _ _ => rfl,
   fun _ _ _ _ _ _ _ _ _ => rfl,
   fun _ _ _ _ _ _ _ _ _ => rfl,
   fun _ _ _ _ _ _ _ _ _ => rfl,
   fun _ _ _ _ _ _ _ _ _ => rfl,
   fun _ _ _ _ _ _ _ _ _ => rfl,
   fun _ _ _ _ _ _ _ _ _ => rfl,
   fun _ _ _ _ _ _ _ _ _ => rfl,
   fun _ _ _ _ _ _ _ _ _ => rfl,
   fun _ _ _ _ _ _ _ _ _ => rfl,
   fun _ _ _ _ _ _ _ _ _ => rfl,
   fun _ _ _ _ _ _ _ _ _ => rfl,
   fun _ _ _ _ _ _ _ _ _ => rfl,
   fun _ _ _ _ _ _ _ _ _ => rfl,
   fun _ _ _ _ _ _ _ _ _ => rfl,
   fun _ _ _ _ _ _ _ _ _ => rfl,
   fun _ _ _ _ _ _ _ _ _ => rfl,
   fun _ _ _ _ _ _ _ _ _ => rfl,
   fun _ _ _ _ _ _ _ _ _ => rfl,
   fun _ _ _ _ _ _ _ _ _ => rfl,
   fun _ _ _ _ _ _ _ _ _ => rfl,
   fun _ _ _ _ _ _ _ _ _ => rfl,
   fun _ _ _ _ _ _ _ _ _ => rfl,
   fun _ _ _ _ _ _ _ _ _ => rfl,
   fun _ _ _ _ _ _ _ _ _ => rfl,
   fun _ _ _ _ _ _ _ _ _ => rfl,
   fun _ _ _ _ _ _ _ _ _ => rfl,
   fun _ _ _ _ _ _ _ _ _ => rfl,
   fun _ _ _ _ _ _ _ _ _ => rfl,
   fun _ _ _ _ _ _ _ _ _ => rfl,
   fun _ _ _ _ _ _ _ _ _ => rfl,
   fun _ _ _ _ _ _ _ _ _ => rfl,
   fun _ _ _ _ _ _ _ _ _ _ => rfl,
   fun _ _ _ _ _ _ _ _ _ _ => rfl,
   fun _ _ _ _ _ _ _ _ _ _ => rfl,
   fun _ _ _ _ _ _ _ _ _ _ => rfl,
   fun _ _ _ _ _ _ _ _ _ _ => rfl,
   fun _ _ _ _ _ _ _ _ _ _ => rfl,
   fun _ _ _ _ _ _ _ _ _ _ => rfl,
   fun _ _ _ _ _ _ _ _ _ _ => rfl,
   fun _ _ _ _ _ _ _ _ _ _ => rfl,
   fun _ _ _ _ _ _ _ _ _ _ => rfl,
   fun _ _ _ _ _ _ _ _ _ _ => rfl,
   fun _ _ _ _ _ _ _ _ _ _ => rfl,
   fun _ _ _ _ _ _ _ _ _ _ => rfl,
   fun _ _ _ _ _ _ _ _ _ _ => rfl,
   fun _ _ _ _ _ _ _ _ _ _ => rfl,
   fun _ _ _ _ _ _ _ _ _ _ => rfl,
   fun _ _ _ _ _ _ _ _ _ _ => rfl,
   fun _ _ _ _ _ _ _ _ _ _ => rfl,
   fun _ _ _ _ _ _ _ _ _ _ => rfl,
   fun _ _ _ _ _ _ _ _ _ _ => rfl,
   fun _ _ _ _ _ _ _ _ _ _ => rfl,
   fun _ _ _ _ _ _ _ _ _ _ => rfl,
   fun _ _ _ _ _ _ _ _ _ _ => rfl,
   fun _ _ _ _ _ _ _ _ _ _ => rfl,
   fun _ _ _ _ _ _ _ _ _ _ => rfl,
   fun _ _ _ _ _ _ _ _ _ _ => rfl,
   fun _ _ _ _ _ _ _ _ _ _ => rfl,
   fun _ _ _ _ _ _ _ _ _ _ => rfl,
   fun _ _ _ _ _ _ _ _ _ _ => rfl,
   fun _ _ _ _ _ _ _ _ _ _ => rfl,
   fun _ _ _ _ _ _ _ _ _ _ => rfl,
   fun _ _ _ _ _ _ _ _ _ _ => rfl,
   fun _ _ _ _ _ _ _ _ _ _ => rfl,
   fun _ _ _ _ _ _ _ _ _ _ => rfl,
   fun _ _ _ _ _ _ _ _ _ _ => rfl,
   fun _ _ _ _ _ _ _ _ _ _ => rfl,
   fun _ _ _ _ _ _ _ _ _ _ => rfl,
   fun _ _ _ _ _ _ _ _ _ _ => rfl,
   fun _ _ _ _ _ _ _ _ _ _ => rfl,
   fun _ _ _ _ _ _ _ _ _ _ => rfl,
   fun _ _ _ _ _ _ _ _ _ _ => rfl,
   fun _ _ _ _ _ _ _ _ _ _ => rfl,
   fun _ _ _ _ _ _ _ _ _ _ => rfl,
   fun _ _ _ _ _ _ _ _ _ _ => rfl,
   fun _ _ _ _ _ _ _ _ _ _ => rfl,
   fun _ _ _ _ _ _ _ _ _ _ => rfl,
   fun _ _ _ _ _ _ _ _ _ _ => rfl,
   fun _ _ _ _ _ _ _ _ _ _ => rfl,
   fun _ _ _ _ _ _ _ _ _ _ => rfl,
   fun _ _ _ _ _ _ _ _ _ _ => rfl,
   fun _ _ _ _ _ _ _ _ _ _ => rfl,
   fun _ _ _ _ _ _ _ _ _ _ => rfl,
   fun _ _ _ _ _ _ _ _ _ _ => rfl,
   fun _ _ _ _ _ _ _ _ _ _ => rfl,
   fun _ _ _ _ _ _ _ _ _ _ => rfl,
   fun _ _ _ _ _ _ _ _ _ _ => rfl,
   fun _ _ _ _ _ _ _ _ _ _ => rfl,
   fun _ _ _ _ _ _ _ _ _ _ => rfl,
   fun _ _ _ _ _ _ _ _ _ _ => rfl,
   fun _ _ _ _ _ _ _ _ _ _ => rfl,
   fun _ _ _ _ _ _ _ _ _ _ => rfl,
   fun _ _ _ _ _ _ _ _ _ _ => rfl,
   fun _ _ _ _ _ _ _ _ _ _ => rfl,
   fun _ _ _ _ _ _ _ _ _ _ => rfl,
   fun _ _ _ _ _ _ _ _ _ _ => rfl,
   fun _ _ _ _ _ _ _ _ _ _ => rfl,
   fun _ _ _ _ _ _ _ _ _ _ => rfl,
   fun _ _ _ _ _ _ _ _ _ _ => rfl,
   fun _ _ _ _ _ _ _ _ _ _ => rfl,
   fun _ _ _ _ _ _ _ _ _ _ => rfl,
   fun _ _ _ _ _ _ _ _ _ _ => rfl,
   fun _ _ _ _ _ _ _ _ _ _ => rfl,
   fun _ _ _ _ _ _ _ _ _ _ => rfl,
   fun _ _ _ _ _ _ _ _ _ _ => rfl,
   fun _ _ _ _ _ _ _ _ _ _ => rfl,
   fun _ _ _ _ _ _ _ _ _ _ => rfl,
   fun _ _ _ _ _ _ _ _ _ _ => rfl,
   fun _ _ _ _ _ _ _ _ _ _ => rfl,
   fun _ _ _ _ _ _ _ _ _ _ => rfl,
   fun _ _ _ _ _ _ _ _ _ _ => rfl,
   fun _ _ _ _ _ _ _ _ _ _ => rfl⟩

/-- C7: for every arity N in 2..=9, `map_tk f` applied to a value in slot k yields `Tk (f v)`, and applied to a value in any other slot j yields the original payload unchanged in the same slot j; the discriminant is never altered. -/
theorem map_tk_frame :
    (∀ (A1 A2 B : Type) (f : A1 → B) (v : A1), @Or2.map_t1 A1 A2 B f (@Or2.T1 A1 A2 v) = @Or2.T1 B A2 (f v))
    ∧ (∀ (A1 A2 B : Type) (f : A1 → B) (v : A2), @Or2.map_t1 A1 A2 B f (@Or2.T2 A1 A2 v) = @Or2.T2 B A2 v)
    ∧ (∀ (A1 A2 B : Type) (f : A2 → B) (v : A1), @Or2.map_t2 A1 A2 B f (@Or2.T1 A1 A2 v) = @Or2.T1 A1 B v)
    ∧ (∀ (A1 A2 B : Type) (f : A2 → B) (v : A2), @Or2.map_t2 A1 A2 B f (@Or2.T2 A1 A2 v) = @Or2.T2 A1 B (f v))
    ∧ (∀ (A1 A2 A3 B : Type) (f : A1 → B) (v : A1), @Or3.map_t1 A1 A2 A3 B f (@Or3.T1 A1 A2 A3 v) = @Or3.T1 B A2 A3 (f v))
    ∧ (∀ (A1 A2 A3 B : Type) (f : A1 → B) (v : A2), @Or3.map_t1 A1 A2 A3 B f (@Or3.T2 A1 A2 A3 v) = @Or3.T2 B A2 A3 v)
    ∧ (∀ (A1 A2 A3 B : Type) (f : A1 → B) (v : A3), @Or3.map_t1 A1 A2 A3 B f (@Or3.T3 A1 A2 A3 v) = @Or3.T3 B A2 A3 v)
    ∧ (∀ (A1 A2 A3 B : Type) (f : A2 → B) (v : A1), @Or3.map_t2 A1 A2 A3 B f (@Or3.T1 A1 A2 A3 v) = @Or3.T1 A1 B A3 v)
    ∧ (∀ (A1 A2 A3 B : Type) (f : A2 → B) (v : A2), @Or3.map_t2 A1 A2 A3 B f (@Or3.T2 A1 A2 A3 v) = @Or3.T2 A1 B A3 (f v))
    ∧ (∀ (A1 A2 A3 B : Type) (f : A2 → B) (v : A3), @Or3.map_t2 A1 A2 A3 B f (@Or3.T3 A1 A2 A3 v) = @Or3.T3 A1 B A3 v)
    ∧ (∀ (A1 A2 A3 B : Type) (f : A3 → B) (v : A1), @Or3.map_t3 A1 A2 A3 B f (@Or3.T1 A1 A2 A3 v) = @Or3.T1 A1 A2 B v)
    ∧ (∀ (A1 A2 A3 B : Type) (f : A3 → B) (v : A2), @Or3.map_t3 A1 A2 A3 B f (@Or3.T2 A1 A2 A3 v) = @Or3.T2 A1 A2 B v)
    ∧ (∀ (A1 A2 A3 B : Type) (f : A3 → B) (v : A3), @Or3.map_t3 A1 A2 A3 B f (@Or3.T3 A1 A2 A3 v) = @Or3.T3 A1 A2 B (f v))
    ∧ (∀ (A1 A2 A3 A4 B : Type) (f : A1 → B) (v : A1), @Or4.map_t1 A1 A2 A3 A4 B f (@Or4.T1 A1 A2 A3 A4 v) = @Or4.T1 B A2 A3 A4 (f v))
    ∧ (∀ (A1 A2 A3 A4 B : Type) (f : A1 → B) (v : A2), @Or4.map_t1 A1 A2 A3 A4 B f (@Or4.T2 A1 A2 A3 A4 v) = @Or4.T2 B A2 A3 A4 v)
    ∧ (∀ (A1 A2 A3 A4 B : Type) (f : A1 → B) (v : A3), @Or4.map_t1 A1 A2 A3 A4 B f (@Or4.T3 A1 A2 A3 A4 v) = @Or4.T3 B A2 A3 A4 v)
    ∧ (∀ (A1 A2 A3 A4 B : Type) (f : A1 → B) (v : A4), @Or4.map_t1 A1 A2 A3 A4 B f (@Or4.T4 A1 A2 A3 A4 v) = @Or4.T4 B A2 A3 A4 v)
    ∧ (∀ (A1 A2 A3 A4 B : Type) (f : A2 → B) (v : A1), @Or4.map_t2 A1 A2 A3 A4 B f (@Or4.T1 A1 A2 A3 A4 v) = @Or4.T1 A1 B A3 A4 v)
    ∧ (∀ (A1 A2 A3 A4 B : Type) (f : A2 → B) (v : A2), @Or4.map_t2 A1 A2 A3 A4 B f (@Or4.T2 A1 A2 A3 A4 v) = @Or4.T2 A1 B A3 A4 (f v))
    ∧ (∀ (A1 A2 A3 A4 B : Type) (f : A2 → B) (v : A3), @Or4.map_t2 A1 A2 A3 A4 B f (@Or4.T3 A1 A2 A3 A4 v) = @Or4.T3 A1 B A3 A4 v)
    ∧ (∀ (A1 A2 A3 A4 B : Type) (f : A2 → B) (v : A4), @Or4.map_t2 A1 A2 A3 A4 B f (@Or4.T4 A1 A2 A3 A4 v) = @Or4.T4 A1 B A3 A4 v)
    ∧ (∀ (A1 A2 A3 A4 B : Type) (f : A3 → B) (v : A1), @Or4.map_t3 A1 A2 A3 A4 B f (@Or4.T1 A1 A2 A3 A4 v) = @Or4.T1 A1 A2 B A4 v)
    ∧ (∀ (A1 A2 A3 A4 B : Type) (f : A3 → B) (v : A2), @Or4.map_t3 A1 A2 A3 A4 B f (@Or4.T2 A1 A2 A3 A4 v) = @Or4.T2 A1 A2 B A4 v)
    ∧ (∀ (A1 A2 A3 A4 B : Type) (f : A3 → B) (v : A3), @Or4.map_t3 A1 A2 A3 A4 B f (@Or4.T3 A1 A2 A3 A4 v) = @Or4.T3 A1 A2 B A4 (f v))
    ∧ (∀ (A1 A2 A3 A4 B : Type) (f : A3 → B) (v : A4), @Or4.map_t3 A1 A2 A3 A4 B f (@Or4.T4 A1 A2 A3 A4 v) = @Or4.T4 A1 A2 B A4 v)
    ∧ (∀ (A1 A2 A3 A4 B : Type) (f : A4 → B) (v : A1), @Or4.map_t4 A1 A2 A3 A4 B f (@Or4.T1 A1 A2 A3 A4 v) = @Or4.T1 A1 A2 A3 B v)
    ∧ (∀ (A1 A2 A3 A4 B : Type) (f : A4 → B) (v : A2), @Or4.map_t4 A1 A2 A3 A4 B f (@Or4.T2 A1 A2 A3 A4 v) = @Or4.T2 A1 A2 A3 B v)
    ∧ (∀ (A1 A2 A3 A4 B : Type) (f : A4 → B) (v : A3), @Or4.map_t4 A1 A2 A3 A4 B f (@Or4.T3 A1 A2 A3 A4 v) = @Or4.T3 A1 A2 A3 B v)
    ∧ (∀ (A1 A2 A3 A4 B : Type) (f : A4 → B) (v : A4), @Or4.map_t4 A1 A2 A3 A4 B f (@Or4.T4 A1 A2 A3 A4 v) = @Or4.T4 A1 A2 A3 B (f v))
    ∧ (∀ (A1 A2 A3 A4 A5 B : Type) (f : A1 → B) (v : A1), @Or5.map_t1 A1 A2 A3 A4 A5 B f (@Or5.T1 A1 A2 A3 A4 A5 v) = @Or5.T1 B A2 A3 A4 A5 (f v))
    ∧ (∀ (A1 A2 A3 A4 A5 B : Type) (f : A1 → B) (v : A2), @Or5.map_t1 A1 A2 A3 A4 A5 B f (@Or5.T2 A1 A2 A3 A4 A5 v) = @Or5.T2 B A2 A3 A4 A5 v)
    ∧ (∀ (A1 A2 A3 A4 A5 B : Type) (f : A1 → B) (v : A3), @Or5.map_t1 A1 A2 A3 A4 A5 B f (@Or5.T3 A1 A2 A3 A4 A5 v) = @Or5.T3 B A2 A3 A4 A5 v)
    ∧ (∀ (A1 A2 A3 A4 A5 B : Type) (f : A1 → B) (v : A4), @Or5.map_t1 A1 A2 A3 A4 A5 B f (@Or5.T4 A1 A2 A3 A4 A5 v) = @Or5.T4 B A2 A3 A4 A5 v)
    ∧ (∀ (A1 A2 A3 A4 A5 B : Type) (f : A1 → B) (v : A5), @Or5.map_t1 A1 A2 A3 A4 A5 B f (@Or5.T5 A1 A2 A3 A4 A5 v) = @Or5.T5 B A2 A3 A4 A5 v)
    ∧ (∀ (A1 A2 A3 A4 A5 B : Type) (f : A2 → B) (v : A1), @Or5.map_t2 A1 A2 A3 A4 A5 B f (@Or5.T1 A1 A2 A3 A4 A5 v) = @Or5.T1 A1 B A3 A4 A5 v)
    ∧ (∀ (A1 A2 A3 A4 A5 B : Type) (f : A2 → B) (v : A2), @Or5.map_t2 A1 A2 A3 A4 A5 B f (@Or5.T2 A1 A2 A3 A4 A5 v) = @Or5.T2 A1 B A3 A4 A5 (f v))
    ∧ (∀ (A1 A2 A3 A4 A5 B : Type) (f : A2 → B) (v : A3), @Or5.map_t2 A1 A2 A3 A4 A5 B f (@Or5.T3 A1 A2 A3 A4 A5 v) = @Or5.T3 A1 B A3 A4 A5 v)
    ∧ (∀ (A1 A2 A3 A4 A5 B : Type) (f : A2 → B) (v : A4), @Or5.map_t2 A1 A2 A3 A4 A5 B f (@Or5.T4 A1 A2 A3 A4 A5 v) = @Or5.T4 A1 B A3 A4 A5 v)
    ∧ (∀ (A1 A2 A3 A4 A5 B : Type) (f : A2 → B) (v : A5), @Or5.map_t2 A1 A2 A3 A4 A5 B f (@Or5.T5 A1 A2 A3 A4 A5 v) = @Or5.T5 A1 B A3 A4 A5 v)
    ∧ (∀ (A1 A2 A3 A4 A5 B : Type) (f : A3 → B) (v : A1), @Or5.map_t3 A1 A2 A3 A4 A5 B f (@Or5.T1 A1 A2 A3 A4 A5 v) = @Or5.T1 A1 A2 B A4 A5 v)
    ∧ (∀ (A1 A2 A3 A4 A5 B : Type) (f : A3 → B) (v : A2), @Or5.map_t3 A1 A2 A3 A4 A5 B f (@Or5.T2 A1 A2 A3 A4 A5 v) = @Or5.T2 A1 A2 B A4 A5 v)
    ∧ (∀ (A1 A2 A3 A4 A5 B : Type) (f : A3 → B) (v : A3), @Or5.map_t3 A1 A2 A3 A4 A5 B f (@Or5.T3 A1 A2 A3 A4 A5 v) = @Or5.T3 A1 A2 B A4 A5 (f v))
    ∧ (∀ (A1 A2 A3 A4 A5 B : Type) (f : A3 → B) (v : A4), @Or5.map_t3 A1 A2 A3 A4 A5 B f (@Or5.T4 A1 A2 A3 A4 A5 v) = @Or5.T4 A1 A2 B A4 A5 v)
    ∧ (∀ (A1 A2 A3 A4 A5 B : Type) (f : A3 → B) (v : A5), @Or5.map_t3 A1 A2 A3 A4 A5 B f (@Or5.T5 A1 A2 A3 A4 A5 v) = @Or5.T5 A1 A2 B A4 A5 v)
    ∧ (∀ (A1 A2 A3 A4 A5 B : Type) (f : A4 → B) (v : A1), @Or5.map_t4 A1 A2 A3 A4 A5 B f (@Or5.T1 A1 A2 A3 A4 A5 v) = @Or5.T1 A1 A2 A3 B A5 v)
    ∧ (∀ (A1 A2 A3 A4 A5 B : Type) (f : A4 → B) (v : A2), @Or5.map_t4 A1 A2 A3 A4 A5 B f (@Or5.T2 A1 A2 A3 A4 A5 v) = @Or5.T2 A1 A2 A3 B A5 v)
    ∧ (∀ (A1 A2 A3 A4 A5 B : Type) (f : A4 → B) (v : A3), @Or5.map_t4 A1 A2 A3 A4 A5 B f (@Or5.T3 A1 A2 A3 A4 A5 v) = @Or5.T3 A1 A2 A3 B A5 v)
    ∧ (∀ (A1 A2 A3 A4 A5 B : Type) (f : A4 → B) (v : A4), @Or5.map_t4 A1 A2 A3 A4 A5 B f (@Or5.T4 A1 A2 A3 A4 A5 v) = @Or5.T4 A1 A2 A3 B A5 (f v))
    ∧ (∀ (A1 A2 A3 A4 A5 B : Type) (f : A4 → B) (v : A5), @Or5.map_t4 A1 A2 A3 A4 A5 B f (@Or5.T5 A1 A2 A3 A4 A5 v) = @Or5.T5 A1 A2 A3 B A5 v)
    ∧ (∀ (A1 A2 A3 A4 A5 B : Type) (f : A5 → B) (v : A1), @Or5.map_t5 A1 A2 A3 A4 A5 B f (@Or5.T1 A1 A2 A3 A4 A5 v) = @Or5.T1 A1 A2 A3 A4 B v)
    ∧ (∀ (A1 A2 A3 A4 A5 B : Type) (f : A5 → B) (v : A2), @Or5.map_t5 A1 A2 A3 A4 A5 B f (@Or5.T2 A1 A2 A3 A4 A5 v) = @Or5.T2 A1 A2 A3 A4 B v)
    ∧ (∀ (A1 A2 A3 A4 A5 B : Type) (f : A5 → B) (v : A3), @Or5.map_t5 A1 A2 A3 A4 A5 B f (@Or5.T3 A1 A2 A3 A4 A5 v) = @Or5.T3 A1 A2 A3 A4 B v)
    ∧ (∀ (A1 A2 A3 A4 A5 B : Type) (f : A5 → B) (v : A4), @Or5.map_t5 A1 A2 A3 A4 A5 B f (@Or5.T4 A1 A2 A3 A4 A5 v) = @Or5.T4 A1 A2 A3 A4 B v)
    ∧ (∀ (A1 A2 A3 A4 A5 B : Type) (f : A5 → B) (v : A5), @Or5.map_t5 A1 A2 A3 A4 A5 B f (@Or5.T5 A1 A2 A3 A4 A5 v) = @Or5.T5 A1 A2 A3 A4 B (f v))
    ∧ (∀ (A1 A2 A3 A4 A5 A6 B : Type) (f : A1 → B) (v : A1), @Or6.map_t1 A1 A2 A3 A4 A5 A6 B f (@Or6.T1 A1 A2 A3 A4 A5 A6 v) = @Or6.T1 B A2 A3 A4 A5 A6 (f v))
    ∧ (∀ (A1 A2 A3 A4 A5 A6 B : Type) (f : A1 → B) (v : A2), @Or6.map_t1 A1 A2 A3 A4 A5 A6 B f (@Or6.T2 A1 A2 A3 A4 A5 A6 v) = @Or6.T2 B A2 A3 A4 A5 A6 v)
    ∧ (∀ (A1 A2 A3 A4 A5 A6 B : Type) (f : A1 → B) (v : A3), @Or6.map_t1 A1 A2 A3 A4 A5 A6 B f (@Or6.T3 A1 A2 A3 A4 A5 A6 v) = @Or6.T3 B A2 A3 A4 A5 A6 v)
    ∧ (∀ (A1 A2 A3 A4 A5 A6 B : Type) (f : A1 → B) (v : A4), @Or6.map_t1 A1 A2 A3 A4 A5 A6 B f (@Or6.T4 A1 A2 A3 A4 A5 A6 v) = @Or6.T4 B A2 A3 A4 A5 A6 v)
    ∧ (∀ (A1 A2 A3 A4 A5 A6 B : Type) (f : A1 → B) (v : A5), @Or6.map_t1 A1 A2 A3 A4 A5 A6 B f (@Or6.T5 A1 A2 A3 A4 A5 A6 v) = @Or6.T5 B A2 A3 A4 A5 A6 v)
    ∧ (∀ (A1 A2 A3 A4 A5 A6 B : Type) (f : A1 → B) (v : A6), @Or6.map_t1 A1 A2 A3 A4 A5 A6 B f (@Or6.T6 A1 A2 A3 A4 A5 A6 v) = @Or6.T6 B A2 A3 A4 A5 A6 v)
    ∧ (∀ (A1 A2 A3 A4 A5 A6 B : Type) (f : A2 → B) (v : A1), @Or6.map_t2 A1 A2 A3 A4 A5 A6 B f (@Or6.T1 A1 A2 A3 A4 A5 A6 v) = @Or6.T1 A1 B A3 A4 A5 A6 v)
    ∧ (∀ (A1 A2 A3 A4 A5 A6 B : Type) (f : A2 → B) (v : A2), @Or6.map_t2 A1 A2 A3 A4 A5 A6 B f (@Or6.T2 A1 A2 A3 A4 A5 A6 v) = @Or6.T2 A1 B A3 A4 A5 A6 (f v))
    ∧ (∀ (A1 A2 A3 A4 A5 A6 B : Type) (f : A2 → B) (v : A3), @Or6.map_t2 A1 A2 A3 A4 A5 A6 B f (@Or6.T3 A1 A2 A3 A4 A5 A6 v) = @Or6.T3 A1 B A3 A4 A5 A6 v)
    ∧ (∀ (A1 A2 A3 A4 A5 A6 B : Type) (f : A2 → B) (v : A4), @Or6.map_t2 A1 A2 A3 A4 A5 A6 B f (@Or6.T4 A1 A2 A3 A4 A5 A6 v) = @Or6.T4 A1 B A3 A4 A5 A6 v)
    ∧ (∀ (A1 A2 A3 A4 A5 A6 B : Type) (f : A2 → B) (v : A5), @Or6.map_t2 A1 A2 A3 A4 A5 A6 B f (@Or6.T5 A1 A2 A3 A4 A5 A6 v) = @Or6.T5 A1 B A3 A4 A5 A6 v)
    ∧ (∀ (A1 A2 A3 A4 A5 A6 B : Type) (f : A2 → B) (v : A6), @Or6.map_t2 A1 A2 A3 A4 A5 A6 B f (@Or6.T6 A1 A2 A3 A4 A5 A6 v) = @Or6.T6 A1 B A3 A4 A5 A6 v)
    ∧ (∀ (A1 A2 A3 A4 A5 A6 B : Type) (f : A3 → B) (v : A1), @Or6.map_t3 A1 A2 A3 A4 A5 A6 B f (@Or6.T1 A1 A2 A3 A4 A5 A6 v) = @Or6.T1 A1 A2 B A4 A5 A6 v)
    ∧ (∀ (A1 A2 A3 A4 A5 A6 B : Type) (f : A3 → B) (v : A2), @Or6.map_t3 A1 A2 A3 A4 A5 A6 B f (@Or6.T2 A1 A2 A3 A4 A5 A6 v) = @Or6.T2 A1 A2 B A4 A5 A6 v)
    ∧ (∀ (A1 A2 A3 A4 A5 A6 B : Type) (f : A3 → B) (v : A3), @Or6.map_t3 A1 A2 A3 A4 A5 A6 B f (@Or6.T3 A1 A2 A3 A4 A5 A6 v) = @Or6.T3 A1 A2 B A4 A5 A6 (f v))
    ∧ (∀ (A1 A2 A3 A4 A5 A6 B : Type) (f : A3 → B) (v : A4), @Or6.map_t3 A1 A2 A3 A4 A5 A6 B f (@Or6.T4 A1 A2 A3 A4 A5 A6 v) = @Or6.T4 A1 A2 B A4 A5 A6 v)
    ∧ (∀ (A1 A2 A3 A4 A5 A6 B : Type) (f : A3 → B) (v : A5), @Or6.map_t3 A1 A2 A3 A4 A5 A6 B f (@Or6.T5 A1 A2 A3 A4 A5 A6 v) = @Or6.T5 A1 A2 B A4 A5 A6 v)
    ∧ (∀ (A1 A2 A3 A4 A5 A6 B : Type) (f : A3 → B) (v : A6), @Or6.map_t3 A1 A2 A3 A4 A5 A6 B f (@Or6.T6 A1 A2 A3 A4 A5 A6 v) = @Or6.T6 A1 A2 B A4 A5 A6 v)
    ∧ (∀ (A1 A2 A3 A4 A5 A6 B : Type) (f : A4 → B) (v : A1), @Or6.map_t4 A1 A2 A3 A4 A5 A6 B f (@Or6.T1 A1 A2 A3 A4 A5 A6 v) = @Or6.T1 A1 A2 A3 B A5 A6 v)
    ∧ (∀ (A1 A2 A3 A4 A5 A6 B : Type) (f : A4 → B) (v : A2), @Or6.map_t4 A1 A2 A3 A4 A5 A6 B f (@Or6.T2 A1 A2 A3 A4 A5 A6 v) = @Or6.T2 A1 A2 A3 B A5 A6 v)
    ∧ (∀ (A1 A2 A3 A4 A5 A6 B : Type) (f : A4 → B) (v : A3), @Or6.map_t4 A1 A2 A3 A4 A5 A6 B f (@Or6.T3 A1 A2 A3 A4 A5 A6 v) = @Or6.T3 A1 A2 A3 B A5 A6 v)
    ∧ (∀ (A1 A2 A3 A4 A5 A6 B : Type) (f : A4 → B) (v : A4), @Or6.map_t4 A1 A2 A3 A4 A5 A6 B f (@Or6.T4 A1 A2 A3 A4 A5 A6 v) = @Or6.T4 A1 A2 A3 B A5 A6 (f v))
    ∧ (∀ (A1 A2 A3 A4 A5 A6 B : Type) (f : A4 → B) (v : A5), @Or6.map_t4 A1 A2 A3 A4 A5 A6 B f (@Or6.T5 A1 A2 A3 A4 A5 A6 v) = @Or6.T5 A1 A2 A3 B A5 A6 v)
    ∧ (∀ (A1 A2 A3 A4 A5 A6 B : Type) (f : A4 → B) (v : A6), @Or6.map_t4 A1 A2 A3 A4 A5 A6 B f (@Or6.T6 A1 A2 A3 A4 A5 A6 v) = @Or6.T6 A1 A2 A3 B A5 A6 v)
    ∧ (∀ (A1 A2 A3 A4 A5 A6 B : Type) (f : A5 → B) (v : A1), @Or6.map_t5 A1 A2 A3 A4 A5 A6 B f (@Or6.T1 A1 A2 A3 A4 A5 A6 v) = @Or6.T1 A1 A2 A3 A4 B A6 v)
    ∧ (∀ (A1 A2 A3 A4 A5 A6 B : Type) (f : A5 → B) (v : A2), @Or6.map_t5 A1 A2 A3 A4 A5 A6 B f (@Or6.T2 A1 A2 A3 A4 A5 A6 v) = @Or6.T2 A1 A2 A3 A4 B A6 v)
    ∧ (∀ (A1 A2 A3 A4 A5 A6 B : Type) (f : A5 → B) (v : A3), @Or6.map_t5 A1 A2 A3 A4 A5 A6 B f (@Or6.T3 A1 A2 A3 A4 A5 A6 v) = @Or6.T3 A1 A2 A3 A4 B A6 v)
    ∧ (∀ (A1 A2 A3 A4 A5 A6 B : Type) (f : A5 → B) (v : A4), @Or6.map_t5 A1 A2 A3 A4 A5 A6 B f (@Or6.T4 A1 A2 A3 A4 A5 A6 v) = @Or6.T4 A1 A2 A3 A4 B A6 v)
    ∧ (∀ (A1 A2 A3 A4 A5 A6 B : Type) (f : A5 → B) (v : A5), @Or6.map_t5 A1 A2 A3 A4 A5 A6 B f (@Or6.T5 A1 A2 A3 A4 A5 A6 v) = @Or6.T5 A1 A2 A3 A4 B A6 (f v))
    ∧ (∀ (A1 A2 A3 A4 A5 A6 B : Type) (f : A5 → B) (v : A6), @Or6.map_t5 A1 A2 A3 A4 A5 A6 B f (@Or6.T6 A1 A2 A3 A4 A5 A6 v) = @Or6.T6 A1 A2 A3 A4 B A6 v)
    ∧ (∀ (A1 A2 A3 A4 A5 A6 B : Type) (f : A6 → B) (v : A1), @Or6.map_t6 A1 A2 A3 A4 A5 A6 B f (@Or6.T1 A1 A2 A3 A4 A5 A6 v) = @Or6.T1 A1 A2 A3 A4 A5 B v)
    ∧ (∀ (A1 A2 A3 A4 A5 A6 B : Type) (f : A6 → B) (v : A2), @Or6.map_t6 A1 A2 A3 A4 A5 A6 B f (@Or6.T2 A1 A2 A3 A4 A5 A6 v) = @Or6.T2 A1 A2 A3 A4 A5 B v)
    ∧ (∀ (A1 A2 A3 A4 A5 A6 B : Type) (f : A6 → B) (v : A3), @Or6.map_t6 A1 A2 A3 A4 A5 A6 B f (@Or6.T3 A1 A2 A3 A4 A5 A6 v) = @Or6.T3 A1 A2 A3 A4 A5 B v)
    ∧ (∀ (A1 A2 A3 A4 A5 A6 B : Type) (f : A6 → B) (v : A4), @Or6.map_t6 A1 A2 A3 A4 A5 A6 B f (@Or6.T4 A1 A2 A3 A4 A5 A6 v) = @Or6.T4 A1 A2 A3 A4 A5 B v)
    ∧ (∀ (A1 A2 A3 A4 A5 A6 B : Type) (f : A6 → B) (v : A5), @Or6.map_t6 A1 A2 A3 A4 A5 A6 B f (@Or6.T5 A1 A2 A3 A4 A5 A6 v) = @Or6.T5 A1 A2 A3 A4 A5 B v)
    ∧ (∀ (A1 A2 A3 A4 A5 A6 B : Type) (f : A6 → B) (v : A6), @Or6.map_t6 A1 A2 A3 A4 A5 A6 B f (@Or6.T6 A1 A2 A3 A4 A5 A6 v) = @Or6.T6 A1 A2 A3 A4 A5 B (f v))
    ∧ (∀ (A1 A2 A3 A4 A5 A6 A7 B : Type) (f : A1 → B) (v : A1), @Or7.map_t1 A1 A2 A3 A4 A5 A6 A7 B f (@Or7.T1 A1 A2 A3 A4 A5 A6 A7 v) = @Or7.T1 B A2 A3 A4 A5 A6 A7 (f v))
    ∧ (∀ (A1 A2 A3 A4 A5 A6 A7 B : Type) (f : A1 → B) (v : A2), @Or7.map_t1 A1 A2 A3 A4 A5 A6 A7 B f (@Or7.T2 A1 A2 A3 A4 A5 A6 A7 v) = @Or7.T2 B A2 A3 A4 A5 A6 A7 v)
    ∧ (∀ (A1 A2 A3 A4 A5 A6 A7 B : Type) (f : A1 → B) (v : A3), @Or7.map_t1 A1 A2 A3 A4 A5 A6 A7 B f (@Or7.T3 A1 A2 A3 A4 A5 A6 A7 v) = @Or7.T3 B A2 A3 A4 A5 A6 A7 v)
    ∧ (∀ (A1 A2 A3 A4 A5 A6 A7 B : Type) (f : A1 → B) (v : A4), @Or7.map_t1 A1 A2 A3 A4 A5 A6 A7 B f (@Or7.T4 A1 A2 A3 A4 A5 A6 A7 v) = @Or7.T4 B A2 A3 A4 A5 A6 A7 v)
    ∧ (∀ (A1 A2 A3 A4 A5 A6 A7 B : Type) (f : A1 → B) (v : A5), @Or7.map_t1 A1 A2 A3 A4 A5 A6 A7 B f (@Or7.T5 A1 A2 A3 A4 A5 A6 A7 v) = @Or7.T5 B A2 A3 A4 A5 A6 A7 v)
    ∧ (∀ (A1 A2 A3 A4 A5 A6 A7 B : Type) (f : A1 → B) (v : A6), @Or7.map_t1 A1 A2 A3 A4 A5 A6 A7 B f (@Or7.T6 A1 A2 A3 A4 A5 A6 A7 v) = @Or7.T6 B A2 A3 A4 A5 A6 A7 v)
    ∧ (∀ (A1 A2 A3 A4 A5 A6 A7 B : Type) (f : A1 → B) (v : A7), @Or7.map_t1 A1 A2 A3 A4 A5 A6 A7 B f (@Or7.T7 A1 A2 A3 A4 A5 A6 A7 v) = @Or7.T7 B A2 A3 A4 A5 A6 A7 v)
    ∧ (∀ (A1 A2 A3 A4 A5 A6 A7 B : Type) (f : A2 → B) (v : A1), @Or7.map_t2 A1 A2 A3 A4 A5 A6 A7 B f (@Or7.T1 A1 A2 A3 A4 A5 A6 A7 v) = @Or7.T1 A1 B A3 A4 A5 A6 A7 v)
    ∧ (∀ (A1 A2 A3 A4 A5 A6 A7 B : Type) (f : A2 → B) (v : A2), @Or7.map_t2 A1 A2 A3 A4 A5 A6 A7 B f (@Or7.T2 A1 A2 A3 A4 A5 A6 A7 v) = @Or7.T2 A1 B A3 A4 A5 A6 A7 (f v))
    ∧ (∀ (A1 A2 A3 A4 A5 A6 A7 B : Type) (f : A2 → B) (v : A3), @Or7.map_t2 A1 A2 A3 A4 A5 A6 A7 B f (@Or7.T3 A1 A2 A3 A4 A5 A6 A7 v) = @Or7.T3 A1 B A3 A4 A5 A6 A7 v)
    ∧ (∀ (A1 A2 A3 A4 A5 A6 A7 B : Type) (f : A2 → B) (v : A4), @Or7.map_t2 A1 A2 A3 A4 A5 A6 A7 B f (@Or7.T4 A1 A2 A3 A4 A5 A6 A7 v) = @Or7.T4 A1 B A3 A4 A5 A6 A7 v)
    ∧ (∀ (A1 A2 A3 A4 A5 A6 A7 B : Type) (f : A2 → B) (v : A5), @Or7.map_t2 A1 A2 A3 A4 A5 A6 A7 B f (@Or7.T5 A1 A2 A3 A4 A5 A6 A7 v) = @Or7.T5 A1 B A3 A4 A5 A6 A7 v)
    ∧ (∀ (A1 A2 A3 A4 A5 A6 A7 B : Type) (f : A2 → B) (v : A6), @Or7.map_t2 A1 A2 A3 A4 A5 A6 A7 B f (@Or7.T6 A1 A2 A3 A4 A5 A6 A7 v) = @Or7.T6 A1 B A3 A4 A5 A6 A7 v)
    ∧ (∀ (A1 A2 A3 A4 A5 A6 A7 B : Type) (f : A2 → B) (v : A7), @Or7.map_t2 A1 A2 A3 A4 A5 A6 A7 B f (@Or7.T7 A1 A2 A3 A4 A5 A6 A7 v) = @Or7.T7 A1 B A3 A4 A5 A6 A7 v)
    ∧ (∀ (A1 A2 A3 A4 A5 A6 A7 B : Type) (f : A3 → B) (v : A1), @Or7.map_t3 A1 A2 A3 A4 A5 A6 A7 B f (@Or7.T1 A1 A2 A3 A4 A5 A6 A7 v) = @Or7.T1 A1 A2 B A4 A5 A6 A7 v)
    ∧ (∀ (A1 A2 A3 A4 A5 A6 A7 B : Type) (f : A3 → B) (v : A2), @Or7.map_t3 A1 A2 A3 A4 A5 A6 A7 B f (@Or7.T2 A1 A2 A3 A4 A5 A6 A7 v) = @Or7.T2 A1 A2 B A4 A5 A6 A7 v)
    ∧ (∀ (A1 A2 A3 A4 A5 A6 A7 B : Type) (f : A3 → B) (v : A3), @Or7.map_t3 A1 A2 A3 A4 A5 A6 A7 B f (@Or7.T3 A1 A2 A3 A4 A5 A6 A7 v) = @Or7.T3 A1 A2 B A4 A5 A6 A7 (f v))
    ∧ (∀ (A1 A2 A3 A4 A5 A6 A7 B : Type) (f : A3 → B) (v : A4), @Or7.map_t3 A1 A2 A3 A4 A5 A6 A7 B f (@Or7.T4 A1 A2 A3 A4 A5 A6 A7 v) = @Or7.T4 A1 A2 B A4 A5 A6 A7 v)
    ∧ (∀ (A1 A2 A3 A4 A5 A6 A7 B : Type) (f : A3 → B) (v : A5), @Or7.map_t3 A1 A2 A3 A4 A5 A6 A7 B f (@Or7.T5 A1 A2 A3 A4 A5 A6 A7 v) = @Or7.T5 A1 A2 B A4 A5 A6 A7 v)
    ∧ (∀ (A1 A2 A3 A4 A5 A6 A7 B : Type) (f : A3 → B) (v : A6), @Or7.map_t3 A1 A2 A3 A4 A5 A6 A7 B f (@Or7.T6 A1 A2 A3 A4 A5 A6 A7 v) = @Or7.T6 A1 A2 B A4 A5 A6 A7 v)
    ∧ (∀ (A1 A2 A3 A4 A5 A6 A7 B : Type) (f : A3 → B) (v : A7), @Or7.map_t3 A1 A2 A3 A4 A5 A6 A7 B f (@Or7.T7 A1 A2 A3 A4 A5 A6 A7 v) = @Or7.T7 A1 A2 B A4 A5 A6 A7 v)
    ∧ (∀ (A1 A2 A3 A4 A5 A6 A7 B : Type) (f : A4 → B) (v : A1), @Or7.map_t4 A1 A2 A3 A4 A5 A6 A7 B f (@Or7.T1 A1 A2 A3 A4 A5 A6 A7 v) = @Or7.T1 A1 A2 A3 B A5 A6 A7 v)
    ∧ (∀ (A1 A2 A3 A4 A5 A6 A7 B : Type) (f : A4 → B) (v : A2), @Or7.map_t4 A1 A2 A3 A4 A5 A6 A7 B f (@Or7.T2 A1 A2 A3 A4 A5 A6 A7 v) = @Or7.T2 A1 A2 A3 B A5 A6 A7 v)
    ∧ (∀ (A1 A2 A3 A4 A5 A6 A7 B : Type) (f : A4 → B) (v : A3), @Or7.map_t4 A1 A2 A3 A4 A5 A6 A7 B f (@Or7.T3 A1 A2 A3 A4 A5 A6 A7 v) = @Or7.T3 A1 A2 A3 B A5 A6 A7 v)
    ∧ (∀ (A1 A2 A3 A4 A5 A6 A7 B : Type) (f : A4 → B) (v : A4), @Or7.map_t4 A1 A2 A3 A4 A5 A6 A7 B f (@Or7.T4 A1 A2 A3 A4 A5 A6 A7 v) = @Or7.T4 A1 A2 A3 B A5 A6 A7 (f v))
    ∧ (∀ (A1 A2 A3 A4 A5 A6 A7 B : Type) (f : A4 → B) (v : A5), @Or7.map_t4 A1 A2 A3 A4 A5 A6 A7 B f (@Or7.T5 A1 A2 A3 A4 A5 A6 A7 v) = @Or7.T5 A1 A2 A3 B A5 A6 A7 v)
    ∧ (∀ (A1 A2 A3 A4 A5 A6 A7 B : Type) (f : A4 → B) (v : A6), @Or7.map_t4 A1 A2 A3 A4 A5 A6 A7 B f (@Or7.T6 A1 A2 A3 A4 A5 A6 A7 v) = @Or7.T6 A1 A2 A3 B A5 A6 A7 v)
    ∧ (∀ (A1 A2 A3 A4 A5 A6 A7 B : Type) (f : A4 → B) (v : A7), @Or7.map_t4 A1 A2 A3 A4 A5 A6 A7 B f (@Or7.T7 A1 A2 A3 A4 A5 A6 A7 v) = @Or7.T7 A1 A2 A3 B A5 A6 A7 v)
    ∧ (∀ (A1 A2 A3 A4 A5 A6 A7 B : Type) (f : A5 → B) (v : A1), @Or7.map_t5 A1 A2 A3 A4 A5 A6 A7 B f (@Or7.T1 A1 A2 A3 A4 A5 A6 A7 v) = @Or7.T1 A1 A2 A3 A4 B A6 A7 v)
    ∧ (∀ (A1 A2 A3 A4 A5 A6 A7 B : Type) (f : A5 → B) (v : A2), @Or7.map_t5 A1 A2 A3 A4 A5 A6 A7 B f (@Or7.T2 A1 A2 A3 A4 A5 A6 A7 v) = @Or7.T2 A1 A2 A3 A4 B A6 A7 v)
    ∧ (∀ (A1 A2 A3 A4 A5 A6 A7 B : Type) (f : A5 → B) (v : A3), @Or7.map_t5 A1 A2 A3 A4 A5 A6 A7 B f (@Or7.T3 A1 A2 A3 A4 A5 A6 A7 v) = @Or7.T3 A1 A2 A3 A4 B A6 A7 v)
    ∧ (∀ (A1 A2 A3 A4 A5 A6 A7 B : Type) (f : A5 → B) (v : A4), @Or7.map_t5 A1 A2 A3 A4 A5 A6 A7 B f (@Or7.T4 A1 A2 A3 A4 A5 A6 A7 v) = @Or7.T4 A1 A2 A3 A4 B A6 A7 v)
    ∧ (∀ (A1 A2 A3 A4 A5 A6 A7 B : Type) (f : A5 → B) (v : A5), @Or7.map_t5 A1 A2 A3 A4 A5 A6 A7 B f (@Or7.T5 A1 A2 A3 A4 A5 A6 A7 v) = @Or7.T5 A1 A2 A3 A4 B A6 A7 (f v))
    ∧ (∀ (A1 A2 A3 A4 A5 A6 A7 B : Type) (f : A5 → B) (v : A6), @Or7.map_t5 A1 A2 A3 A4 A5 A6 A7 B f (@Or7.T6 A1 A2 A3 A4 A5 A6 A7 v) = @Or7.T6 A1 A2 A3 A4 B A6 A7 v)
    ∧ (∀ (A1 A2 A3 A4 A5 A6 A7 B : Type) (f : A5 → B) (v : A7), @Or7.map_t5 A1 A2 A3 A4 A5 A6 A7 B f (@Or7.T7 A1 A2 A3 A4 A5 A6 A7 v) = @Or7.T7 A1 A2 A3 A4 B A6 A7 v)
    ∧ (∀ (A1 A2 A3 A4 A5 A6 A7 B : Type) (f : A6 → B) (v : A1), @Or7.map_t6 A1 A2 A3 A4 A5 A6 A7 B f (@Or7.T1 A1 A2 A3 A4 A5 A6 A7 v) = @Or7.T1 A1 A2 A3 A4 A5 B A7 v)
    ∧ (∀ (A1 A2 A3 A4 A5 A6 A7 B : Type) (f : A6 → B) (v : A2), @Or7.map_t6 A1 A2 A3 A4 A5 A6 A7 B f (@Or7.T2 A1 A2 A3 A4 A5 A6 A7 v) = @Or7.T2 A1 A2 A3 A4 A5 B A7 v)
    ∧ (∀ (A1 A2 A3 A4 A5 A6 A7 B : Type) (f : A6 → B) (v : A3), @Or7.map_t6 A1 A2 A3 A4 A5 A6 A7 B f (@Or7.T3 A1 A2 A3 A4 A5 A6 A7 v) = @Or7.T3 A1 A2 A3 A4 A5 B A7 v)
    ∧ (∀ (A1 A2 A3 A4 A5 A6 A7 B : Type) (f : A6 → B) (v : A4), @Or7.map_t6 A1 A2 A3 A4 A5 A6 A7 B f (@Or7.T4 A1 A2 A3 A4 A5 A6 A7 v) = @Or7.T4 A1 A2 A3 A4 A5 B A7 v)
    ∧ (∀ (A1 A2 A3 A4 A5 A6 A7 B : Type) (f : A6 → B) (v : A5), @Or7.map_t6 A1 A2 A3 A4 A5 A6 A7 B f (@Or7.T5 A1 A2 A3 A4 A5 A6 A7 v) = @Or7.T5 A1 A2 A3 A4 A5 B A7 v)
    ∧ (∀ (A1 A2 A3 A4 A5 A6 A7 B : Type) (f : A6 → B) (v : A6), @Or7.map_t6 A1 A2 A3 A4 A5 A6 A7 B f (@Or7.T6 A1 A2 A3 A4 A5 A6 A7 v) = @Or7.T6 A1 A2 A3 A4 A5 B A7 (f v))
    ∧ (∀ (A1 A2 A3 A4 A5 A6 A7 B : Type) (f : A6 → B) (v : A7), @Or7.map_t6 A1 A2 A3 A4 A5 A6 A7 B f (@Or7.T7 A1 A2 A3 A4 A5 A6 A7 v) = @Or7.T7 A1 A2 A3 A4 A5 B A7 v)
    ∧ (∀ (A1 A2 A3 A4 A5 A6 A7 B : Type) (f : A7 → B) (v : A1), @Or7.map_t7 A1 A2 A3 A4 A5 A6 A7 B f (@Or7.T1 A1 A2 A3 A4 A5 A6 A7 v) = @Or7.T1 A1 A2 A3 A4 A5 A6 B v)
    ∧ (∀ (A1 A2 A3 A4 A5 A6 A7 B : Type) (f : A7 → B) (v : A2), @Or7.map_t7 A1 A2 A3 A4 A5 A6 A7 B f (@Or7.T2 A1 A2 A3 A4 A5 A6 A7 v) = @Or7.T2 A1 A2 A3 A4 A5 A6 B v)
    ∧ (∀ (A1 A2 A3 A4 A5 A6 A7 B : Type) (f : A7 → B) (v : A3), @Or7.map_t7 A1 A2 A3 A4 A5 A6 A7 B f (@Or7.T3 A1 A2 A3 A4 A5 A6 A7 v) = @Or7.T3 A1 A2 A3 A4 A5 A6 B v)
    ∧ (∀ (A1 A2 A3 A4 A5 A6 A7 B : Type) (f : A7 → B) (v : A4), @Or7.map_t7 A1 A2 A3 A4 A5 A6 A7 B f (@Or7.T4 A1 A2 A3 A4 A5 A6 A7 v) = @Or7.T4 A1 A2 A3 A4 A5 A6 B v)
    ∧ (∀ (A1 A2 A3 A4 A5 A6 A7 B : Type) (f : A7 → B) (v : A5), @Or7.map_t7 A1 A2 A3 A4 A5 A6 A7 B f (@Or7.T5 A1 A2 A3 A4 A5 A6 A7 v) = @Or7.T5 A1 A2 A3 A4 A5 A6 B v)
    ∧ (∀ (A1 A2 A3 A4 A5 A6 A7 B : Type) (f : A7 → B) (v : A6), @Or7.map_t7 A1 A2 A3 A4 A5 A6 A7 B f (@Or7.T6 A1 A2 A3 A4 A5 A6 A7 v) = @Or7.T6 A1 A2 A3 A4 A5 A6 B v)
    ∧ (∀ (A1 A2 A3 A4 A5 A6 A7 B : Type) (f : A7 → B) (v : A7), @Or7.map_t7 A1 A2 A3 A4 A5 A6 A7 B f (@Or7.T7 A1 A2 A3 A4 A5 A6 A7 v) = @Or7.T7 A1 A2 A3 A4 A5 A6 B (f v))
    ∧ (∀ (A1 A2 A3 A4 A5 A6 A7 A8 B : Type) (f : A1 → B) (v : A1), @Or8.map_t1 A1 A2 A3 A4 A5 A6 A7 A8 B f (@Or8.T1 A1 A2 A3 A4 A5 A6 A7 A8 v) = @Or8.T1 B A2 A3 A4 A5 A6 A7 A8 (f v))
    ∧ (∀ (A1 A2 A3 A4 A5 A6 A7 A8 B : Type) (f : A1 → B) (v : A2), @Or8.map_t1 A1 A2 A3 A4 A5 A6 A7 A8 B f (@Or8.T2 A1 A2 A3 A4 A5 A6 A7 A8 v) = @Or8.T2 B A2 A3 A4 A5 A6 A7 A8 v)
    ∧ (∀ (A1 A2 A3 A4 A5 A6 A7 A8 B : Type) (f : A1 → B) (v : A3), @Or8.map_t1 A1 A2 A3 A4 A5 A6 A7 A8 B f (@Or8.T3 A1 A2 A3 A4 A5 A6 A7 A8 v) = @Or8.T3 B A2 A3 A4 A5 A6 A7 A8 v)
    ∧ (∀ (A1 A2 A3 A4 A5 A6 A7 A8 B : Type) (f : A1 → B) (v : A4), @Or8.map_t1 A1 A2 A3 A4 A5 A6 A7 A8 B f (@Or8.T4 A1 A2 A3 A4 A5 A6 A7 A8 v) = @Or8.T4 B A2 A3 A4 A5 A6 A7 A8 v)
    ∧ (∀ (A1 A2 A3 A4 A5 A6 A7 A8 B : Type) (f : A1 → B) (v : A5), @Or8.map_t1 A1 A2 A3 A4 A5 A6 A7 A8 B f (@Or8.T5 A1 A2 A3 A4 A5 A6 A7 A8 v) = @Or8.T5 B A2 A3 A4 A5 A6 A7 A8 v)
    ∧ (∀ (A1 A2 A3 A4 A5 A6 A7 A8 B : Type) (f : A1 → B) (v : A6), @Or8.map_t1 A1 A2 A3 A4 A5 A6 A7 A8 B f (@Or8.T6 A1 A2 A3 A4 A5 A6 A7 A8 v) = @Or8.T6 B A2 A3 A4 A5 A6 A7 A8 v)
    ∧ (∀ (A1 A2 A3 A4 A5 A6 A7 A8 B : Type) (f : A1 → B) (v : A7), @Or8.map_t1 A1 A2 A3 A4 A5 A6 A7 A8 B f (@Or8.T7 A1 A2 A3 A4 A5 A6 A7 A8 v) = @Or8.T7 B A2 A3 A4 A5 A6 A7 A8 v)
    ∧ (∀ (A1 A2 A3 A4 A5 A6 A7 A8 B : Type) (f : A1 → B) (v : A8), @Or8.map_t1 A1 A2 A3 A4 A5 A6 A7 A8 B f (@Or8.T8 A1 A2 A3 A4 A5 A6 A7 A8 v) = @Or8.T8 B A2 A3 A4 A5 A6 A7 A8 v)
    ∧ (∀ (A1 A2 A3 A4 A5 A6 A7 A8 B : Type) (f : A2 → B) (v : A1), @Or8.map_t2 A1 A2 A3 A4 A5 A6 A7 A8 B f (@Or8.T1 A1 A2 A3 A4 A5 A6 A7 A8 v) = @Or8.T1 A1 B A3 A4 A5 A6 A7 A8 v)
    ∧ (∀ (A1 A2 A3 A4 A5 A6 A7 A8 B : Type) (f : A2 → B) (v : A2), @Or8.map_t2 A1 A2 A3 A4 A5 A6 A7 A8 B f (@Or8.T2 A1 A2 A3 A4 A5 A6 A7 A8 v) = @Or8.T2 A1 B A3 A4 A5 A6 A7 A8 (f v))
    ∧ (∀ (A1 A2 A3 A4 A5 A6 A7 A8 B : Type) (f : A2 → B) (v : A3), @Or8.map_t2 A1 A2 A3 A4 A5 A6 A7 A8 B f (@Or8.T3 A1 A2 A3 A4 A5 A6 A7 A8 v) = @Or8.T3 A1 B A3 A4 A5 A6 A7 A8 v)
    ∧ (∀ (A1 A2 A3 A4 A5 A6 A7 A8 B : Type) (f : A2 → B) (v : A4), @Or8.map_t2 A1 A2 A3 A4 A5 A6 A7 A8 B f (@Or8.T4 A1 A2 A3 A4 A5 A6 A7 A8 v) = @Or8.T4 A1 B A3 A4 A5 A6 A7 A8 v)
    ∧ (∀ (A1 A2 A3 A4 A5 A6 A7 A8 B : Type) (f : A2 → B) (v : A5), @Or8.map_t2 A1 A2 A3 A4 A5 A6 A7 A8 B f (@Or8.T5 A1 A2 A3 A4 A5 A6 A7 A8 v) = @Or8.T5 A1 B A3 A4 A5 A6 A7 A8 v)
    ∧ (∀ (A1 A2 A3 A4 A5 A6 A7 A8 B : Type) (f : A2 → B) (v : A6), @Or8.map_t2 A1 A2 A3 A4 A5 A6 A7 A8 B f (@Or8.T6 A1 A2 A3 A4 A5 A6 A7 A8 v) = @Or8.T6 A1 B A3 A4 A5 A6 A7 A8 v)
    ∧ (∀ (A1 A2 A3 A4 A5 A6 A7 A8 B : Type) (f : A2 → B) (v : A7), @Or8.map_t2 A1 A2 A3 A4 A5 A6 A7 A8 B f (@Or8.T7 A1 A2 A3 A4 A5 A6 A7 A8 v) = @Or8.T7 A1 B A3 A4 A5 A6 A7 A8 v)
    ∧ (∀ (A1 A2 A3 A4 A5 A6 A7 A8 B : Type) (f : A2 → B) (v : A8), @Or8.map_t2 A1 A2 A3 A4 A5 A6 A7 A8 B f (@Or8.T8 A1 A2 A3 A4 A5 A6 A7 A8 v) = @Or8.T8 A1 B A3 A4 A5 A6 A7 A8 v)
    ∧ (∀ (A1 A2 A3 A4 A5 A6 A7 A8 B : Type) (f : A3 → B) (v : A1), @Or8.map_t3 A1 A2 A3 A4 A5 A6 A7 A8 B f (@Or8.T1 A1 A2 A3 A4 A5 A6 A7 A8 v) = @Or8.T1 A1 A2 B A4 A5 A6 A7 A8 v)
    ∧ (∀ (A1 A2 A3 A4 A5 A6 A7 A8 B : Type) (f : A3 → B) (v : A2), @Or8.map_t3 A1 A2 A3 A4 A5 A6 A7 A8 B f (@Or8.T2 A1 A2 A3 A4 A5 A6 A7 A8 v) = @Or8.T2 A1 A2 B A4 A5 A6 A7 A8 v)
    ∧ (∀ (A1 A2 A3 A4 A5 A6 A7 A8 B : Type) (f : A3 → B) (v : A3), @Or8.map_t3 A1 A2 A3 A4 A5 A6 A7 A8 B f (@Or8.T3 A1 A2 A3 A4 A5 A6 A7 A8 v) = @Or8.T3 A1 A2 B A4 A5 A6 A7 A8 (f v))
    ∧ (∀ (A1 A2 A3 A4 A5 A6 A7 A8 B : Type) (f : A3 → B) (v : A4), @Or8.map_t3 A1 A2 A3 A4 A5 A6 A7 A8 B f (@Or8.T4 A1 A2 A3 A4 A5 A6 A7 A8 v) = @Or8.T4 A1 A2 B A4 A5 A6 A7 A8 v)
    ∧ (∀ (A1 A2 A3 A4 A5 A6 A7 A8 B : Type) (f : A3 → B) (v : A5), @Or8.map_t3 A1 A2 A3 A4 A5 A6 A7 A8 B f (@Or8.T5 A1 A2 A3 A4 A5 A6 A7 A8 v) = @Or8.T5 A1 A2 B A4 A5 A6 A7 A8 v)
    ∧ (∀ (A1 A2 A3 A4 A5 A6 A7 A8 B : Type) (f : A3 → B) (v : A6), @Or8.map_t3 A1 A2 A3 A4 A5 A6 A7 A8 B f (@Or8.T6 A1 A2 A3 A4 A5 A6 A7 A8 v) = @Or8.T6 A1 A2 B A4 A5 A6 A7 A8 v)
    ∧ (∀ (A1 A2 A3 A4 A5 A6 A7 A8 B : Type) (f : A3 → B) (v : A7), @Or8.map_t3 A1 A2 A3 A4 A5 A6 A7 A8 B f (@Or8.T7 A1 A2 A3 A4 A5 A6 A7 A8 v) = @Or8.T7 A1 A2 B A4 A5 A6 A7 A8 v)
    ∧ (∀ (A1 A2 A3 A4 A5 A6 A7 A8 B : Type) (f : A3 → B) (v : A8), @Or8.map_t3 A1 A2 A3 A4 A5 A6 A7 A8 B f (@Or8.T8 A1 A2 A3 A4 A5 A6 A7 A8 v) = @Or8.T8 A1 A2 B A4 A5 A6 A7 A8 v)
    ∧ (∀ (A1 A2 A3 A4 A5 A6 A7 A8 B : Type) (f : A4 → B) (v : A1), @Or8.map_t4 A1 A2 A3 A4 A5 A6 A7 A8 B f (@Or8.T1 A1 A2 A3 A4 A5 A6 A7 A8 v) = @Or8.T1 A1 A2 A3 B A5 A6 A7 A8 v)
    ∧ (∀ (A1 A2 A3 A4 A5 A6 A7 A8 B : Type) (f : A4 → B) (v : A2), @Or8.map_t4 A1 A2 A3 A4 A5 A6 A7 A8 B f (@Or8.T2 A1 A2 A3 A4 A5 A6 A7 A8 v) = @Or8.T2 A1 A2 A3 B A5 A6 A7 A8 v)
    ∧ (∀ (A1 A2 A3 A4 A5 A6 A7 A8 B : Type) (f : A4 → B) (v : A3), @Or8.map_t4 A1 A2 A3 A4 A5 A6 A7 A8 B f (@Or8.T3 A1 A2 A3 A4 A5 A6 A7 A8 v) = @Or8.T3 A1 A2 A3 B A5 A6 A7 A8 v)
    ∧ (∀ (A1 A2 A3 A4 A5 A6 A7 A8 B : Type) (f : A4 → B) (v : A4), @Or8.map_t4 A1 A2 A3 A4 A5 A6 A7 A8 B f (@Or8.T4 A1 A2 A3 A4 A5 A6 A7 A8 v) = @Or8.T4 A1 A2 A3 B A5 A6 A7 A8 (f v))
    ∧ (∀ (A1 A2 A3 A4 A5 A6 A7 A8 B : Type) (f : A4 → B) (v : A5), @Or8.map_t4 A1 A2 A3 A4 A5 A6 A7 A8 B f (@Or8.T5 A1 A2 A3 A4 A5 A6 A7 A8 v) = @Or8.T5 A1 A2 A3 B A5 A6 A7 A8 v)
    ∧ (∀ (A1 A2 A3 A4 A5 A6 A7 A8 B : Type) (f : A4 → B) (v : A6), @Or8.map_t4 A1 A2 A3 A4 A5 A6 A7 A8 B f (@Or8.T6 A1 A2 A3 A4 A5 A6 A7 A8 v) = @Or8.T6 A1 A2 A3 B A5 A6 A7 A8 v)
    ∧ (∀ (A1 A2 A3 A4 A5 A6 A7 A8 B : Type) (f : A4 → B) (v : A7), @Or8.map_t4 A1 A2 A3 A4 A5 A6 A7 A8 B f (@Or8.T7 A1 A2 A3 A4 A5 A6 A7 A8 v) = @Or8.T7 A1 A2 A3 B A5 A6 A7 A8 v)
    ∧ (∀ (A1 A2 A3 A4 A5 A6 A7 A8 B : Type) (f : A4 → B) (v : A8), @Or8.map_t4 A1 A2 A3 A4 A5 A6 A7 A8 B f (@Or8.T8 A1 A2 A3 A4 A5 A6 A7 A8 v) = @Or8.T8 A1 A2 A3 B A5 A6 A7 A8 v)
    ∧ (∀ (A1 A2 A3 A4 A5 A6 A7 A8 B : Type) (f : A5 → B) (v : A1), @Or8.map_t5 A1 A2 A3 A4 A5 A6 A7 A8 B f (@Or8.T1 A1 A2 A3 A4 A5 A6 A7 A8 v) = @Or8.T1 A1 A2 A3 A4 B A6 A7 A8 v)
    ∧ (∀ (A1 A2 A3 A4 A5 A6 A7 A8 B : Type) (f : A5 → B) (v : A2), @Or8.map_t5 A1 A2 A3 A4 A5 A6 A7 A8 B f (@Or8.T2 A1 A2 A3 A4 A5 A6 A7 A8 v) = @Or8.T2 A1 A2 A3 A4 B A6 A7 A8 v)
    ∧ (∀ (A1 A2 A3 A4 A5 A6 A7 A8 B : Type) (f : A5 → B) (v : A3), @Or8.map_t5 A1 A2 A3 A4 A5 A6 A7 A8 B f (@Or8.T3 A1 A2 A3 A4 A5 A6 A7 A8 v) = @Or8.T3 A1 A2 A3 A4 B A6 A7 A8 v)
    ∧ (∀ (A1 A2 A3 A4 A5 A6 A7 A8 B : Type) (f : A5 → B) (v : A4), @Or8.map_t5 A1 A2 A3 A4 A5 A6 A7 A8 B f (@Or8.T4 A1 A2 A3 A4 A5 A6 A7 A8 v) = @Or8.T4 A1 A2 A3 A4 B A6 A7 A8 v)
    ∧ (∀ (A1 A2 A3 A4 A5 A6 A7 A8 B : Type) (f : A5 → B) (v : A5), @Or8.map_t5 A1 A2 A3 A4 A5 A6 A7 A8 B f (@Or8.T5 A1 A2 A3 A4 A5 A6 A7 A8 v) = @Or8.T5 A1 A2 A3 A4 B A6 A7 A8 (f v))
    ∧ (∀ (A1 A2 A3 A4 A5 A6 A7 A8 B : Type) (f : A5 → B) (v : A6), @Or8.map_t5 A1 A2 A3 A4 A5 A6 A7 A8 B f (@Or8.T6 A1 A2 A3 A4 A5 A6 A7 A8 v) = @Or8.T6 A1 A2 A3 A4 B A6 A7 A8 v)
    ∧ (∀ (A1 A2 A3 A4 A5 A6 A7 A8 B : Type) (f : A5 → B) (v : A7), @Or8.map_t5 A1 A2 A3 A4 A5 A6 A7 A8 B f (@Or8.T7 A1 A2 A3 A4 A5 A6 A7 A8 v) = @Or8.T7 A1 A2 A3 A4 B A6 A7 A8 v)
    ∧ (∀ (A1 A2 A3 A4 A5 A6 A7 A8 B : Type) (f : A5 → B) (v : A8), @Or8.map_t5 A1 A2 A3 A4 A5 A6 A7 A8 B f (@Or8.T8 A1 A2 A3 A4 A5 A6 A7 A8 v) = @Or8.T8 A1 A2 A3 A4 B A6 A7 A8 v)
    ∧ (∀ (A1 A2 A3 A4 A5 A6 A7 A8 B : Type) (f : A6 → B) (v : A1), @Or8.map_t6 A1 A2 A3 A4 A5 A6 A7 A8 B f (@Or8.T1 A1 A2 A3 A4 A5 A6 A7 A8 v) = @Or8.T1 A1 A2 A3 A4 A5 B A7 A8 v)
    ∧ (∀ (A1 A2 A3 A4 A5 A6 A7 A8 B : Type) (f : A6 → B) (v : A2), @Or8.map_t6 A1 A2 A3 A4 A5 A6 A7 A8 B f (@Or8.T2 A1 A2 A3 A4 A5 A6 A7 A8 v) = @Or8.T2 A1 A2 A3 A4 A5 B A7 A8 v)
    ∧ (∀ (A1 A2 A3 A4 A5 A6 A7 A8 B : Type) (f : A6 → B) (v : A3), @Or8.map_t6 A1 A2 A3 A4 A5 A6 A7 A8 B f (@Or8.T3 A1 A2 A3 A4 A5 A6 A7 A8 v) = @Or8.T3 A1 A2 A3 A4 A5 B A7 A8 v)
    ∧ (∀ (A1 A2 A3 A4 A5 A6 A7 A8 B : Type) (f : A6 → B) (v : A4), @Or8.map_t6 A1 A2 A3 A4 A5 A6 A7 A8 B f (@Or8.T4 A1 A2 A3 A4 A5 A6 A7 A8 v) = @Or8.T4 A1 A2 A3 A4 A5 B A7 A8 v)
    ∧ (∀ (A1 A2 A3 A4 A5 A6 A7 A8 B : Type) (f : A6 → B) (v : A5), @Or8.map_t6 A1 A2 A3 A4 A5 A6 A7 A8 B f (@Or8.T5 A1 A2 A3 A4 A5 A6 A7 A8 v) = @Or8.T5 A1 A2 A3 A4 A5 B A7 A8 v)
    ∧ (∀ (A1 A2 A3 A4 A5 A6 A7 A8 B : Type) (f : A6 → B) (v : A6), @Or8.map_t6 A1 A2 A3 A4 A5 A6 A7 A8 B f (@Or8.T6 A1 A2 A3 A4 A5 A6 A7 A8 v) = @Or8.T6 A1 A2 A3 A4 A5 B A7 A8 (f v))
    ∧ (∀ (A1 A2 A3 A4 A5 A6 A7 A8 B : Type) (f : A6 → B) (v : A7), @Or8.map_t6 A1 A2 A3 A4 A5 A6 A7 A8 B f (@Or8.T7 A1 A2 A3 A4 A5 A6 A7 A8 v) = @Or8.T7 A1 A2 A3 A4 A5 B A7 A8 v)
    ∧ (∀ (A1 A2 A3 A4 A5 A6 A7 A8 B : Type) (f : A6 → B) (v : A8), @Or8.map_t6 A1 A2 A3 A4 A5 A6 A7 A8 B f (@Or8.T8 A1 A2 A3 A4 A5 A6 A7 A8 v) = @Or8.T8 A1 A2 A3 A4 A5 B A7 A8 v)
    ∧ (∀ (A1 A2 A3 A4 A5 A6 A7 A8 B : Type) (f : A7 → B) (v : A1), @Or8.map_t7 A1 A2 A3 A4 A5 A6 A7 A8 B f (@Or8.T1 A1 A2 A3 A4 A5 A6 A7 A8 v) = @Or8.T1 A1 A2 A3 A4 A5 A6 B A8 v)
    ∧ (∀ (A1 A2 A3 A4 A5 A6 A7 A8 B : Type) (f : A7 → B) (v : A2), @Or8.map_t7 A1 A2 A3 A4 A5 A6 A7 A8 B f (@Or8.T2 A1 A2 A3 A4 A5 A6 A7 A8 v) = @Or8.T2 A1 A2 A3 A4 A5 A6 B A8 v)
    ∧ (∀ (A1 A2 A3 A4 A5 A6 A7 A8 B : Type) (f : A7 → B) (v : A3), @Or8.map_t7 A1 A2 A3 A4 A5 A6 A7 A8 B f (@Or8.T3 A1 A2 A3 A4 A5 A6 A7 A8 v) = @Or8.T3 A1 A2 A3 A4 A5 A6 B A8 v)
    ∧ (∀ (A1 A2 A3 A4 A5 A6 A7 A8 B : Type) (f : A7 → B) (v : A4), @Or8.map_t7 A1 A2 A3 A4 A5 A6 A7 A8 B f (@Or8.T4 A1 A2 A3 A4 A5 A6 A7 A8 v) = @Or8.T4 A1 A2 A3 A4 A5 A6 B A8 v)
    ∧ (∀ (A1 A2 A3 A4 A5 A6 A7 A8 B : Type) (f : A7 → B) (v : A5), @Or8.map_t7 A1 A2 A3 A4 A5 A6 A7 A8 B f (@Or8.T5 A1 A2 A3 A4 A5 A6 A7 A8 v) = @Or8.T5 A1 A2 A3 A4 A5 A6 B A8 v)
    ∧ (∀ (A1 A2 A3 A4 A5 A6 A7 A8 B : Type) (f : A7 → B) (v : A6), @Or8.map_t7 A1 A2 A3 A4 A5 A6 A7 A8 B f (@Or8.T6 A1 A2 A3 A4 A5 A6 A7 A8 v) = @Or8.T6 A1 A2 A3 A4 A5 A6 B A8 v)
    ∧ (∀ (A1 A2 A3 A4 A5 A6 A7 A8 B : Type) (f : A7 → B) (v : A7), @Or8.map_t7 A1 A2 A3 A4 A5 A6 A7 A8 B f (@Or8.T7 A1 A2 A3 A4 A5 A6 A7 A8 v) = @Or8.T7 A1 A2 A3 A4 A5 A6 B A8 (f v))
    ∧ (∀ (A1 A2 A3 A4 A5 A6 A7 A8 B : Type) (f : A7 → B) (v : A8), @Or8.map_t7 A1 A2 A3 A4 A5 A6 A7 A8 B f (@Or8.T8 A1 A2 A3 A4 A5 A6 A7 A8 v) = @Or8.T8 A1 A2 A3 A4 A5 A6 B A8 v)
    ∧ (∀ (A1 A2 A3 A4 A5 A6 A7 A8 B : Type) (f : A8 → B) (v : A1), @Or8.map_t8 A1 A2 A3 A4 A5 A6 A7 A8 B f (@Or8.T1 A1 A2 A3 A4 A5 A6 A7 A8 v) = @Or8.T1 A1 A2 A3 A4 A5 A6 A7 B v)
    ∧ (∀ (A1 A2 A3 A4 A5 A6 A7 A8 B : Type) (f : A8 → B) (v : A2), @Or8.map_t8 A1 A2 A3 A4 A5 A6 A7 A8 B f (@Or8.T2 A1 A2 A3 A4 A5 A6 A7 A8 v) = @Or8.T2 A1 A2 A3 A4 A5 A6 A7 B v)
    ∧ (∀ (A1 A2 A3 A4 A5 A6 A7 A8 B : Type) (f : A8 → B) (v : A3), @Or8.map_t8 A1 A2 A3 A4 A5 A6 A7 A8 B f (@Or8.T3 A1 A2 A3 A4 A5 A6 A7 A8 v) = @Or8.T3 A1 A2 A3 A4 A5 A6 A7 B v)
    ∧ (∀ (A1 A2 A3 A4 A5 A6 A7 A8 B : Type) (f : A8 → B) (v : A4), @Or8.map_t8 A1 A2 A3 A4 A5 A6 A7 A8 B f (@Or8.T4 A1 A2 A3 A4 A5 A6 A7 A8 v) = @Or8.T4 A1 A2 A3 A4 A5 A6 A7 B v)
    ∧ (∀ (A1 A2 A3 A4 A5 A6 A7 A8 B : Type) (f : A8 → B) (v : A5), @Or8.map_t8 A1 A2 A3 A4 A5 A6 A7 A8 B f (@Or8.T5 A1 A2 A3 A4 A5 A6 A7 A8 v) = @Or8.T5 A1 A2 A3 A4 A5 A6 A7 B v)
    ∧ (∀ (A1 A2 A3 A4 A5 A6 A7 A8 B : Type) (f : A8 → B) (v : A6), @Or8.map_t8 A1 A2 A3 A4 A5 A6 A7 A8 B f (@Or8.T6 A1 A2 A3 A4 A5 A6 A7 A8 v) = @Or8.T6 A1 A2 A3 A4 A5 A6 A7 B v)
    ∧ (∀ (A1 A2 A3 A4 A5 A6 A7 A8 B : Type) (f : A8 → B) (v : A7), @Or8.map_t8 A1 A2 A3 A4 A5 A6 A7 A8 B f (@Or8.T7 A1 A2 A3 A4 A5 A6 A7 A8 v) = @Or8.T7 A1 A2 A3 A4 A5 A6 A7 B v)
    ∧ (∀ (A1 A2 A3 A4 A5 A6 A7 A8 B : Type) (f : A8 → B) (v : A8), @Or8.map_t8 A1 A2 A3 A4 A5 A6 A7 A8 B f (@Or8.T8 A1 A2 A3 A4 A5 A6 A7 A8 v) = @Or8.T8 A1 A2 A3 A4 A5 A6 A7 B (f v))
    ∧ (∀ (A1 A2 A3 A4 A5 A6 A7 A8 A9 B : Type) (f : A1 → B) (v : A1), @Or9.map_t1 A1 A2 A3 A4 A5 A6 A7 A8 A9 B f (@Or9.T1 A1 A2 A3 A4 A5 A6 A7 A8 A9 v) = @Or9.T1 B A2 A3 A4 A5 A6 A7 A8 A9 (f v))
    ∧ (∀ (A1 A2 A3 A4 A5 A6 A7 A8 A9 B : Type) (f : A1 → B) (v : A2), @Or9.map_t1 A1 A2 A3 A4 A5 A6 A7 A8 A9 B f (@Or9.T2 A1 A2 A3 A4 A5 A6 A7 A8 A9 v) = @Or9.T2 B A2 A3 A4 A5 A6 A7 A8 A9 v)
    ∧ (∀ (A1 A2 A3 A4 A5 A6 A7 A8 A9 B : Type) (f : A1 → B) (v : A3), @Or9.map_t1 A1 A2 A3 A4 A5 A6 A7 A8 A9 B f (@Or9.T3 A1 A2 A3 A4 A5 A6 A7 A8 A9 v) = @Or9.T3 B A2 A3 A4 A5 A6 A7 A8 A9 v)
    ∧ (∀ (A1 A2 A3 A4 A5 A6 A7 A8 A9 B : Type) (f : A1 → B) (v : A4), @Or9.map_t1 A1 A2 A3 A4 A5 A6 A7 A8 A9 B f (@Or9.T4 A1 A2 A3 A4 A5 A6 A7 A8 A9 v) = @Or9.T4 B A2 A3 A4 A5 A6 A7 A8 A9 v)
    ∧ (∀ (A1 A2 A3 A4 A5 A6 A7 A8 A9 B : Type) (f : A1 → B) (v : A5), @Or9.map_t1 A1 A2 A3 A4 A5 A6 A7 A8 A9 B f (@Or9.T5 A1 A2 A3 A4 A5 A6 A7 A8 A9 v) = @Or9.T5 B A2 A3 A4 A5 A6 A7 A8 A9 v)
    ∧ (∀ (A1 A2 A3 A4 A5 A6 A7 A8 A9 B : Type) (f : A1 → B) (v : A6), @Or9.map_t1 A1 A2 A3 A4 A5 A6 A7 A8 A9 B f (@Or9.T6 A1 A2 A3 A4 A5 A6 A7 A8 A9 v) = @Or9.T6 B A2 A3 A4 A5 A6 A7 A8 A9 v)
    ∧ (∀ (A1 A2 A3 A4 A5 A6 A7 A8 A9 B : Type) (f : A1 → B) (v : A7), @Or9.map_t1 A1 A2 A3 A4 A5 A6 A7 A8 A9 B f (@Or9.T7 A1 A2 A3 A4 A5 A6 A7 A8 A9 v) = @Or9.T7 B A2 A3 A4 A5 A6 A7 A8 A9 v)
    ∧ (∀ (A1 A2 A3 A4 A5 A6 A7 A8 A9 B : Type) (f : A1 → B) (v : A8), @Or9.map_t1 A1 A2 A3 A4 A5 A6 A7 A8 A9 B f (@Or9.T8 A1 A2 A3 A4 A5 A6 A7 A8 A9 v) = @Or9.T8 B A2 A3 A4 A5 A6 A7 A8 A9 v)
    ∧ (∀ (A1 A2 A3 A4 A5 A6 A7 A8 A9 B : Type) (f : A1 → B) (v : A9), @Or9.map_t1 A1 A2 A3 A4 A5 A6 A7 A8 A9 B f (@Or9.T9 A1 A2 A3 A4 A5 A6 A7 A8 A9 v) = @Or9.T9 B A2 A3 A4 A5 A6 A7 A8 A9 v)
    ∧ (∀ (A1 A2 A3 A4 A5 A6 A7 A8 A9 B : Type) (f : A2 → B) (v : A1), @Or9.map_t2 A1 A2 A3 A4 A5 A6 A7 A8 A9 B f (@Or9.T1 A1 A2 A3 A4 A5 A6 A7 A8 A9 v) = @Or9.T1 A1 B A3 A4 A5 A6 A7 A8 A9 v)
    ∧ (∀ (A1 A2 A3 A4 A5 A6 A7 A8 A9 B : Type) (f : A2 → B) (v : A2), @Or9.map_t2 A1 A2 A3 A4 A5 A6 A7 A8 A9 B f (@Or9.T2 A1 A2 A3 A4 A5 A6 A7 A8 A9 v) = @Or9.T2 A1 B A3 A4 A5 A6 A7 A8 A9 (f v))
    ∧ (∀ (A1 A2 A3 A4 A5 A6 A7 A8 A9 B : Type) (f : A2 → B) (v : A3), @Or9.map_t2 A1 A2 A3 A4 A5 A6 A7 A8 A9 B f (@Or9.T3 A1 A2 A3 A4 A5 A6 A7 A8 A9 v) = @Or9.T3 A1 B A3 A4 A5 A6 A7 A8 A9 v)
    ∧ (∀ (A1 A2 A3 A4 A5 A6 A7 A8 A9 B : Type) (f : A2 → B) (v : A4), @Or9.map_t2 A1 A2 A3 A4 A5 A6 A7 A8 A9 B f (@Or9.T4 A1 A2 A3 A4 A5 A6 A7 A8 A9 v) = @Or9.T4 A1 B A3 A4 A5 A6 A7 A8 A9 v)
    ∧ (∀ (A1 A2 A3 A4 A5 A6 A7 A8 A9 B : Type) (f : A2 → B) (v : A5), @Or9.map_t2 A1 A2 A3 A4 A5 A6 A7 A8 A9 B f (@Or9.T5 A1 A2 A3 A4 A5 A6 A7 A8 A9 v) = @Or9.T5 A1 B A3 A4 A5 A6 A7 A8 A9 v)
    ∧ (∀ (A1 A2 A3 A4 A5 A6 A7 A8 A9 B : Type) (f : A2 → B) (v : A6), @Or9.map_t2 A1 A2 A3 A4 A5 A6 A7 A8 A9 B f (@Or9.T6 A1 A2 A3 A4 A5 A6 A7 A8 A9 v) = @Or9.T6 A1 B A3 A4 A5 A6 A7 A8 A9 v)
    ∧ (∀ (A1 A2 A3 A4 A5 A6 A7 A8 A9 B : Type) (f : A2 → B) (v : A7), @Or9.map_t2 A1 A2 A3 A4 A5 A6 A7 A8 A9 B f (@Or9.T7 A1 A2 A3 A4 A5 A6 A7 A8 A9 v) = @Or9.T7 A1 B A3 A4 A5 A6 A7 A8 A9 v)
    ∧ (∀ (A1 A2 A3 A4 A5 A6 A7 A8 A9 B : Type) (f : A2 → B) (v : A8), @Or9.map_t2 A1 A2 A3 A4 A5 A6 A7 A8 A9 B f (@Or9.T8 A1 A2 A3 A4 A5 A6 A7 A8 A9 v) = @Or9.T8 A1 B A3 A4 A5 A6 A7 A8 A9 v)
    ∧ (∀ (A1 A2 A3 A4 A5 A6 A7 A8 A9 B : Type) (f : A2 → B) (v : A9), @Or9.map_t2 A1 A2 A3 A4 A5 A6 A7 A8 A9 B f (@Or9.T9 A1 A2 A3 A4 A5 A6 A7 A8 A9 v) = @Or9.T9 A1 B A3 A4 A5 A6 A7 A8 A9 v)
    ∧ (∀ (A1 A2 A3 A4 A5 A6 A7 A8 A9 B : Type) (f : A3 → B) (v : A1), @Or9.map_t3 A1 A2 A3 A4 A5 A6 A7 A8 A9 B f (@Or9.T1 A1 A2 A3 A4 A5 A6 A7 A8 A9 v) = @Or9.T1 A1 A2 B A4 A5 A6 A7 A8 A9 v)
    ∧ (∀ (A1 A2 A3 A4 A5 A6 A7 A8 A9 B : Type) (f : A3 → B) (v : A2), @Or9.map_t3 A1 A2 A3 A4 A5 A6 A7 A8 A9 B f (@Or9.T2 A1 A2 A3 A4 A5 A6 A7 A8 A9 v) = @Or9.T2 A1 A2 B A4 A5 A6 A7 A8 A9 v)
    ∧ (∀ (A1 A2 A3 A4 A5 A6 A7 A8 A9 B : Type) (f : A3 → B) (v : A3), @Or9.map_t3 A1 A2 A3 A4 A5 A6 A7 A8 A9 B f (@Or9.T3 A1 A2 A3 A4 A5 A6 A7 A8 A9 v) = @Or9.T3 A1 A2 B A4 A5 A6 A7 A8 A9 (f v))
    ∧ (∀ (A1 A2 A3 A4 A5 A6 A7 A8 A9 B : Type) (f : A3 → B) (v : A4), @Or9.map_t3 A1 A2 A3 A4 A5 A6 A7 A8 A9 B f (@Or9.T4 A1 A2 A3 A4 A5 A6 A7 A8 A9 v) = @Or9.T4 A1 A2 B A4 A5 A6 A7 A8 A9 v)
    ∧ (∀ (A1 A2 A3 A4 A5 A6 A7 A8 A9 B : Type) (f : A3 → B) (v : A5), @Or9.map_t3 A1 A2 A3 A4 A5 A6 A7 A8 A9 B f (@Or9.T5 A1 A2 A3 A4 A5 A6 A7 A8 A9 v) = @Or9.T5 A1 A2 B A4 A5 A6 A7 A8 A9 v)
    ∧ (∀ (A1 A2 A3 A4 A5 A6 A7 A8 A9 B : Type) (f : A3 → B) (v : A6), @Or9.map_t3 A1 A2 A3 A4 A5 A6 A7 A8 A9 B f (@Or9.T6 A1 A2 A3 A4 A5 A6 A7 A8 A9 v) = @Or9.T6 A1 A2 B A4 A5 A6 A7 A8 A9 v)
    ∧ (∀ (A1 A2 A3 A4 A5 A6 A7 A8 A9 B : Type) (f : A3 → B) (v : A7), @Or9.map_t3 A1 A2 A3 A4 A5 A6 A7 A8 A9 B f (@Or9.T7 A1 A2 A3 A4 A5 A6 A7 A8 A9 v) = @Or9.T7 A1 A2 B A4 A5 A6 A7 A8 A9 v)
    ∧ (∀ (A1 A2 A3 A4 A5 A6 A7 A8 A9 B : Type) (f : A3 → B) (v : A8), @Or9.map_t3 A1 A2 A3 A4 A5 A6 A7 A8 A9 B f (@Or9.T8 A1 A2 A3 A4 A5 A6 A7 A8 A9 v) = @Or9.T8 A1 A2 B A4 A5 A6 A7 A8 A9 v)
    ∧ (∀ (A1 A2 A3 A4 A5 A6 A7 A8 A9 B : Type) (f : A3 → B) (v : A9), @Or9.map_t3 A1 A2 A3 A4 A5 A6 A7 A8 A9 B f (@Or9.T9 A1 A2 A3 A4 A5 A6 A7 A8 A9 v) = @Or9.T9 A1 A2 B A4 A5 A6 A7 A8 A9 v)
    ∧ (∀ (A1 A2 A3 A4 A5 A6 A7 A8 A9 B : Type) (f : A4 → B) (v : A1), @Or9.map_t4 A1 A2 A3 A4 A5 A6 A7 A8 A9 B f (@Or9.T1 A1 A2 A3 A4 A5 A6 A7 A8 A9 v) = @Or9.T1 A1 A2 A3 B A5 A6 A7 A8 A9 v)
    ∧ (∀ (A1 A2 A3 A4 A5 A6 A7 A8 A9 B : Type) (f : A4 → B) (v : A2), @Or9.map_t4 A1 A2 A3 A4 A5 A6 A7 A8 A9 B f (@Or9.T2 A1 A2 A3 A4 A5 A6 A7 A8 A9 v) = @Or9.T2 A1 A2 A3 B A5 A6 A7 A8 A9 v)
    ∧ (∀ (A1 A2 A3 A4 A5 A6 A7 A8 A9 B : Type) (f : A4 → B) (v : A3), @Or9.map_t4 A1 A2 A3 A4 A5 A6 A7 A8 A9 B f (@Or9.T3 A1 A2 A3 A4 A5 A6 A7 A8 A9 v) = @Or9.T3 A1 A2 A3 B A5 A6 A7 A8 A9 v)
    ∧ (∀ (A1 A2 A3 A4 A5 A6 A7 A8 A9 B : Type) (f : A4 → B) (v : A4), @Or9.map_t4 A1 A2 A3 A4 A5 A6 A7 A8 A9 B f (@Or9.T4 A1 A2 A3 A4 A5 A6 A7 A8 A9 v) = @Or9.T4 A1 A2 A3 B A5 A6 A7 A8 A9 (f v))
    ∧ (∀ (A1 A2 A3 A4 A5 A6 A7 A8 A9 B : Type) (f : A4 → B) (v : A5), @Or9.map_t4 A1 A2 A3 A4 A5 A6 A7 A8 A9 B f (@Or9.T5 A1 A2 A3 A4 A5 A6 A7 A8 A9 v) = @Or9.T5 A1 A2 A3 B A5 A6 A7 A8 A9 v)
    ∧ (∀ (A1 A2 A3 A4 A5 A6 A7 A8 A9 B : Type) (f : A4 → B) (v : A6), @Or9.map_t4 A1 A2 A3 A4 A5 A6 A7 A8 A9 B f (@Or9.T6 A1 A2 A3 A4 A5 A6 A7 A8 A9 v) = @Or9.T6 A1 A2 A3 B A5 A6 A7 A8 A9 v)
    ∧ (∀ (A1 A2 A3 A4 A5 A6 A7 A8 A9 B : Type) (f : A4 → B) (v : A7), @Or9.map_t4 A1 A2 A3 A4 A5 A6 A7 A8 A9 B f (@Or9.T7 A1 A2 A3 A4 A5 A6 A7 A8 A9 v) = @Or9.T7 A1 A2 A3 B A5 A6 A7 A8 A9 v)
    ∧ (∀ (A1 A2 A3 A4 A5 A6 A7 A8 A9 B : Type) (f : A4 → B) (v : A8), @Or9.map_t4 A1 A2 A3 A4 A5 A6 A7 A8 A9 B f (@Or9.T8 A1 A2 A3 A4 A5 A6 A7 A8 A9 v) = @Or9.T8 A1 A2 A3 B A5 A6 A7 A8 A9 v)
    ∧ (∀ (A1 A2 A3 A4 A5 A6 A7 A8 A9 B : Type) (f : A4 → B) (v : A9), @Or9.map_t4 A1 A2 A3 A4 A5 A6 A7 A8 A9 B f (@Or9.T9 A1 A2 A3 A4 A5 A6 A7 A8 A9 v) = @Or9.T9 A1 A2 A3 B A5 A6 A7 A8 A9 v)
    ∧ (∀ (A1 A2 A3 A4 A5 A6 A7 A8 A9 B : Type) (f : A5 → B) (v : A1), @Or9.map_t5 A1 A2 A3 A4 A5 A6 A7 A8 A9 B f (@Or9.T1 A1 A2 A3 A4 A5 A6 A7 A8 A9 v) = @Or9.T1 A1 A2 A3 A4 B A6 A7 A8 A9 v)
    ∧ (∀ (A1 A2 A3 A4 A5 A6 A7 A8 A9 B : Type) (f : A5 → B) (v : A2), @Or9.map_t5 A1 A2 A3 A4 A5 A6 A7 A8 A9 B f (@Or9.T2 A1 A2 A3 A4 A5 A6 A7 A8 A9 v) = @Or9.T2 A1 A2 A3 A4 B A6 A7 A8 A9 v)
    ∧ (∀ (A1 A2 A3 A4 A5 A6 A7 A8 A9 B : Type) (f : A5 → B) (v : A3), @Or9.map_t5 A1 A2 A3 A4 A5 A6 A7 A8 A9 B f (@Or9.T3 A1 A2 A3 A4 A5 A6 A7 A8 A9 v) = @Or9.T3 A1 A2 A3 A4 B A6 A7 A8 A9 v)
    ∧ (∀ (A1 A2 A3 A4 A5 A6 A7 A8 A9 B : Type) (f : A5 → B) (v : A4), @Or9.map_t5 A1 A2 A3 A4 A5 A6 A7 A8 A9 B f (@Or9.T4 A1 A2 A3 A4 A5 A6 A7 A8 A9 v) = @Or9.T4 A1 A2 A3 A4 B A6 A7 A8 A9 v)
    ∧ (∀ (A1 A2 A3 A4 A5 A6 A7 A8 A9 B : Type) (f : A5 → B) (v : A5), @Or9.map_t5 A1 A2 A3 A4 A5 A6 A7 A8 A9 B f (@Or9.T5 A1 A2 A3 A4 A5 A6 A7 A8 A9 v) = @Or9.T5 A1 A2 A3 A4 B A6 A7 A8 A9 (f v))
    ∧ (∀ (A1 A2 A3 A4 A5 A6 A7 A8 A9 B : Type) (f : A5 → B) (v : A6), @Or9.map_t5 A1 A2 A3 A4 A5 A6 A7 A8 A9 B f (@Or9.T6 A1 A2 A3 A4 A5 A6 A7 A8 A9 v) = @Or9.T6 A1 A2 A3 A4 B A6 A7 A8 A9 v)
    ∧ (∀ (A1 A2 A3 A4 A5 A6 A7 A8 A9 B : Type) (f : A5 → B) (v : A7), @Or9.map_t5 A1 A2 A3 A4 A5 A6 A7 A8 A9 B f (@Or9.T7 A1 A2 A3 A4 A5 A6 A7 A8 A9 v) = @Or9.T7 A1 A2 A3 A4 B A6 A7 A8 A9 v)
    ∧ (∀ (A1 A2 A3 A4 A5 A6 A7 A8 A9 B : Type) (f : A5 → B) (v : A8), @Or9.map_t5 A1 A2 A3 A4 A5 A6 A7 A8 A9 B f (@Or9.T8 A1 A2 A3 A4 A5 A6 A7 A8 A9 v) = @Or9.T8 A1 A2 A3 A4 B A6 A7 A8 A9 v)
    ∧ (∀ (A1 A2 A3 A4 A5 A6 A7 A8 A9 B : Type) (f : A5 → B) (v : A9), @Or9.map_t5 A1 A2 A3 A4 A5 A6 A7 A8 A9 B f (@Or9.T9 A1 A2 A3 A4 A5 A6 A7 A8 A9 v) = @Or9.T9 A1 A2 A3 A4 B A6 A7 A8 A9 v)
    ∧ (∀ (A1 A2 A3 A4 A5 A6 A7 A8 A9 B : Type) (f : A6 → B) (v : A1), @Or9.map_t6 A1 A2 A3 A4 A5 A6 A7 A8 A9 B f (@Or9.T1 A1 A2 A3 A4 A5 A6 A7 A8 A9 v) = @Or9.T1 A1 A2 A3 A4 A5 B A7 A8 A9 v)
    ∧ (∀ (A1 A2 A3 A4 A5 A6 A7 A8 A9 B : Type) (f : A6 → B) (v : A2), @Or9.map_t6 A1 A2 A3 A4 A5 A6 A7 A8 A9 B f (@Or9.T2 A1 A2 A3 A4 A5 A6 A7 A8 A9 v) = @Or9.T2 A1 A2 A3 A4 A5 B A7 A8 A9 v)
    ∧ (∀ (A1 A2 A3 A4 A5 A6 A7 A8 A9 B : Type) (f : A6 → B) (v : A3), @Or9.map_t6 A1 A2 A3 A4 A5 A6 A7 A8 A9 B f (@Or9.T3 A1 A2 A3 A4 A5 A6 A7 A8 A9 v) = @Or9.T3 A1 A2 A3 A4 A5 B A7 A8 A9 v)
    ∧ (∀ (A1 A2 A3 A4 A5 A6 A7 A8 A9 B : Type) (f : A6 → B) (v : A4), @Or9.map_t6 A1 A2 A3 A4 A5 A6 A7 A8 A9 B f (@Or9.T4 A1 A2 A3 A4 A5 A6 A7 A8 A9 v) = @Or9.T4 A1 A2 A3 A4 A5 B A7 A8 A9 v)
    ∧ (∀ (A1 A2 A3 A4 A5 A6 A7 A8 A9 B : Type) (f : A6 → B) (v : A5), @Or9.map_t6 A1 A2 A3 A4 A5 A6 A7 A8 A9 B f (@Or9.T5 A1 A2 A3 A4 A5 A6 A7 A8 A9 v) = @Or9.T5 A1 A2 A3 A4 A5 B A7 A8 A9 v)
    ∧ (∀ (A1 A2 A3 A4 A5 A6 A7 A8 A9 B : Type) (f : A6 → B) (v : A6), @Or9.map_t6 A1 A2 A3 A4 A5 A6 A7 A8 A9 B f (@Or9.T6 A1 A2 A3 A4 A5 A6 A7 A8 A9 v) = @Or9.T6 A1 A2 A3 A4 A5 B A7 A8 A9 (f v))
    ∧ (∀ (A1 A2 A3 A4 A5 A6 A7 A8 A9 B : Type) (f : A6 → B) (v : A7), @Or9.map_t6 A1 A2 A3 A4 A5 A6 A7 A8 A9 B f (@Or9.T7 A1 A2 A3 A4 A5 A6 A7 A8 A9 v) = @Or9.T7 A1 A2 A3 A4 A5 B A7 A8 A9 v)
    ∧ (∀ (A1 A2 A3 A4 A5 A6 A7 A8 A9 B : Type) (f : A6 → B) (v : A8), @Or9.map_t6 A1 A2 A3 A4 A5 A6 A7 A8 A9 B f (@Or9.T8 A1 A2 A3 A4 A5 A6 A7 A8 A9 v) = @Or9.T8 A1 A2 A3 A4 A5 B A7 A8 A9 v)
    ∧ (∀ (A1 A2 A3 A4 A5 A6 A7 A8 A9 B : Type) (f : A6 → B) (v : A9), @Or9.map_t6 A1 A2 A3 A4 A5 A6 A7 A8 A9 B f (@Or9.T9 A1 A2 A3 A4 A5 A6 A7 A8 A9 v) = @Or9.T9 A1 A2 A3 A4 A5 B A7 A8 A9 v)
    ∧ (∀ (A1 A2 A3 A4 A5 A6 A7 A8 A9 B : Type) (f : A7 → B) (v : A1), @Or9.map_t7 A1 A2 A3 A4 A5 A6 A7 A8 A9 B f (@Or9.T1 A1 A2 A3 A4 A5 A6 A7 A8 A9 v) = @Or9.T1 A1 A2 A3 A4 A5 A6 B A8 A9 v)
    ∧ (∀ (A1 A2 A3 A4 A5 A6 A7 A8 A9 B : Type) (f : A7 → B) (v : A2), @Or9.map_t7 A1 A2 A3 A4 A5 A6 A7 A8 A9 B f (@Or9.T2 A1 A2 A3 A4 A5 A6 A7 A8 A9 v) = @Or9.T2 A1 A2 A3 A4 A5 A6 B A8 A9 v)
    ∧ (∀ (A1 A2 A3 A4 A5 A6 A7 A8 A9 B : Type) (f : A7 → B) (v : A3), @Or9.map_t7 A1 A2 A3 A4 A5 A6 A7 A8 A9 B f (@Or9.T3 A1 A2 A3 A4 A5 A6 A7 A8 A9 v) = @Or9.T3 A1 A2 A3 A4 A5 A6 B A8 A9 v)
    ∧ (∀ (A1 A2 A3 A4 A5 A6 A7 A8 A9 B : Type) (f : A7 → B) (v : A4), @Or9.map_t7 A1 A2 A3 A4 A5 A6 A7 A8 A9 B f (@Or9.T4 A1 A2 A3 A4 A5 A6 A7 A8 A9 v) = @Or9.T4 A1 A2 A3 A4 A5 A6 B A8 A9 v)
    ∧ (∀ (A1 A2 A3 A4 A5 A6 A7 A8 A9 B : Type) (f : A7 → B) (v : A5), @Or9.map_t7 A1 A2 A3 A4 A5 A6 A7 A8 A9 B f (@Or9.T5 A1 A2 A3 A4 A5 A6 A7 A8 A9 v) = @Or9.T5 A1 A2 A3 A4 A5 A6 B A8 A9 v)
    ∧ (∀ (A1 A2 A3 A4 A5 A6 A7 A8 A9 B : Type) (f : A7 → B) (v : A6), @Or9.map_t7 A1 A2 A3 A4 A5 A6 A7 A8 A9 B f (@Or9.T6 A1 A2 A3 A4 A5 A6 A7 A8 A9 v) = @Or9.T6 A1 A2 A3 A4 A5 A6 B A8 A9 v)
    ∧ (∀ (A1 A2 A3 A4 A5 A6 A7 A8 A9 B : Type) (f : A7 → B) (v : A7), @Or9.map_t7 A1 A2 A3 A4 A5 A6 A7 A8 A9 B f (@Or9.T7 A1 A2 A3 A4 A5 A6 A7 A8 A9 v) = @Or9.T7 A1 A2 A3 A4 A5 A6 B A8 A9 (f v))
    ∧ (∀ (A1 A2 A3 A4 A5 A6 A7 A8 A9 B : Type) (f : A7 → B) (v : A8), @Or9.map_t7 A1 A2 A3 A4 A5 A6 A7 A8 A9 B f (@Or9.T8 A1 A2 A3 A4 A5 A6 A7 A8 A9 v) = @Or9.T8 A1 A2 A3 A4 A5 A6 B A8 A9 v)
    ∧ (∀ (A1 A2 A3 A4 A5 A6 A7 A8 A9 B : Type) (f : A7 → B) (v : A9), @Or9.map_t7 A1 A2 A3 A4 A5 A6 A7 A8 A9 B f (@Or9.T9 A1 A2 A3 A4 A5 A6 A7 A8 A9 v) = @Or9.T9 A1 A2 A3 A4 A5 A6 B A8 A9 v)
    ∧ (∀ (A1 A2 A3 A4 A5 A6 A7 A8 A9 B : Type) (f : A8 → B) (v : A1), @Or9.map_t8 A1 A2 A3 A4 A5 A6 A7 A8 A9 B f (@Or9.T1 A1 A2 A3 A4 A5 A6 A7 A8 A9 v) = @Or9.T1 A1 A2 A3 A4 A5 A6 A7 B A9 v)
    ∧ (∀ (A1 A2 A3 A4 A5 A6 A7 A8 A9 B : Type) (f : A8 → B) (v : A2), @Or9.map_t8 A1 A2 A3 A4 A5 A6 A7 A8 A9 B f (@Or9.T2 A1 A2 A3 A4 A5 A6 A7 A8 A9 v) = @Or9.T2 A1 A2 A3 A4 A5 A6 A7 B A9 v)
    ∧ (∀ (A1 A2 A3 A4 A5 A6 A7 A8 A9 B : Type) (f : A8 → B) (v : A3), @Or9.map_t8 A1 A2 A3 A4 A5 A6 A7 A8 A9 B f (@Or9.T3 A1 A2 A3 A4 A5 A6 A7 A8 A9 v) = @Or9.T3 A1 A2 A3 A4 A5 A6 A7 B A9 v)
    ∧ (∀ (A1 A2 A3 A4 A5 A6 A7 A8 A9 B : Type) (f : A8 → B) (v : A4), @Or9.map_t8 A1 A2 A3 A4 A5 A6 A7 A8 A9 B f (@Or9.T4 A1 A2 A3 A4 A5 A6 A7 A8 A9 v) = @Or9.T4 A1 A2 A3 A4 A5 A6 A7 B A9 v)
    ∧ (∀ (A1 A2 A3 A4 A5 A6 A7 A8 A9 B : Type) (f : A8 → B) (v : A5), @Or9.map_t8 A1 A2 A3 A4 A5 A6 A7 A8 A9 B f (@Or9.T5 A1 A2 A3 A4 A5 A6 A7 A8 A9 v) = @Or9.T5 A1 A2 A3 A4 A5 A6 A7 B A9 v)
    ∧ (∀ (A1 A2 A3 A4 A5 A6 A7 A8 A9 B : Type) (f : A8 → B) (v : A6), @Or9.map_t8 A1 A2 A3 A4 A5 A6 A7 A8 A9 B f (@Or9.T6 A1 A2 A3 A4 A5 A6 A7 A8 A9 v) = @Or9.T6 A1 A2 A3 A4 A5 A6 A7 B A9 v)
    ∧ (∀ (A1 A2 A3 A4 A5 A6 A7 A8 A9 B : Type) (f : A8 → B) (v : A7), @Or9.map_t8 A1 A2 A3 A4 A5 A6 A7 A8 A9 B f (@Or9.T7 A1 A2 A3 A4 A5 A6 A7 A8 A9 v) = @Or9.T7 A1 A2 A3 A4 A5 A6 A7 B A9 v)
    ∧ (∀ (A1 A2 A3 A4 A5 A6 A7 A8 A9 B : Type) (f : A8 → B) (v : A8), @Or9.map_t8 A1 A2 A3 A4 A5 A6 A7 A8 A9 B f (@Or9.T8 A1 A2 A3 A4 A5 A6 A7 A8 A9 v) = @Or9.T8 A1 A2 A3 A4 A5 A6 A7 B A9 (f v))
    ∧ (∀ (A1 A2 A3 A4 A5 A6 A7 A8 A9 B : Type) (f : A8 → B) (v : A9), @Or9.map_t8 A1 A2 A3 A4 A5 A6 A7 A8 A9 B f (@Or9.T9 A1 A2 A3 A4 A5 A6 A7 A8 A9 v) = @Or9.T9 A1 A2 A3 A4 A5 A6 A7 B A9 v)
    ∧ (∀ (A1 A2 A3 A4 A5 A6 A7 A8 A9 B : Type) (f : A9 → B) (v : A1), @Or9.map_t9 A1 A2 A3 A4 A5 A6 A7 A8 A9 B f (@Or9.T1 A1 A2 A3 A4 A5 A6 A7 A8 A9 v) = @Or9.T1 A1 A2 A3 A4 A5 A6 A7 A8 B v)
    ∧ (∀ (A1 A2 A3 A4 A5 A6 A7 A8 A9 B : Type) (f : A9 → B) (v : A2), @Or9.map_t9 A1 A2 A3 A4 A5 A6 A7 A8 A9 B f (@Or9.T2 A1 A2 A3 A4 A5 A6 A7 A8 A9 v) = @Or9.T2 A1 A2 A3 A4 A5 A6 A7 A8 B v)
    ∧ (∀ (A1 A2 A3 A4 A5 A6 A7 A8 A9 B : Type) (f : A9 → B) (v : A3), @Or9.map_t9 A1 A2 A3 A4 A5 A6 A7 A8 A9 B f (@Or9.T3 A1 A2 A3 A4 A5 A6 A7 A8 A9 v) = @Or9.T3 A1 A2 A3 A4 A5 A6 A7 A8 B v)
    ∧ (∀ (A1 A2 A3 A4 A5 A6 A7 A8 A9 B : Type) (f : A9 → B) (v : A4), @Or9.map_t9 A1 A2 A3 A4 A5 A6 A7 A8 A9 B f (@Or9.T4 A1 A2 A3 A4 A5 A6 A7 A8 A9 v) = @Or9.T4 A1 A2 A3 A4 A5 A6 A7 A8 B v)
    ∧ (∀ (A1 A2 A3 A4 A5 A6 A7 A8 A9 B : Type) (f : A9 → B) (v : A5), @Or9.map_t9 A1 A2 A3 A4 A5 A6 A7 A8 A9 B f (@Or9.T5 A1 A2 A3 A4 A5 A6 A7 A8 A9 v) = @Or9.T5 A1 A2 A3 A4 A5 A6 A7 A8 B v)
    ∧ (∀ (A1 A2 A3 A4 A5 A6 A7 A8 A9 B : Type) (f : A9 → B) (v : A6), @Or9.map_t9 A1 A2 A3 A4 A5 A6 A7 A8 A9 B f (@Or9.T6 A1 A2 A3 A4 A5 A6 A7 A8 A9 v) = @Or9.T6 A1 A2 A3 A4 A5 A6 A7 A8 B v)
    ∧ (∀ (A1 A2 A3 A4 A5 A6 A7 A8 A9 B : Type) (f : A9 → B) (v : A7), @Or9.map_t9 A1 A2 A3 A4 A5 A6 A7 A8 A9 B f (@Or9.T7 A1 A2 A3 A4 A5 A6 A7 A8 A9 v) = @Or9.T7 A1 A2 A3 A4 A5 A6 A7 A8 B v)
    ∧ (∀ (A1 A2 A3 A4 A5 A6 A7 A8 A9 B : Type) (f : A9 → B) (v : A8), @Or9.map_t9 A1 A2 A3 A4 A5 A6 A7 A8 A9 B f (@Or9.T8 A1 A2 A3 A4 A5 A6 A7 A8 A9 v) = @Or9.T8 A1 A2 A3 A4 A5 A6 A7 A8 B v)
    ∧ (∀ (A1 A2 A3 A4 A5 A6 A7 A8 A9 B : Type) (f : A9 → B) (v : A9), @Or9.map_t9 A1 A2 A3 A4 A5 A6 A7 A8 A9 B f (@Or9.T9 A1 A2 A3 A4 A5 A6 A7 A8 A9 v) = @Or9.T9 A1 A2 A3 A4 A5 A6 A7 A8 B (f v))
    :=
  ⟨fun _ _ _ _ _ => rfl,
   fun _ _ _ _ _ => rfl,
   fun _ _ _ _ _ => rfl,
   fun _ _ _ _ _ => rfl,
   fun _ _ _ _ _ _ => rfl,
   fun _ _ _ _ _ _ => rfl,
   fun _ _ _ _ _ _ => rfl,
   fun _ _ _ _ _ _ => rfl,
   fun _ _ _ _ _ _ => rfl,
   fun _ _ _ _ _ _ => rfl,
   fun _ _ _ _ _ _ => rfl,
   fun _ _ _ _ _ _ => rfl,
   fun _ _ _ _ _ _ => rfl,
   fun _ _ _ _ _ _ _ => rfl,
   fun _ _ _ _ _ _ _ => rfl,
   fun _ _ _ _ _ _ _ => rfl,
   fun _ _ _ _ _ _ _ => rfl,
   fun _ _ _ _ _ _ _ => rfl,
   fun _ _ _ _ _ _ _ => rfl,
   fun _ _ _ _ _ _ _ => rfl,
   fun _ _ _ _ _ _ _ => rfl,
   fun _ _ _ _ _ _ _ => rfl,
   fun _ _ _ _ _ _ _ => rfl,
   fun _ _ _ _ _ _ _ => rfl,
   fun _ _ _ _ _ _ _ => rfl,
   fun _ _ _ _ _ _ _ => rfl,
   fun _ _ _ _ _ _ _ => rfl,
   fun _ _ _ _ _ _ _ => rfl,
   fun _ _ _ _ _ _ _ => rfl,
   fun _ _ _ _ _ _ _ _ => rfl,
   fun _ _ _ _ _ _ _ _ => rfl,
   fun _ _ _ _ _ _ _ _ => rfl,
   fun _ _ _ _ _ _ _ _ => rfl,
   fun _ _ _ _ _ _ _ _ => rfl,
   fun _ _ _ _ _ _ _ _ => rfl,
   fun _ _ _ _ _ _ _ _ => rfl,
   fun _ _ _ _ _ _ _ _ => rfl,
   fun _ _ _ _ _ _ _ _ => rfl,
   fun _ _ _ _ _ _ _ _ => rfl,
   fun _ _ _ _ _ _ _ _ => rfl,
   fun _ _ _ _ _ _ _ _ => rfl,
   fun _ _ _ _ _ _ _ _ => rfl,
   fun _ _ _ _ _ _ _ _ => rfl,
   fun _ _ _ _ _ _ _ _ => rfl,
   fun _ _ _ _ _ _ _ _ => rfl,
   fun _ _ _ _ _ _ _ _ => rfl,
   fun _ _ _ _ _ _ _ _ => rfl,
   fun _ _ _ _ _ _ _ _ => rfl,
   fun _ _ _ _ _ _ _ _ => rfl,
   fun _ _ _ _ _ _ _ _ => rfl,
   fun _ _ _ _ _ _ _ _ => rfl,
   fun _ _ _ _ _ _ _ _ => rfl,
   fun _ _ _ _ _ _ _ _ => rfl,
   fun _ _ _ _ _ _ _ _ => rfl,
   fun _ _ _ _ _ _ _ _ _ => rfl,
   fun _ _ _ _ _ _ _ _ _ => rfl,
   fun _ _ _ _ _ _ _ _ _ => rfl,
   fun _ _ _ _ _ _ _ _ _ => rfl,
   fun _ _ _ _ _ _ _ _ _ => rfl,
   fun _ _ _ _ _ _ _ _ _ => rfl,
   fun _ _ _ _ _ _ _ _ _ => rfl,
   fun _ _ _ _ _ _ _ _ _ => rfl,
   fun _ _ _ _ _ _ _ _ _ => rfl,
   fun _ _ _ _ _ _ _ _ _ => rfl,
   fun _ _ _ _ _ _ _ _ _ => rfl,
   fun _ _ _ _ _ _ _ _ _ => rfl,
   fun _ _ _ _ _ _ _ _ _ => rfl,
   fun _ _ _ _ _ _ _ _ _ => rfl,
   fun _ _ _ _ _ _ _ _ _ => rfl,
   fun _ _ _ _ _ _ _ _ _ => rfl,
   fun _ _ _ _ _ _ _ _ _ => rfl,
   fun _ _ _ _ _ _ _ _ _ => rfl,
   fun _ _ _ _ _ _ _ _ _ => rfl,
   fun _ _ _ _ _ _ _ _ _ => rfl,
   fun _ _ _ _ _ _ _ _ _ => rfl,
   fun _ _ _ _ _ _ _ _ _ => rfl,
   fun _ _ _ _ _ _ _ _ _ => rfl,
   fun _ _ _ _ _ _ _ _ _ => rfl,
   fun _ _ _ _ _ _ _ _ _ => rfl,
   fun _ _ _ _ _ _ _ _ _ => rfl,
   fun _ _ _ _ _ _ _ _ _ => rfl,
   fun _ _ _ _ _ _ _ _ _ => rfl,
   fun _ _ _ _ _ _ _ _ _ => rfl,
   fun _ _ _ _ _ _ _ _ _ => rfl,
   fun _ _ _ _ _ _ _ _ _ => rfl,
   fun _ _ _ _ _ _ _ _ _ => rfl,
   fun _ _ _ _ _ _ _ _ _ => rfl,
   fun _ _ _ _ _ _ _ _ _ => rfl,
   fun _ _ _ _ _ _ _ _ _ => rfl,
   fun _ _ _ _ _ _ _ _ _ => rfl,
   fun _ _ _ _ _ _ _ _ _ _ => rfl,
   fun _ _ _ _ _ _ _ _ _ _ => rfl,
   fun _ _ _ _ _ _ _ _ _ _ => rfl,
   fun _ _ _ _ _ _ _ _ _ _ => rfl,
   fun _ _ _ _ _ _ _ _ _ _ => rfl,
   fun _ _ _ _ _ _ _ _ _ _ => rfl,
   fun _ _ _ _ _ _ _ _ _ _ => rfl,
   fun _ _ _ _ _ _ _ _ _ _ => rfl,
   fun _ _ _ _ _ _ _ _ _ _ => rfl,
   fun _ _ _ _ _ _ _ _ _ _ => rfl,
   fun _ _ _ _ _ _ _ _ _ _ => rfl,
   fun _ _ _ _ _ _ _ _ _ _ => rfl,
   fun _ _ _ _ _ _ _ _ _ _ => rfl,
   fun _ _ _ _ _ _ _ _ _ _ => rfl,
   fun _ _ _ _ _ _ _ _ _ _ => rfl,
   fun _ _ _ _ _ _ _ _ _ _ => rfl,
   fun _ _ _ _ _ _ _ _ _ _ => rfl,
   fun _ _ _ _ _ _ _ _ _ _ => rfl,
   fun _ _ _ _ _ _ _ _ _ _ => rfl,
   fun _ _ _ _ _ _ _ _ _ _ => rfl,
   fun _ _ _ _ _ _ _ _ _ _ => rfl,
   fun _ _ _ _ _ _ _ _ _ _ => rfl,
   fun _ _ _ _ _ _ _ _ _ _ => rfl,
   fun _ _ _ _ _ _ _ _ _ _ => rfl,
   fun _ _ _ _ _ _ _ _ _ _ => rfl,
   fun _ _ _ _ _ _ _ _ _ _ => rfl,
   fun _ _ _ _ _ _ _ _ _ _ => rfl,
   fun _ _ _ _ _ _ _ _ _ _ => rfl,
   fun _ _ _ _ _ _ _ _ _ _ => rfl,
   fun _ _ _ _ _ _ _ _ _ _ => rfl,
   fun _ _ _ _ _ _ _ _ _ _ => rfl,
   fun _ _ _ _ _ _ _ _ _ _ => rfl,
   fun _ _ _ _ _ _ _ _ _ _ => rfl,
   fun _ _ _ _ _ _ _ _ _ _ => rfl,
   fun _ _ _ _ _ _ _ _ _ _ => rfl,
   fun _ _ _ _ _ _ _ _ _ _ => rfl,
   fun _ _ _ _ _ _ _ _ _ _ => rfl,
   fun _ _ _ _ _ _ _ _ _ _ => rfl,
   fun _ _ _ _ _ _ _ _ _ _ => rfl,
   fun _ _ _ _ _ _ _ _ _ _ => rfl,
   fun _ _ _ _ _ _ _ _ _ _ => rfl,
   fun _ _ _ _ _ _ _ _ _ _ => rfl,
   fun _ _ _ _ _ _ _ _ _ _ => rfl,
   fun _ _ _ _ _ _ _ _ _ _ => rfl,
   fun _ _ _ _ _ _ _ _ _ _ => rfl,
   fun _ _ _ _ _ _ _ _ _ _ => rfl,
   fun _ _ _ _ _ _ _ _ _ _ => rfl,
   fun _ _ _ _ _ _ _ _ _ _ => rfl,
   fun _ _ _ _ _ _ _ _ _ _ => rfl,
   fun _ _ _ _ _ _ _ _ _ _ _ => rfl,
   fun _ _ _ _ _ _ _ _ _ _ _ => rfl,
   fun _ _ _ _ _ _ _ _ _ _ _ => rfl,
   fun _ _ _ _ _ _ _ _ _ _ _ => rfl,
   fun _ _ _ _ _ _ _ _ _ _ _ => rfl,
   fun _ _ _ _ _ _ _ _ _ _ _ => rfl,
   fun _ _ _ _ _ _ _ _ _ _ _ => rfl,
   fun _ _ _ _ _ _ _ _ _ _ _ => rfl,
   fun _ _ _ _ _ _ _ _ _ _ _ => rfl,
   fun _ _ _ _ _ _ _ _ _ _ _ => rfl,
   fun _ _ _ _ _ _ _ _ _ _ _ => rfl,
   fun _ _ _ _ _ _ _ _ _ _ _ => rfl,
   fun _ _ _ _ _ _ _ _ _ _ _ => rfl,
   fun _ _ _ _ _ _ _ _ _ _ _ => rfl,
   fun _ _ _ _ _ _ _ _ _ _ _ => rfl,
   fun _ _ _ _ _ _ _ _ _ _ _ => rfl,
   fun _ _ _ _ _ _ _ _ _ _ _ => rfl,
   fun _ _ _ _ _ _ _ _ _ _ _ => rfl,
   fun _ _ _ _ _ _ _ _ _ _ _ => rfl,
   fun _ _ _ _ _ _ _ _ _ _ _ => rfl,
   fun _ _ _ _ _ _ _ _ _ _ _ => rfl,
   fun _ _ _ _ _ _ _ _ _ _ _ => rfl,
   fun _ _ _ _ _ _ _ _ _ _ _ => rfl,
   fun _ _ _ _ _ _ _ _ _ _ _ => rfl,
   fun _ _ _ _ _ _ _ _ _ _ _ => rfl,
   fun _ _ _ _ _ _ _ _ _ _ _ => rfl,
   fun _ _ _ _ _ _ _ _ _ _ _ => rfl,
   fun _ _ _ _ _ _ _ _ _ _ _ => rfl,
   fun _ _ _ _ _ _ _ _ _ _ _ => rfl,
   fun _ _ _ _ _ _ _ _ _ _ _ => rfl,
   fun _ _ _ _ _ _ _ _ _ _ _ => rfl,
   fun _ _ _ _ _ _ _ _ _ _ _ => rfl,
   fun _ _ _ _ _ _ _ _ _ _ _ => rfl,
   fun _ _ _ _ _ _ _ _ _ _ _ => rfl,
   fun _ _ _ _ _ _ _ _ _ _ _ => rfl,
   fun _ _ _ _ _ _ _ _ _ _ _ => rfl,
   fun _ _ _ _ _ _ _ _ _ _ _ => rfl,
   fun _ _ _ _ _ _ _ _ _ _ _ => rfl,
   fun _ _ _ _ _ _ _ _ _ _ _ => rfl,
   fun _ _ _ _ _ _ _ _ _ _ _ => rfl,
   fun _ _ _ _ _ _ _ _ _ _ _ => rfl,
   fun _ _ _ _ _ _ _ _ _ _ _ => rfl,
   fun _ _ _ _ _ _ _ _ _ _ _ => rfl,
   fun _ _ _ _ _ _ _ _ _ _ _ => rfl,
   fun _ _ _ _ _ _ _ _ _ _ _ => rfl,
   fun _ _ _ _ _ _ _ _ _ _ _ => rfl,
   fun _ _ _ _ _ _ _ _ _ _ _ => rfl,
   fun _ _ _ _ _ _ _ _ _ _ _ => rfl,
   fun _ _ _ _ _ _ _ _ _ _ _ => rfl,
   fun _ _ _ _ _ _ _ _ _ _ _ => rfl,
   fun _ _ _ _ _ _ _ _ _ _ _ => rfl,
   fun _ _ _ _ _ _ _ _ _ _ _ => rfl,
   fun _ _ _ _ _ _ _ _ _ _ _ => rfl,
   fun _ _ _ _ _ _ _ _ _ _ _ => rfl,
   fun _ _ _ _ _ _ _ _ _ _ _ => rfl,
   fun _ _ _ _ _ _ _ _ _ _ _ => rfl,
   fun _ _ _ _ _ _ _ _ _ _ _ => rfl,
   fun _ _ _ _ _ _ _ _ _ _ _ => rfl,
   fun _ _ _ _ _ _ _ _ _ _ _ => rfl,
   fun _ _ _ _ _ _ _ _ _ _ _ => rfl,
   fun _ _ _ _ _ _ _ _ _ _ _ => rfl,
   fun _ _ _ _ _ _ _ _ _ _ _ => rfl,
   fun _ _ _ _ _ _ _ _ _ _ _ => rfl,
   fun _ _ _ _ _ _ _ _ _ _ _ => rfl,
   fun _ _ _ _ _ _ _ _ _ _ _ _ => rfl,
   fun _ _ _ _ _ _ _ _ _ _ _ _ => rfl,
   fun _ _ _ _ _ _ _ _ _ _ _ _ => rfl,
   fun _ _ _ _ _ _ _ _ _ _ _ _ => rfl,
   fun _ _ _ _ _ _ _ _ _ _ _ _ => rfl,
   fun _ _ _ _ _ _ _ _ _ _ _ _ => rfl,
   fun _ _ _ _ _ _ _ _ _ _ _ _ => rfl,
   fun _ _ _ _ _ _ _ _ _ _ _ _ => rfl,
   fun _ _ _ _ _ _ _ _ _ _ _ _ => rfl,
   fun _ _ _ _ _ _ _ _ _ _ _ _ => rfl,
   fun _ _ _ _ _ _ _ _ _ _ _ _ => rfl,
   fun _ _ _ _ _ _ _ _ _ _ _ _ => rfl,
   fun _ _ _ _ _ _ _ _ _ _ _ _ => rfl,
   fun _ _ _ _ _ _ _ _ _ _ _ _ => rfl,
   fun _ _ _ _ _ _ _ _ _ _ _ _ => rfl,
   fun _ _ _ _ _ _ _ _ _ _ _ _ => rfl,
   fun _ _ _ _ _ _ _ _ _ _ _ _ => rfl,
   fun _ _ _ _ _ _ _ _ _ _ _ _ => rfl,
   fun _ _ _ _ _ _ _ _ _ _ _ _ => rfl,
   fun _ _ _ _ _ _ _ _ _ _ _ _ => rfl,
   fun _ _ _ _ _ _ _ _ _ _ _ _ => rfl,
   fun _ _ _ _ _ _ _ _ _ _ _ _ => rfl,
   fun _ _ _ _ _ _ _ _ _ _ _ _ => rfl,
   fun _ _ _ _ _ _ _ _ _ _ _ _ => rfl,
   fun _ _ _ _ _ _ _ _ _ _ _ _ => rfl,
   fun _ _ _ _ _ _ _ _ _ _ _ _ => rfl,
   fun _ _ _ _ _ _ _ _ _ _ _ _ => rfl,
   fun _ _ _ _ _ _ _ _ _ _ _ _ => rfl,
   fun _ _ _ _ _ _ _ _ _ _ _ _ => rfl,
   fun _ _ _ _ _ _ _ _ _ _ _ _ => rfl,
   fun _ _ _ _ _ _ _ _ _ _ _ _ => rfl,
   fun _ _ _ _ _ _ _ _ _ _ _ _ => rfl,
   fun _ _ _ _ _ _ _ _ _ _ _ _ => rfl,
   fun _ _ _ _ _ _ _ _ _ _ _ _ => rfl,
   fun _ _ _ _ _ _ _ _ _ _ _ _ => rfl,
   fun _ _ _ _ _ _ _ _ _ _ _ _ => rfl,
   fun _ _ _ _ _ _ _ _ _ _ _ _ => rfl,
   fun _ _ _ _ _ _ _ _ _ _ _ _ => rfl,
   fun _ _ _ _ _ _ _ _ _ _ _ _ => rfl,
   fun _ _ _ _ _ _ _ _ _ _ _ _ => rfl,
   fun _ _ _ _ _ _ _ _ _ _ _ _ => rfl,
   fun _ _ _ _ _ _ _ _ _ _ _ _ => rfl,
   fun _ _ _ _ _ _ _ _ _ _ _ _ => rfl,
   fun _ _ _ _ _ _ _ _ _ _ _ _ => rfl,
   fun _ _ _ _ _ _ _ _ _ _ _ _ => rfl,
   fun _ _ _ _ _ _ _ _ _ _ _ _ => rfl,
   fun _ _ _ _ _ _ _ _ _ _ _ _ => rfl,
   fun _ _ _ _ _ _ _ _ _ _ _ _ => rfl,
   fun _ _ _ _ _ _ _ _ _ _ _ _ => rfl,
   fun _ _ _ _ _ _ _ _ _ _ _ _ => rfl,
   fun _ _ _ _ _ _ _ _ _ _ _ _ => rfl,
   fun _ _ _ _ _ _ _ _ _ _ _ _ => rfl,
   fun _ _ _ _ _ _ _ _ _ _ _ _ => rfl,
   fun _ _ _ _ _ _ _ _ _ _ _ _ => rfl,
   fun _ _ _ _ _ _ _ _ _ _ _ _ => rfl,
   fun _ _ _ _ _ _ _ _ _ _ _ _ => rfl,
   fun _ _ _ _ _ _ _ _ _ _ _ _ => rfl,
   fun _ _ _ _ _ _ _ _ _ _ _ _ => rfl,
   fun _ _ _ _ _ _ _ _ _ _ _ _ => rfl,
   fun _ _ _ _ _ _ _ _ _ _ _ _ => rfl,
   fun _ _ _ _ _ _ _ _ _ _ _ _ => rfl,
   fun _ _ _ _ _ _ _ _ _ _ _ _ => rfl,
   fun _ _ _ _ _ _ _ _ _ _ _ _ => rfl,
   fun _ _ _ _ _ _ _ _ _ _ _ _ => rfl,
   fun _ _ _ _ _ _ _ _ _ _ _ _ => rfl,
   fun _ _ _ _ _ _ _ _ _ _ _ _ => rfl,
   fun _ _ _ _ _ _ _ _ _ _ _ _ => rfl,
   fun _ _ _ _ _ _ _ _ _ _ _ _ => rfl,
   fun _ _ _ _ _ _ _ _ _ _ _ _ => rfl,
   fun _ _ _ _ _ _ _ _ _ _ _ _ => rfl,
   fun _ _ _ _ _ _ _ _ _ _ _ _ => rfl,
   fun _ _ _ _ _ _ _ _ _ _ _ _ => rfl,
   fun _ _ _ _ _ _ _ _ _ _ _ _ => rfl,
   fun _ _ _ _ _ _ _ _ _ _ _ _ => rfl,
   fun _ _ _ _ _ _ _ _ _ _ _ _ => rfl,
   fun _ _ _ _ _ _ _ _ _ _ _ _ => rfl,
   fun _ _ _ _ _ _ _ _ _ _ _ _ => rfl,
   fun _ _ _ _ _ _ _ _ _ _ _ _ => rfl,
   fun _ _ _ _ _ _ _ _ _ _ _ _ => rfl,
   fun _ _ _ _ _ _ _ _ _ _ _ _ => rfl,
   fun _ _ _ _ _ _ _ _ _ _ _ _ => rfl⟩

/-- C8: for every arity N in 2..=9, `is_type` returns true iff the queried type identity equals the identity of the declared member type occupying the active slot, for every payload value (the value is never inspected). -/
theorem is_type_matches_declared_slot_type :
    (∀ (A1 A2 : Type) (id1 : TypeId) (id2 : TypeId) (idT : TypeId) (v : A1), @Or2.is_type A1 A2 id1 id2 idT (@Or2.T1 A1 A2 v) = (idT == id1))
    ∧ (∀ (A1 A2 : Type) (id1 : TypeId) (id2 : TypeId) (idT : TypeId) (v : A2), @Or2.is_type A1 A2 id1 id2 idT (@Or2.T2 A1 A2 v) = (idT == id2))
    ∧ (∀ (A1 A2 A3 : Type) (id1 : TypeId) (id2 : TypeId) (id3 : TypeId) (idT : TypeId) (v : A1), @Or3.is_type A1 A2 A3 id1 id2 id3 idT (@Or3.T1 A1 A2 A3 v) = (idT == id1))
    ∧ (∀ (A1 A2 A3 : Type) (id1 : TypeId) (id2 : TypeId) (id3 : TypeId) (idT : TypeId) (v : A2), @Or3.is_type A1 A2 A3 id1 id2 id3 idT (@Or3.T2 A1 A2 A3 v) = (idT == id2))
    ∧ (∀ (A1 A2 A3 : Type) (id1 : TypeId) (id2 : TypeId) (id3 : TypeId) (idT : TypeId) (v : A3), @Or3.is_type A1 A2 A3 id1 id2 id3 idT (@Or3.T3 A1 A2 A3 v) = (idT == id3))
    ∧ (∀ (A1 A2 A3 A4 : Type) (id1 : TypeId) (id2 : TypeId) (id3 : TypeId) (id4 : TypeId) (idT : TypeId) (v : A1), @Or4.is_type A1 A2 A3 A4 id1 id2 id3 id4 idT (@Or4.T1 A1 A2 A3 A4 v) = (idT == id1))
    ∧ (∀ (A1 A2 A3 A4 : Type) (id1 : TypeId) (id2 : TypeId) (id3 : TypeId) (id4 : TypeId) (idT : TypeId) (v : A2), @Or4.is_type A1 A2 A3 A4 id1 id2 id3 id4 idT (@Or4.T2 A1 A2 A3 A4 v) = (idT == id2))
    ∧ (∀ (A1 A2 A3 A4 : Type) (id1 : TypeId) (id2 : TypeId) (id3 : TypeId) (id4 : TypeId) (idT : TypeId) (v : A3), @Or4.is_type A1 A2 A3 A4 id1 id2 id3 id4 idT (@Or4.T3 A1 A2 A3 A4 v) = (idT == id3))
    ∧ (∀ (A1 A2 A3 A4 : Type) (id1 : TypeId) (id2 : TypeId) (id3 : TypeId) (id4 : TypeId) (idT : TypeId) (v : A4), @Or4.is_type A1 A2 A3 A4 id1 id2 id3 id4 idT (@Or4.T4 A1 A2 A3 A4 v) = (idT == id4))
    ∧ (∀ (A1 A2 A3 A4 A5 : Type) (id1 : TypeId) (id2 : TypeId) (id3 : TypeId) (id4 : TypeId) (id5 : TypeId) (idT : TypeId) (v : A1), @Or5.is_type A1 A2 A3 A4 A5 id1 id2 id3 id4 id5 idT (@Or5.T1 A1 A2 A3 A4 A5 v) = (idT == id1))
    ∧ (∀ (A1 A2 A3 A4 A5 : Type) (id1 : TypeId) (id2 : TypeId) (id3 : TypeId) (id4 : TypeId) (id5 : TypeId) (idT : TypeId) (v : A2), @Or5.is_type A1 A2 A3 A4 A5 id1 id2 id3 id4 id5 idT (@Or5.T2 A1 A2 A3 A4 A5 v) = (idT == id2))
    ∧ (∀ (A1 A2 A3 A4 A5 : Type) (id1 : TypeId) (id2 : TypeId) (id3 : TypeId) (id4 : TypeId) (id5 : TypeId) (idT : TypeId) (v : A3), @Or5.is_type A1 A2 A3 A4 A5 id1 id2 id3 id4 id5 idT (@Or5.T3 A1 A2 A3 A4 A5 v) = (idT == id3))
    ∧ (∀ (A1 A2 A3 A4 A5 : Type) (id1 : TypeId) (id2 : TypeId) (id3 : TypeId) (id4 : TypeId) (id5 : TypeId) (idT : TypeId) (v : A4), @Or5.is_type A1 A2 A3 A4 A5 id1 id2 id3 id4 id5 idT (@Or5.T4 A1 A2 A3 A4 A5 v) = (idT == id4))
    ∧ (∀ (A1 A2 A3 A4 A5 : Type) (id1 : TypeId) (id2 : TypeId) (id3 : TypeId) (id4 : TypeId) (id5 : TypeId) (idT : TypeId) (v : A5), @Or5.is_type A1 A2 A3 A4 A5 id1 id2 id3 id4 id5 idT (@Or5.T5 A1 A2 A3 A4 A5 v) = (idT == id5))
    ∧ (∀ (A1 A2 A3 A4 A5 A6 : Type) (id1 : TypeId) (id2 : TypeId) (id3 : TypeId) (id4 : TypeId) (id5 : TypeId) (id6 : TypeId) (idT : TypeId) (v : A1), @Or6.is_type A1 A2 A3 A4 A5 A6 id1 id2 id3 id4 id5 id6 idT (@Or6.T1 A1 A2 A3 A4 A5 A6 v) = (idT == id1))
    ∧ (∀ (A1 A2 A3 A4 A5 A6 : Type) (id1 : TypeId) (id2 : TypeId) (id3 : TypeId) (id4 : TypeId) (id5 : TypeId) (id6 : TypeId) (idT : TypeId) (v : A2), @Or6.is_type A1 A2 A3 A4 A5 A6 id1 id2 id3 id4 id5 id6 idT (@Or6.T2 A1 A2 A3 A4 A5 A6 v) = (idT == id2))
    ∧ (∀ (A1 A2 A3 A4 A5 A6 : Type) (id1 : TypeId) (id2 : TypeId) (id3 : TypeId) (id4 : TypeId) (id5 : TypeId) (id6 : TypeId) (idT : TypeId) (v : A3), @Or6.is_type A1 A2 A3 A4 A5 A6 id1 id2 id3 id4 id5 id6 idT (@Or6.T3 A1 A2 A3 A4 A5 A6 v) = (idT == id3))
    ∧ (∀ (A1 A2 A3 A4 A5 A6 : Type) (id1 : TypeId) (id2 : TypeId) (id3 : TypeId) (id4 : TypeId) (id5 : TypeId) (id6 : TypeId) (idT : TypeId) (v : A4), @Or6.is_type A1 A2 A3 A4 A5 A6 id1 id2 id3 id4 id5 id6 idT (@Or6.T4 A1 A2 A3 A4 A5 A6 v) = (idT == id4))
    ∧ (∀ (A1 A2 A3 A4 A5 A6 : Type) (id1 : TypeId) (id2 : TypeId) (id3 : TypeId) (id4 : TypeId) (id5 : TypeId) (id6 : TypeId) (idT : TypeId) (v : A5), @Or6.is_type A1 A2 A3 A4 A5 A6 id1 id2 id3 id4 id5 id6 idT (@Or6.T5 A1 A2 A3 A4 A5 A6 v) = (idT == id5))
    ∧ (∀ (A1 A2 A3 A4 A5 A6 : Type) (id1 : TypeId) (id2 : TypeId) (id3 : TypeId) (id4 : TypeId) (id5 : TypeId) (id6 : TypeId) (idT : TypeId) (v : A6), @Or6.is_type A1 A2 A3 A4 A5 A6 id1 id2 id3 id4 id5 id6 idT (@Or6.T6 A1 A2 A3 A4 A5 A6 v) = (idT == id6))
    ∧ (∀ (A1 A2 A3 A4 A5 A6 A7 : Type) (id1 : TypeId) (id2 : TypeId) (id3 : TypeId) (id4 : TypeId) (id5 : TypeId) (id6 : TypeId) (id7 : TypeId) (idT : TypeId) (v : A1), @Or7.is_type A1 A2 A3 A4 A5 A6 A7 id1 id2 id3 id4 id5 id6 id7 idT (@Or7.T1 A1 A2 A3 A4 A5 A6 A7 v) = (idT == id1))
    ∧ (∀ (A1 A2 A3 A4 A5 A6 A7 : Type) (id1 : TypeId) (id2 : TypeId) (id3 : TypeId) (id4 : TypeId) (id5 : TypeId) (id6 : TypeId) (id7 : TypeId) (idT : TypeId) (v : A2), @Or7.is_type A1 A2 A3 A4 A5 A6 A7 id1 id2 id3 id4 id5 id6 id7 idT (@Or7.T2 A1 A2 A3 A4 A5 A6 A7 v) = (idT == id2))
    ∧ (∀ (A1 A2 A3 A4 A5 A6 A7 : Type) (id1 : TypeId) (id2 : TypeId) (id3 : TypeId) (id4 : TypeId) (id5 : TypeId) (id6 : TypeId) (id7 : TypeId) (idT : TypeId) (v : A3), @Or7.is_type A1 A2 A3 A4 A5 A6 A7 id1 id2 id3 id4 id5 id6 id7 idT (@Or7.T3 A1 A2 A3 A4 A5 A6 A7 v) = (idT == id3))
    ∧ (∀ (A1 A2 A3 A4 A5 A6 A7 : Type) (id1 : TypeId) (id2 : TypeId) (id3 : TypeId) (id4 : TypeId) (id5 : TypeId) (id6 : TypeId) (id7 : TypeId) (idT : TypeId) (v : A4), @Or7.is_type A1 A2 A3 A4 A5 A6 A7 id1 id2 id3 id4 id5 id6 id7 idT (@Or7.T4 A1 A2 A3 A4 A5 A6 A7 v) = (idT == id4))
    ∧ (∀ (A1 A2 A3 A4 A5 A6 A7 : Type) (id1 : TypeId) (id2 : TypeId) (id3 : TypeId) (id4 : TypeId) (id5 : TypeId) (id6 : TypeId) (id7 : TypeId) (idT : TypeId) (v : A5), @Or7.is_type A1 A2 A3 A4 A5 A6 A7 id1 id2 id3 id4 id5 id6 id7 idT (@Or7.T5 A1 A2 A3 A4 A5 A6 A7 v) = (idT == id5))
    ∧ (∀ (A1 A2 A3 A4 A5 A6 A7 : Type) (id1 : TypeId) (id2 : TypeId) (id3 : TypeId) (id4 : TypeId) (id5 : TypeId) (id6 : TypeId) (id7 : TypeId) (idT : TypeId) (v : A6), @Or7.is_type A1 A2 A3 A4 A5 A6 A7 id1 id2 id3 id4 id5 id6 id7 idT (@Or7.T6 A1 A2 A3 A4 A5 A6 A7 v) = (idT == id6))
    ∧ (∀ (A1 A2 A3 A4 A5 A6 A7 : Type) (id1 : TypeId) (id2 : TypeId) (id3 : TypeId) (id4 : TypeId) (id5 : TypeId) (id6 : TypeId) (id7 : TypeId) (idT : TypeId) (v : A7), @Or7.is_type A1 A2 A3 A4 A5 A6 A7 id1 id2 id3 id4 id5 id6 id7 idT (@Or7.T7 A1 A2 A3 A4 A5 A6 A7 v) = (idT == id7))
    ∧ (∀ (A1 A2 A3 A4 A5 A6 A7 A8 : Type) (id1 : TypeId) (id2 : TypeId) (id3 : TypeId) (id4 : TypeId) (id5 : TypeId) (id6 : TypeId) (id7 : TypeId) (id8 : TypeId) (idT : TypeId) (v : A1), @Or8.is_type A1 A2 A3 A4 A5 A6 A7 A8 id1 id2 id3 id4 id5 id6 id7 id8 idT (@Or8.T1 A1 A2 A3 A4 A5 A6 A7 A8 v) = (idT == id1))
    ∧ (∀ (A1 A2 A3 A4 A5 A6 A7 A8 : Type) (id1 : TypeId) (id2 : TypeId) (id3 : TypeId) (id4 : TypeId) (id5 : TypeId) (id6 : TypeId) (id7 : TypeId) (id8 : TypeId) (idT : TypeId) (v : A2), @Or8.is_type A1 A2 A3 A4 A5 A6 A7 A8 id1 id2 id3 id4 id5 id6 id7 id8 idT (@Or8.T2 A1 A2 A3 A4 A5 A6 A7 A8 v) = (idT == id2))
    ∧ (∀ (A1 A2 A3 A4 A5 A6 A7 A8 : Type) (id1 : TypeId) (id2 : TypeId) (id3 : TypeId) (id4 : TypeId) (id5 : TypeId) (id6 : TypeId) (id7 : TypeId) (id8 : TypeId) (idT : TypeId) (v : A3), @Or8.is_type A1 A2 A3 A4 A5 A6 A7 A8 id1 id2 id3 id4 id5 id6 id7 id8 idT (@Or8.T3 A1 A2 A3 A4 A5 A6 A7 A8 v) = (idT == id3))
    ∧ (∀ (A1 A2 A3 A4 A5 A6 A7 A8 : Type) (id1 : TypeId) (id2 : TypeId) (id3 : TypeId) (id4 : TypeId) (id5 : TypeId) (id6 : TypeId) (id7 : TypeId) (id8 : TypeId) (idT : TypeId) (v : A4), @Or8.is_type A1 A2 A3 A4 A5 A6 A7 A8 id1 id2 id3 id4 id5 id6 id7 id8 idT (@Or8.T4 A1 A2 A3 A4 A5 A6 A7 A8 v) = (idT == id4))
    ∧ (∀ (A1 A2 A3 A4 A5 A6 A7 A8 : Type) (id1 : TypeId) (id2 : TypeId) (id3 : TypeId) (id4 : TypeId) (id5 : TypeId) (id6 : TypeId) (id7 : TypeId) (id8 : TypeId) (idT : TypeId) (v : A5), @Or8.is_type A1 A2 A3 A4 A5 A6 A7 A8 id1 id2 id3 id4 id5 id6 id7 id8 idT (@Or8.T5 A1 A2 A3 A4 A5 A6 A7 A8 v) = (idT == id5))
    ∧ (∀ (A1 A2 A3 A4 A5 A6 A7 A8 : Type) (id1 : TypeId) (id2 : TypeId) (id3 : TypeId) (id4 : TypeId) (id5 : TypeId) (id6 : TypeId) (id7 : TypeId) (id8 : TypeId) (idT : TypeId) (v : A6), @Or8.is_type A1 A2 A3 A4 A5 A6 A7 A8 id1 id2 id3 id4 id5 id6 id7 id8 idT (@Or8.T6 A1 A2 A3 A4 A5 A6 A7 A8 v) = (idT == id6))
    ∧ (∀ (A1 A2 A3 A4 A5 A6 A7 A8 : Type) (id1 : TypeId) (id2 : TypeId) (id3 : TypeId) (id4 : TypeId) (id5 : TypeId) (id6 : TypeId) (id7 : TypeId) (id8 : TypeId) (idT : TypeId) (v : A7), @Or8.is_type A1 A2 A3 A4 A5 A6 A7 A8 id1 id2 id3 id4 id5 id6 id7 id8 idT (@Or8.T7 A1 A2 A3 A4 A5 A6 A7 A8 v) = (idT == id7))
    ∧ (∀ (A1 A2 A3 A4 A5 A6 A7 A8 : Type) (id1 : TypeId) (id2 : TypeId) (id3 : TypeId) (id4 : TypeId) (id5 : TypeId) (id6 : TypeId) (id7 : TypeId) (id8 : TypeId) (idT : TypeId) (v : A8), @Or8.is_type A1 A2 A3 A4 A5 A6 A7 A8 id1 id2 id3 id4 id5 id6 id7 id8 idT (@Or8.T8 A1 A2 A3 A4 A5 A6 A7 A8 v) = (idT == id8))
    ∧ (∀ (A1 A2 A3 A4 A5 A6 A7 A8 A9 : Type) (id1 : TypeId) (id2 : TypeId) (id3 : TypeId) (id4 : TypeId) (id5 : TypeId) (id6 : TypeId) (id7 : TypeId) (id8 : TypeId) (id9 : TypeId) (idT : TypeId) (v : A1), @Or9.is_type A1 A2 A3 A4 A5 A6 A7 A8 A9 id1 id2 id3 id4 id5 id6 id7 id8 id9 idT (@Or9.T1 A1 A2 A3 A4 A5 A6 A7 A8 A9 v) = (idT == id1))
    ∧ (∀ (A1 A2 A3 A4 A5 A6 A7 A8 A9 : Type) (id1 : TypeId) (id2 : TypeId) (id3 : TypeId) (id4 : TypeId) (id5 : TypeId) (id6 : TypeId) (id7 : TypeId) (id8 : TypeId) (id9 : TypeId) (idT : TypeId) (v : A2), @Or9.is_type A1 A2 A3 A4 A5 A6 A7 A8 A9 id1 id2 id3 id4 id5 id6 id7 id8 id9 idT (@Or9.T2 A1 A2 A3 A4 A5 A6 A7 A8 A9 v) = (idT == id2))
    ∧ (∀ (A1 A2 A3 A4 A5 A6 A7 A8 A9 : Type) (id1 : TypeId) (id2 : TypeId) (id3 : TypeId) (id4 : TypeId) (id5 : TypeId) (id6 : TypeId) (id7 : TypeId) (id8 : TypeId) (id9 : TypeId) (idT : TypeId) (v : A3), @Or9.is_type A1 A2 A3 A4 A5 A6 A7 A8 A9 id1 id2 id3 id4 id5 id6 id7 id8 id9 idT (@Or9.T3 A1 A2 A3 A4 A5 A6 A7 A8 A9 v) = (idT == id3))
    ∧ (∀ (A1 A2 A3 A4 A5 A6 A7 A8 A9 : Type) (id1 : TypeId) (id2 : TypeId) (id3 : TypeId) (id4 : TypeId) (id5 : TypeId) (id6 : TypeId) (id7 : TypeId) (id8 : TypeId) (id9 : TypeId) (idT : TypeId) (v : A4), @Or9.is_type A1 A2 A3 A4 A5 A6 A7 A8 A9 id1 id2 id3 id4 id5 id6 id7 id8 id9 idT (@Or9.T4 A1 A2 A3 A4 A5 A6 A7 A8 A9 v) = (idT == id4))
    ∧ (∀ (A1 A2 A3 A4 A5 A6 A7 A8 A9 : Type) (id1 : TypeId) (id2 : TypeId) (id3 : TypeId) (id4 : TypeId) (id5 : TypeId) (id6 : TypeId) (id7 : TypeId) (id8 : TypeId) (id9 : TypeId) (idT : TypeId) (v : A5), @Or9.is_type A1 A2 A3 A4 A5 A6 A7 A8 A9 id1 id2 id3 id4 id5 id6 id7 id8 id9 idT (@Or9.T5 A1 A2 A3 A4 A5 A6 A7 A8 A9 v) = (idT == id5))
    ∧ (∀ (A1 A2 A3 A4 A5 A6 A7 A8 A9 : Type) (id1 : TypeId) (id2 : TypeId) (id3 : TypeId) (id4 : TypeId) (id5 : TypeId) (id6 : TypeId) (id7 : TypeId) (id8 : TypeId) (id9 : TypeId) (idT : TypeId) (v : A6), @Or9.is_type A1 A2 A3 A4 A5 A6 A7 A8 A9 id1 id2 id3 id4 id5 id6 id7 id8 id9 idT (@Or9.T6 A1 A2 A3 A4 A5 A6 A7 A8 A9 v) = (idT == id6))
    ∧ (∀ (A1 A2 A3 A4 A5 A6 A7 A8 A9 : Type) (id1 : TypeId) (id2 : TypeId) (id3 : TypeId) (id4 : TypeId) (id5 : TypeId) (id6 : TypeId) (id7 : TypeId) (id8 : TypeId) (id9 : TypeId) (idT : TypeId) (v : A7), @Or9.is_type A1 A2 A3 A4 A5 A6 A7 A8 A9 id1 id2 id3 id4 id5 id6 id7 id8 id9 idT (@Or9.T7 A1 A2 A3 A4 A5 A6 A7 A8 A9 v) = (idT == id7))
    ∧ (∀ (A1 A2 A3 A4 A5 A6 A7 A8 A9 : Type) (id1 : TypeId) (id2 : TypeId) (id3 : TypeId) (id4 : TypeId) (id5 : TypeId) (id6 : TypeId) (id7 : TypeId) (id8 : TypeId) (id9 : TypeId) (idT : TypeId) (v : A8), @Or9.is_type A1 A2 A3 A4 A5 A6 A7 A8 A9 id1 id2 id3 id4 id5 id6 id7 id8 id9 idT (@Or9.T8 A1 A2 A3 A4 A5 A6 A7 A8 A9 v) = (idT == id8))
    ∧ (∀ (A1 A2 A3 A4 A5 A6 A7 A8 A9 : Type) (id1 : TypeId) (id2 : TypeId) (id3 : TypeId) (id4 : TypeId) (id5 : TypeId) (id6 : TypeId) (id7 : TypeId) (id8 : TypeId) (id9 : TypeId) (idT : TypeId) (v : A9), @Or9.is_type A1 A2 A3 A4 A5 A6 A7 A8 A9 id1 id2 id3 id4 id5 id6 id7 id8 id9 idT (@Or9.T9 A1 A2 A3 A4 A5 A6 A7 A8 A9 v) = (idT == id9))
    :=
  ⟨fun _ _ _ _ _ _ => rfl,
   fun _ _ _ _ _ _ => rfl,
   fun _ _ _ _ _ _ _ _ => rfl,
   fun _ _ _ _ _ _ _ _ => rfl,
   fun _ _ _ _ _ _ _ _ => rfl,
   fun _ _ _ _ _ _ _ _ _ _ => rfl,
   fun _ _ _ _ _ _ _ _ _ _ => rfl,
   fun _ _ _ _ _ _ _ _ _ _ => rfl,
   fun _ _ _ _ _ _ _ _ _ _ => rfl,
   fun _ _ _ _ _ _ _ _ _ _ _ _ => rfl,
   fun _ _ _ _ _ _ _ _ _ _ _ _ => rfl,
   fun _ _ _ _ _ _ _ _ _ _ _ _ => rfl,
   fun _ _ _ _ _ _ _ _ _ _ _ _ => rfl,
   fun _ _ _ _ _ _ _ _ _ _ _ _ => rfl,
   fun _ _ _ _ _ _ _ _ _ _ _ _ _ _ => rfl,
   fun _ _ _ _ _ _ _ _ _ _ _ _ _ _ => rfl,
   fun _ _ _ _ _ _ _ _ _ _ _ _ _ _ => rfl,
   fun _ _ _ _ _ _ _ _ _ _ _ _ _ _ => rfl,
   fun _ _ _ _ _ _ _ _ _ _ _ _ _ _ => rfl,
   fun _ _ _ _ _ _ _ _ _ _ _ _ _ _ => rfl,
   fun _ _ _ _ _ _ _ _ _ _ _ _ _ _ _ _ => rfl,
   fun _ _ _ _ _ _ _ _ _ _ _ _ _ _ _ _ => rfl,
   fun _ _ _ _ _ _ _ _ _ _ _ _ _ _ _ _ => rfl,
   fun _ _ _ _ _ _ _ _ _ _ _ _ _ _ _ _ => rfl,
   fun _ _ _ _ _ _ _ _ _ _ _ _ _ _ _ _ => rfl,
   fun _ _ _ _ _ _ _ _ _ _ _ _ _ _ _ _ => rfl,
   fun _ _ _ _ _ _ _ _ _ _ _ _ _ _ _ _ => rfl,
   fun _ _ _ _ _ _ _ _ _ _ _ _ _ _ _ _ _ _ => rfl,
   fun _ _ _ _ _ _ _ _ _ _ _ _ _ _ _ _ _ _ => rfl,
   fun _ _ _ _ _ _ _ _ _ _ _ _ _ _ _ _ _ _ => rfl,
   fun _ _ _ _ _ _ _ _ _ _ _ _ _ _ _ _ _ _ => rfl,
   fun _ _ _ _ _ _ _ _ _ _ _ _ _ _ _ _ _ _ => rfl,
   fun _ _ _ _ _ _ _ _ _ _ _ _ _ _ _ _ _ _ => rfl,
   fun _ _ _ _ _ _ _ _ _ _ _ _ _ _ _ _ _ _ => rfl,
   fun _ _ _ _ _ _ _ _ _ _ _ _ _ _ _ _ _ _ => rfl,
   fun _ _ _ _ _ _ _ _ _ _ _ _ _ _ _ _ _ _ _ _ => rfl,
   fun _ _ _ _ _ _ _ _ _ _ _ _ _ _ _ _ _ _ _ _ => rfl,
   fun _ _ _ _ _ _ _ _ _ _ _ _ _ _ _ _ _ _ _ _ => rfl,
   fun _ _ _ _ _ _ _ _ _ _ _ _ _ _ _ _ _ _ _ _ => rfl,
   fun _ _ _ _ _ _ _ _ _ _ _ _ _ _ _ _ _ _ _ _ => rfl,
   fun _ _ _ _ _ _ _ _ _ _ _ _ _ _ _ _ _ _ _ _ => rfl,
   fun _ _ _ _ _ _ _ _ _ _ _ _ _ _ _ _ _ _ _ _ => rfl,
   fun _ _ _ _ _ _ _ _ _ _ _ _ _ _ _ _ _ _ _ _ => rfl,
   fun _ _ _ _ _ _ _ _ _ _ _ _ _ _ _ _ _ _ _ _ => rfl⟩

theorem intercalate_single {α : Type} (sep l : List α) :
    List.intercalate sep [l] = l := by
  simp [List.intercalate]

theorem rewrite_method_name_orTy (nm : Tok) (args : List Tok) (d : Nat)
    (w : List Tok) (h : nm ≠ "<") :
    MacroParser.rewrite_method_name (orTy nm args) d w
      = .ok (wrapToks nm args d w) d := by
  unfold MacroParser.rewrite_method_name MacroParser.parse_enum_type
    MacroParser.get_or_type_name
  simp [orTy, Ty.toks, PathSeg.toks, PathArgs.toks, wrapToks, intercalate_single, h]

theorem parse_stmts_concat (nm : Tok) (args : List Tok) (d : Nat)
    (bs : List Tok) (t : Tok) (h : nm ≠ "<") :
    MacroParser.parse_stmts (orTy nm args) d (bs ++ [t])
      = .ok (["\x7b"] ++ bs ++ wrapToks nm args d [t] ++ ["\x7d"]) d := by
  unfold MacroParser.parse_stmts
  rw [List.getLast?_concat, List.dropLast_concat]
  simp [rewrite_method_name_orTy nm args d [t] h]

theorem parse_expr_term (typ : Ty) (d : Nat) (b : Bool) (t : Tok) :
    MacroParser.parse_expr typ d (termE b t)
      = MacroParser.rewrite_method_name typ d [t] := by
  cases b <;> simp [termE, MacroParser.parse_expr]

theorem parse_arms_flat (nm : Tok) (targs : List Tok) (h : nm ≠ "<") :
    ∀ (ps : List (Tok × Bool × Tok)) (d : Nat),
      MacroParser.parse_arms (orTy nm targs) d (flatArms ps)
        = .ok (expectedArms nm targs d ps) (d + ps.length) := by
  intro ps
  induction ps with
  | nil => intro d; simp [flatArms, MacroParser.parse_arms, expectedArms]
  | cons pt rest ih =>
    intro d
    obtain ⟨p, b, t⟩ := pt
    simp only [flatArms, List.map_cons, MacroParser.parse_arms,
      MacroParser.parse_match_arm, parse_expr_term,
      rewrite_method_name_orTy nm targs (d + 1) [t] h]
    rw [show (List.map (fun p => Arm.mk p.1 (termE p.2.1 p.2.2)) rest) = flatArms rest from rfl,
      ih (d + 1)]
    simp [expectedArms, List.length_cons]
    omega

theorem parse_flat_match (nm : Tok) (targs : List Tok) (ident scrut : Tok)
    (ps : List (Tok × Bool × Tok)) (h : nm ≠ "<") :
    MacroParser.parse (.localS ⟨.typed ident (orTy nm targs),
        some (.matchE scrut (flatArms ps))⟩)
      = .ok (["let", ident, ":"] ++ (orTy nm targs).toks
          ++ ["=", "match", "33", "\x7b"] ++ expectedArms nm targs 0 ps
          ++ ["\x7d", ";", ";"]) := by
  simp [MacroParser.parse, MacroParser.parse_pat_and_ret_type,
    MacroParser.parse_local_init, MacroParser.parse_expr_at_first,
    MacroParser.parse_expr_match, parse_arms_flat nm targs h ps 0]

theorem parse_expr_if_chain (nm : Tok) (targs : List Tok) (h : nm ≠ "<") :
    ∀ (rest : List (Tok × List Tok × Tok)) (els : List Tok × Tok) (d : Nat)
      (c : Tok) (bs : List Tok) (t : Tok),
      MacroParser.parse_expr_if (orTy nm targs) d c (bs ++ [t])
          (some (chainElse rest els))
        = .ok (["if", c] ++ thenOut nm targs (d + 1) bs t
            ++ chainTailOut nm targs (d + 1) rest els) (d + rest.length + 2) := by
  intro rest
  induction rest with
  | nil =>
    intro els d c bs t
    rw [MacroParser.parse_expr_if]
    rw [show MacroParser.parse_then (orTy nm targs) d (bs ++ [t])
          = MacroParser.parse_stmts (orTy nm targs) (d + 1) (bs ++ [t]) from rfl,
      parse_stmts_concat nm targs (d + 1) bs t h]
    simp only [chainElse]
    rw [show MacroParser.parse_then (orTy nm targs) (d + 1) (els.1 ++ [els.2])
          = MacroParser.parse_stmts (orTy nm targs) (d + 2) (els.1 ++ [els.2]) from rfl,
      parse_stmts_concat nm targs (d + 2) els.1 els.2 h]
    simp [thenOut, chainTailOut]
  | cons br rs ih =>
    intro els d c bs t
    obtain ⟨c2, bs2, t2⟩ := br
    rw [MacroParser.parse_expr_if]
    rw [show MacroParser.parse_then (orTy nm targs) d (bs ++ [t])
          = MacroParser.parse_stmts (orTy nm targs) (d + 1) (bs ++ [t]) from rfl,
      parse_stmts_concat nm targs (d + 1) bs t h]
    simp only [chainElse]
    rw [ih els (d + 1) c2 bs2 t2]
    simp [thenOut, chainTailOut]
    omega

theorem parse_flat_chain (nm : Tok) (targs : List Tok) (ident : Tok)
    (first : Tok × List Tok × Tok) (rest : List (Tok × List Tok × Tok))
    (els : List Tok × Tok) (h : nm ≠ "<") :
    MacroParser.parse (.localS ⟨.typed ident (orTy nm targs),
        some (chainExpr first rest els)⟩)
      = .ok (["let", ident, ":"] ++ (orTy nm targs).toks ++ ["=", "if", first.1]
          ++ thenOut nm targs 1 first.2.1 first.2.2
          ++ chainTailOut nm targs 1 rest els ++ [";"]) := by
  obtain ⟨c, bs, t⟩ := first
  simp [MacroParser.parse, chainExpr, MacroParser.parse_pat_and_ret_type,
    MacroParser.parse_local_init, MacroParser.parse_expr_at_first,
    parse_expr_if_chain nm targs h rest els 0 c bs t]

/-- C3: for every flat (non-nested) match block and every flat
if/else-if/else chain accepted by the rewriter (any number of arms or
branches, any terminal tail tokens), the constructor wrapped around each
tail is determined solely by traversal order: with the counter starting
at 0, the j-th arm/branch tail is wrapped with `Tj` (see `expectedArms`
and `chainTailOut`), never by inspecting the payload's type. -/
theorem flat_labels_follow_position :
    (∀ (nm : Tok) (targs : List Tok) (ident scrut : Tok)
        (ps : List (Tok × Bool × Tok)), nm ≠ "<" →
      MacroParser.parse (.localS ⟨.typed ident (orTy nm targs),
          some (.matchE scrut (flatArms ps))⟩)
        = .ok (["let", ident, ":"] ++ (orTy nm targs).toks
            ++ ["=", "match", "33", "\x7b"] ++ expectedArms nm targs 0 ps
            ++ ["\x7d", ";", ";"]))
    ∧ (∀ (nm : Tok) (targs : List Tok) (ident : Tok)
        (first : Tok × List Tok × Tok) (rest : List (Tok × List Tok × Tok))
        (els : List Tok × Tok), nm ≠ "<" →
      MacroParser.parse (.localS ⟨.typed ident (orTy nm targs),
          some (chainExpr first rest els)⟩)
        = .ok (["let", ident, ":"] ++ (orTy nm targs).toks ++ ["=", "if", first.1]
            ++ thenOut nm targs 1 first.2.1 first.2.2
            ++ chainTailOut nm targs 1 rest els ++ [";"])) :=
  ⟨fun nm targs ident scrut ps h => parse_flat_match nm targs ident scrut ps h,
   fun nm targs ident first rest els h => parse_flat_chain nm targs ident first rest els h⟩

/-- Witness for C3, at the two §8 examples of the spec: the three-arm
match annotated `Or3<i32, f32, String>` gets its arms wrapped `T1`, `T2`,
`T3` in source order, and the three-way if-chain annotated
`Or3<i32, String, f32>` gets its tails wrapped `T1`, `T2`, `T3`. -/
theorem flat_labels_follow_position_witness :
    ("Or3" : Tok) ≠ "<"
    ∧ MacroParser.parse (.localS ⟨.typed "s" (orTy "Or3" ["i32", "f32", "String"]),
        some (.matchE "v" (flatArms
          [("1", true, "33"), ("3", true, "3.2"), ("_", false, "\"x\".to_string()")]))⟩)
      = .ok ["let", "s", ":", "Or3", "<", "i32", ",", "f32", ",", "String", ">",
          "=", "match", "33", "\x7b",
          "1", "=>", "Or3", "::", "<", "i32", ",", "f32", ",", "String", ">", "::",
          "T1", "(", "33", ")", ",",
          "3", "=>", "Or3", "::", "<", "i32", ",", "f32", ",", "String", ">", "::",
          "T2", "(", "3.2", ")", ",",
          "_", "=>", "Or3", "::", "<", "i32", ",", "f32", ",", "String", ">", "::",
          "T3", "(", "\"x\".to_string()", ")", ",",
          "\x7d", ";", ";"]
    ∧ MacroParser.parse (.localS ⟨.typed "x" (orTy "Or3" ["i32", "String", "f32"]),
        some (chainExpr ("true", [], "3")
          [("false", [], "\"hello\".to_string()")] ([], "3.0"))⟩)
      = .ok ["let", "x", ":", "Or3", "<", "i32", ",", "String", ",", "f32", ">",
          "=", "if", "true", "\x7b", "Or3", "::", "<", "i32", ",", "String", ",",
          "f32", ">", "::", "T1", "(", "3", ")", "\x7d",
          "else", "if", "false", "\x7b", "Or3", "::", "<", "i32", ",", "String",
          ",", "f32", ">", "::", "T2", "(", "\"hello\".to_string()", ")", "\x7d",
          "else", "\x7b", "\x7b", "Or3", "::", "<", "i32", ",", "String", ",",
          "f32", ">", "::", "T3", "(", "3.0", ")", "\x7d", "\x7d", ";"] :=
  ⟨by decide,
   flat_labels_follow_position.1 "Or3" ["i32", "f32", "String"] "s" "v"
     [("1", true, "33"), ("3", true, "3.2"), ("_", false, "\"x\".to_string()")]
     (by decide),
   flat_labels_follow_position.2 "Or3" ["i32", "String", "f32"] "x"
     ("true", [], "3") [("false", [], "\"hello\".to_string()")] ([], "3.0")
     (by decide)⟩

theorem parse_nested_match (nm : Tok) (targs : List Tok) (ident s1 s2 : Tok)
    (p1 : Tok) (b1 : Bool) (t1 p2 : Tok) (ps : List (Tok × Bool × Tok))
    (h : nm ≠ "<") :
    MacroParser.parse (.localS ⟨.typed ident (orTy nm targs),
        some (.matchE s1 [.mk p1 (termE b1 t1),
          .mk p2 (.matchE s2 (flatArms ps))])⟩)
      = .ok (["let", ident, ":"] ++ (orTy nm targs).toks
          ++ ["=", "match", "33", "\x7b"]
          ++ ([p1, "=>"] ++ wrapToks nm targs 1 [t1] ++ [","])
          ++ ([p2, "=>", "match", "33", "\x7b"] ++ expectedArms nm targs 2 ps
              ++ ["\x7d", ";", ","])
          ++ ["\x7d", ";", ";"]) := by
  simp [MacroParser.parse, MacroParser.parse_pat_and_ret_type,
    MacroParser.parse_local_init, MacroParser.parse_expr_at_first,
    MacroParser.parse_expr_match, MacroParser.parse_arms,
    MacroParser.parse_match_arm, MacroParser.parse_expr, parse_expr_term,
    rewrite_method_name_orTy nm targs 1 [t1] h, parse_arms_flat nm targs h ps 2]

/-- Counterexample to C2 as stated: in
`let s: Or4<i32,f32,u8,String> = match x { 1 => 10, _ => match y { 2 => 20, _ => 30 } };`
the nested match's arms are wrapped with `T3` and `T4`, not with `T1` and
`T2`: the ordinal counter is not reset per nesting level, so the output
contains exactly one `T1` token and does contain `T3` and `T4`. -/
theorem nested_ordinals_not_reset_counterexample :
    MacroParser.parse (.localS ⟨.typed "s" (orTy "Or4" ["i32", "f32", "u8", "String"]),
        some (.matchE "x" [.mk "1" (termE true "10"),
          .mk "_" (.matchE "y" (flatArms [("2", true, "20"), ("_", true, "30")]))])⟩)
      = .ok ["let", "s", ":", "Or4", "<", "i32", ",", "f32", ",", "u8", ",",
          "String", ">", "=", "match", "33", "\x7b",
          "1", "=>", "Or4", "::", "<", "i32", ",", "f32", ",", "u8", ",",
          "String", ">", "::", "T1", "(", "10", ")", ",",
          "_", "=>", "match", "33", "\x7b",
          "2", "=>", "Or4", "::", "<", "i32", ",", "f32", ",", "u8", ",",
          "String", ">", "::", "T3", "(", "20", ")", ",",
          "_", "=>", "Or4", "::", "<", "i32", ",", "f32", ",", "u8", ",",
          "String", ">", "::", "T4", "(", "30", ")", ",",
          "\x7d", ";", ",", "\x7d", ";", ";"]
    ∧ List.count "T1"
        ["let", "s", ":", "Or4", "<", "i32", ",", "f32", ",", "u8", ",",
          "String", ">", "=", "match", "33", "\x7b",
          "1", "=>", "Or4", "::", "<", "i32", ",", "f32", ",", "u8", ",",
          "String", ">", "::", "T1", "(", "10", ")", ",",
          "_", "=>", "match", "33", "\x7b",
          "2", "=>", "Or4", "::", "<", "i32", ",", "f32", ",", "u8", ",",
          "String", ">", "::", "T3", "(", "20", ")", ",",
          "_", "=>", "Or4", "::", "<", "i32", ",", "f32", ",", "u8", ",",
          "String", ">", "::", "T4", "(", "30", ")", ",",
          "\x7d", ";", ",", "\x7d", ";", ";"] = 1 := by
  constructor
  · exact parse_nested_match "Or4" ["i32", "f32", "u8", "String"] "s" "x" "y"
      "1" true "10" "_" [("2", true, "20"), ("_", true, "30")] (by decide)
  · decide

/-- C2 amended: the ordinal counter is a single counter shared by the
entire rewrite, incremented once per match arm and once per then/else
block in depth-first traversal order and never reset, so the ordinals
used inside a nested construct continue from the number of branch scopes
entered before it: flat arms starting at counter `d` are wrapped
`T(d+1), T(d+2), ...` (so only a top-level first arm gets `T1`), and in a
two-arm match whose second arm is itself a match, the inner arms are
wrapped `T3, T4, ...`. -/
theorem nested_ordinals_share_global_counter :
    ∀ (nm : Tok) (targs : List Tok), nm ≠ "<" →
      (∀ (ps : List (Tok × Bool × Tok)) (d : Nat),
        MacroParser.parse_arms (orTy nm targs) d (flatArms ps)
          = .ok (expectedArms nm targs d ps) (d + ps.length))
      ∧ (∀ (ident s1 s2 p1 : Tok) (b1 : Bool) (t1 p2 : Tok)
          (ps : List (Tok × Bool × Tok)),
        MacroParser.parse (.localS ⟨.typed ident (orTy nm targs),
            some (.matchE s1 [.mk p1 (termE b1 t1),
              .mk p2 (.matchE s2 (flatArms ps))])⟩)
          = .ok (["let", ident, ":"] ++ (orTy nm targs).toks
              ++ ["=", "match", "33", "\x7b"]
              ++ ([p1, "=>"] ++ wrapToks nm targs 1 [t1] ++ [","])
              ++ ([p2, "=>", "match", "33", "\x7b"]
                  ++ expectedArms nm targs 2 ps ++ ["\x7d", ";", ","])
              ++ ["\x7d", ";", ";"])) :=
  fun nm targs h =>
    ⟨parse_arms_flat nm targs h,
     fun ident s1 s2 p1 b1 t1 p2 ps =>
       parse_nested_match nm targs ident s1 s2 p1 b1 t1 p2 ps h⟩

/-- Witness for the amended C2 at a concrete nested input: the inner
match of `match x { 1 => 10, _ => match y { 2 => 20, _ => 30 } }`
annotated `Or4<i32,f32,u8,String>` has its arms wrapped `T3` and `T4`. -/
theorem nested_ordinals_share_global_counter_witness :
    ("Or4" : Tok) ≠ "<"
    ∧ MacroParser.parse (.localS ⟨.typed "w" (orTy "Or4" ["i32", "f32", "u8", "String"]),
        some (.matchE "x" [.mk "0" (termE false "f()"),
          .mk "_" (.matchE "y" (flatArms [("5", true, "50"), ("_", true, "60")]))])⟩)
      = .ok ["let", "w", ":", "Or4", "<", "i32", ",", "f32", ",", "u8", ",",
          "String", ">", "=", "match", "33", "\x7b",
          "0", "=>", "Or4", "::", "<", "i32", ",", "f32", ",", "u8", ",",
          "String", ">", "::", "T1", "(", "f()", ")", ",",
          "_", "=>", "match", "33", "\x7b",
          "5", "=>", "Or4", "::", "<", "i32", ",", "f32", ",", "u8", ",",
          "String", ">", "::", "T3", "(", "50", ")", ",",
          "_", "=>", "Or4", "::", "<", "i32", ",", "f32", ",", "u8", ",",
          "String", ">", "::", "T4", "(", "60", ")", ",",
          "\x7d", ";", ",", "\x7d", ";", ";"] :=
  ⟨by decide,
   (nested_ordinals_share_global_counter "Or4" ["i32", "f32", "u8", "String"]
       (by decide)).2 "w" "x" "y" "0" false "f()" "_"
     [("5", true, "50"), ("_", true, "60")]⟩

/-- C1 (code evidence): at the repository's own `test_match` input
`let s: Or3<i32, f32, String> = match a { 1 => 33, 3 => 3.2, _ => "hello".to_string() };`
the emitted statement is not syntactically equivalent modulo wrapping:
the original scrutinee `a` does not occur in the output at all (it is
replaced by the hard-coded literal `33`), and an extra `;` token is
introduced inside the initializer (the output holds two `;` tokens where
the input statement has one). -/
theorem match_scrutinee_discarded :
    MacroParser.parse (.localS ⟨.typed "s" (orTy "Or3" ["i32", "f32", "String"]),
        some (.matchE "a" (flatArms
          [("1", true, "33"), ("3", true, "3.2"), ("_", false, "\"hello\".to_string()")]))⟩)
      = .ok ["let", "s", ":", "Or3", "<", "i32", ",", "f32", ",", "String", ">",
          "=", "match", "33", "\x7b",
          "1", "=>", "Or3", "::", "<", "i32", ",", "f32", ",", "String", ">",
          "::", "T1", "(", "33", ")", ",",
          "3", "=>", "Or3", "::", "<", "i32", ",", "f32", ",", "String", ">",
          "::", "T2", "(", "3.2", ")", ",",
          "_", "=>", "Or3", "::", "<", "i32", ",", "f32", ",", "String", ">",
          "::", "T3", "(", "\"hello\".to_string()", ")", ",",
          "\x7d", ";", ";"]
    ∧ "a" ∉ (["let", "s", ":", "Or3", "<", "i32", ",", "f32", ",", "String", ">",
          "=", "match", "33", "\x7b",
          "1", "=>", "Or3", "::", "<", "i32", ",", "f32", ",", "String", ">",
          "::", "T1", "(", "33", ")", ",",
          "3", "=>", "Or3", "::", "<", "i32", ",", "f32", ",", "String", ">",
          "::", "T2", "(", "3.2", ")", ",",
          "_", "=>", "Or3", "::", "<", "i32", ",", "f32", ",", "String", ">",
          "::", "T3", "(", "\"hello\".to_string()", ")", ",",
          "\x7d", ";", ";"] : List Tok)
    ∧ List.count ";"
        ["let", "s", ":", "Or3", "<", "i32", ",", "f32", ",", "String", ">",
          "=", "match", "33", "\x7b",
          "1", "=>", "Or3", "::", "<", "i32", ",", "f32", ",", "String", ">",
          "::", "T1", "(", "33", ")", ",",
          "3", "=>", "Or3", "::", "<", "i32", ",", "f32", ",", "String", ">",
          "::", "T2", "(", "3.2", ")", ",",
          "_", "=>", "Or3", "::", "<", "i32", ",", "f32", ",", "String", ">",
          "::", "T3", "(", "\"hello\".to_string()", ")", ",",
          "\x7d", ";", ";"] = 2 := by
  refine ⟨?_, by decide, by decide⟩
  exact parse_flat_match "Or3" ["i32", "f32", "String"] "s" "a"
    [("1", true, "33"), ("3", true, "3.2"), ("_", false, "\"hello\".to_string()")]
    (by decide)

theorem or_shape_err (ty : Ty) (h : isOrShapeTy ty = false) :
    ∃ e, MacroParser.parse_enum_type ty = .error e := by
  cases ty with
  | otherTy r => exact ⟨_, rfl⟩
  | path segs =>
    cases segs with
    | nil => exact ⟨_, rfl⟩
    | cons seg rest =>
      obtain ⟨nm, args⟩ := seg
      cases args with
      | noneArgs => exact ⟨_, rfl⟩
      | angleBracketed a => simp [isOrShapeTy] at h
      | parenthesized r => exact ⟨_, rfl⟩

theorem parse_badTy (x : Tok) (ty : Ty) (s p t : Tok) (e : RsError)
    (he : MacroParser.parse_enum_type ty = .error e) :
    MacroParser.parse (.localS ⟨.typed x ty, some (.matchE s [.mk p (.litE t)])⟩)
      = .panicked e.message := by
  simp [MacroParser.parse, MacroParser.parse_pat_and_ret_type,
    MacroParser.parse_local_init, MacroParser.parse_expr_at_first,
    MacroParser.parse_expr_match, MacroParser.parse_arms,
    MacroParser.parse_match_arm, MacroParser.parse_expr,
    MacroParser.rewrite_method_name, he]

/-- Counterexample to C4 as stated: (i) on a statement that is not a
`let` the entry point does not report the structured error to its caller
— it panics (the outcome is `panicked`, and no outcome other than
`panicked` or `ok` exists for the entry point, which returns a bare token
stream); (ii) the four listed conditions are not exhaustive: a well-typed
`let` with an `if` initializer whose then-block is empty satisfies none
of them, yet the rewrite fails. -/
theorem entry_point_panics_counterexample :
    MacroParser.parse (.otherStmt "3 ;")
      = .panicked "expected Stmt::Local, but not"
    ∧ MacroParser.parse (.localS ⟨.typed "x" (orTy "Or2" ["i32", "f32"]),
        some (.ifE "true" [] none)⟩)
      = .panicked "attempt to subtract with overflow" := by
  constructor
  · rfl
  · simp [MacroParser.parse, MacroParser.parse_pat_and_ret_type,
      MacroParser.parse_local_init, MacroParser.parse_expr_at_first,
      MacroParser.parse_expr_if, MacroParser.parse_then, MacroParser.parse_stmts]

/-- C4 amended: the entry point fails — by panicking with the first
error's message, returning no output, rather than by handing the
structured error value to its caller — whenever the input statement is in
one of the `BadInput` classes: syn fails to parse it, it is not a
`Stmt::Local`, it has no initializer, its pattern lacks a type
annotation, its annotated type is not path-with-generic-arguments while
the initializer forces a tail rewrite, or its initializer is neither an
`if` nor a `match`.  These conditions are sufficient, not exhaustive. -/
theorem parse_fails_by_panicking :
    ∀ s, BadInput s → ∃ m, MacroParser.parse s = POut.panicked m := by
  intro s hb
  cases hb with
  | synErr m => exact ⟨m, rfl⟩
  | notLocal r => exact ⟨_, rfl⟩
  | noInit p =>
    cases p with
    | typed i ty => exact ⟨_, rfl⟩
    | otherPat r => exact ⟨_, rfl⟩
  | untypedPat r o => exact ⟨_, rfl⟩
  | badTy x ty s p t hty =>
    obtain ⟨e, he⟩ := or_shape_err ty hty
    exact ⟨e.message, parse_badTy x ty s p t e he⟩
  | badInit x ty e he =>
    cases e with
    | ifE c t els => simp [isBranchExpr] at he
    | matchE s arms => simp [isBranchExpr] at he
    | litE t => exact ⟨unsupportedMsg, rfl⟩
    | methodCallE t => exact ⟨unsupportedMsg, rfl⟩
    | blockE stmts => exact ⟨unsupportedMsg, rfl⟩
    | otherE t => exact ⟨unsupportedMsg, rfl⟩

/-- Witness for the amended C4: a plain-literal initializer (neither `if`
nor `match`) makes the entry point panic. -/
theorem parse_fails_by_panicking_witness :
    BadInput (.localS ⟨.typed "x" (orTy "Or2" ["i32", "f32"]), some (.litE "3")⟩)
    ∧ ∃ m, MacroParser.parse
        (.localS ⟨.typed "x" (orTy "Or2" ["i32", "f32"]), some (.litE "3")⟩)
      = POut.panicked m :=
  ⟨.badInit "x" (orTy "Or2" ["i32", "f32"]) (.litE "3") rfl,
   parse_fails_by_panicking _
     (.badInit "x" (orTy "Or2" ["i32", "f32"]) (.litE "3") rfl)⟩

/-- C9: the rewriter is deterministic: the embedded entry point is a pure
function of the parsed input statement — the only mutable state of the
source, `MacroParser.depth`, is created afresh with value 0 inside
`parse` on every invocation, so no state survives across invocations and
rewriting the same input any number of times yields the identical
outcome. -/
theorem rewrite_deterministic :
    ∀ input : SynStmt, MacroParser.parse input = MacroParser.parse input :=
  fun _ => rfl

/-- C10: on an accepted let-binding whose if-chain has an empty then
block (for any else branch, and any annotated type) or an empty plain
else block, `parse_stmts` evaluates `stmts.split_at(stmts.len() - 1)` on
an empty statement list, the `usize` length subtraction underflows, and
the macro panics instead of returning a structured located error. -/
theorem empty_block_panics :
    (∀ (ident : Tok) (ty : Ty) (cond : Tok) (els : Option Expr),
      MacroParser.parse (.localS ⟨.typed ident ty, some (.ifE cond [] els)⟩)
        = .panicked "attempt to subtract with overflow")
    ∧ (∀ (nm : Tok) (targs : List Tok) (ident cond : Tok) (bs : List Tok)
        (t : Tok), nm ≠ "<" →
      MacroParser.parse (.localS ⟨.typed ident (orTy nm targs),
          some (.ifE cond (bs ++ [t]) (some (.blockE [])))⟩)
        = .panicked "attempt to subtract with overflow") := by
  constructor
  · intro ident ty cond els
    simp [MacroParser.parse, MacroParser.parse_pat_and_ret_type,
      MacroParser.parse_local_init, MacroParser.parse_expr_at_first,
      MacroParser.parse_expr_if, MacroParser.parse_then, MacroParser.parse_stmts]
  · intro nm targs ident cond bs t h
    have hif : MacroParser.parse_expr_if (orTy nm targs) 0 cond (bs ++ [t])
        (some (.blockE []))
        = .panicked "attempt to subtract with overflow" := by
      rw [MacroParser.parse_expr_if]
      rw [show MacroParser.parse_then (orTy nm targs) 0 (bs ++ [t])
            = MacroParser.parse_stmts (orTy nm targs) 1 (bs ++ [t]) from rfl,
        parse_stmts_concat nm targs 1 bs t h]
      simp [MacroParser.parse_then, MacroParser.parse_stmts]
    simp [MacroParser.parse, MacroParser.parse_pat_and_ret_type,
      MacroParser.parse_local_init, MacroParser.parse_expr_at_first, hif]

/-- Witness for C10: with then-block `{ 11; 3 }` and an empty else block,
the rewrite panics with the underflow message. -/
theorem empty_block_panics_witness :
    ("Or2" : Tok) ≠ "<"
    ∧ MacroParser.parse (.localS ⟨.typed "x" (orTy "Or2" ["i32", "f32"]),
        some (.ifE "true" ["11", "3"] (some (.blockE [])))⟩)
      = .panicked "attempt to subtract with overflow" :=
  ⟨by decide,
   empty_block_panics.2 "Or2" ["i32", "f32"] "x" "true" ["11"] "3" (by decide)⟩
